import Mathlib

/-!
# bitcoin-clib: RIPEMD-160, the database engine wrapper and the sighash digest contract

A shallow embedding of `src/base/ripemd160.c`, `src/db_engine.c` and the
`satoshi-tx.h` digest contract, with the properties proved about them.

Machine integers are natural numbers reduced modulo `2 ^ w` at every
operation that can overflow; byte strings are lists of naturals and every
read of a byte reduces it modulo 256.
-/

set_option maxRecDepth 100000

namespace Ripemd160

/-- The five 32-bit chaining words `uint32_t s[5]`. -/
abbrev State5 := Nat × Nat × Nat × Nat × Nat

/-- Bitwise complement of a `uint32_t`. -/
def not32 (x : Nat) : Nat := x ^^^ 0xFFFFFFFF

def f1 (x y z : Nat) : Nat := x ^^^ y ^^^ z
def f2 (x y z : Nat) : Nat := (x &&& y) ||| (not32 x &&& z)
def f3 (x y z : Nat) : Nat := (x ||| not32 y) ^^^ z
def f4 (x y z : Nat) : Nat := (x &&& z) ||| (y &&& not32 z)
def f5 (x y z : Nat) : Nat := x ^^^ (y ||| not32 z)

/-- Initialize RIPEMD-160 state. -/
def Initialize : State5 :=
  (0x67452301, 0xEFCDAB89, 0x98BADCFE, 0x10325476, 0xC3D2E1F0)

/-- The `uint32_t` rotation `(x << i) | (x >> (32 - i))`. -/
def rol (x i : Nat) : Nat := ((x <<< i) % 2 ^ 32) ||| (x >>> (32 - i))

/-- One step: `*a = rol(*a + f + x + k, r) + e; *c = rol(*c, 10);`.
The pair returned is the new `(*a, *c)`. -/
def Round (a _b c _d e f x k r : Nat) : Nat × Nat :=
  ((rol ((a + f + x + k) % 2 ^ 32) r + e) % 2 ^ 32, rol c 10)

def R11 (a b c d e x r : Nat) : Nat × Nat := Round a b c d e (f1 b c d) x 0 r
def R21 (a b c d e x r : Nat) : Nat × Nat := Round a b c d e (f2 b c d) x 0x5A827999 r
def R31 (a b c d e x r : Nat) : Nat × Nat := Round a b c d e (f3 b c d) x 0x6ED9EBA1 r
def R41 (a b c d e x r : Nat) : Nat × Nat := Round a b c d e (f4 b c d) x 0x8F1BBCDC r
def R51 (a b c d e x r : Nat) : Nat × Nat := Round a b c d e (f5 b c d) x 0xA953FD4E r

def R12 (a b c d e x r : Nat) : Nat × Nat := Round a b c d e (f5 b c d) x 0x50A28BE6 r
def R22 (a b c d e x r : Nat) : Nat × Nat := Round a b c d e (f4 b c d) x 0x5C4DD124 r
def R32 (a b c d e x r : Nat) : Nat × Nat := Round a b c d e (f3 b c d) x 0x6D703EF3 r
def R42 (a b c d e x r : Nat) : Nat × Nat := Round a b c d e (f2 b c d) x 0x7A6D76E9 r
def R52 (a b c d e x r : Nat) : Nat × Nat := Round a b c d e (f1 b c d) x 0 r

/-- Modelled from the spec: `ReadLE32` of `common.h` (absent from the sources),
the little-endian read of four bytes at `p + off`. -/
def ReadLE32 (p : List Nat) (off : Nat) : Nat :=
  p.getD off 0 % 256 + p.getD (off + 1) 0 % 256 * 2 ^ 8
    + p.getD (off + 2) 0 % 256 * 2 ^ 16 + p.getD (off + 3) 0 % 256 * 2 ^ 24

/-- Modelled from the spec: `WriteLE32` of `common.h` (absent from the sources),
the four bytes of a `uint32_t`, least significant first. -/
def WriteLE32 (x : Nat) : List Nat :=
  [x % 256, x / 2 ^ 8 % 256, x / 2 ^ 16 % 256, x / 2 ^ 24 % 256]

/-- Modelled from the spec: `WriteLE64` of `common.h` (absent from the sources),
the eight bytes of a `uint64_t`, least significant first. -/
def WriteLE64 (x : Nat) : List Nat :=
  [x % 256, x / 2 ^ 8 % 256, x / 2 ^ 16 % 256, x / 2 ^ 24 % 256,
   x / 2 ^ 32 % 256, x / 2 ^ 40 % 256, x / 2 ^ 48 % 256, x / 2 ^ 56 % 256]

/-- Perform a RIPEMD-160 transformation, processing a 64-byte chunk. -/
def Transform (s : State5) (chunk : List Nat) : State5 :=
  let (s0, s1, s2, s3, s4) := s
  let a1 := s0
  let b1 := s1
  let c1 := s2
  let d1 := s3
  let e1 := s4
  let a2 := a1
  let b2 := b1
  let c2 := c1
  let d2 := d1
  let e2 := e1
  let w0 := ReadLE32 chunk 0
  let w1 := ReadLE32 chunk 4
  let w2 := ReadLE32 chunk 8
  let w3 := ReadLE32 chunk 12
  let w4 := ReadLE32 chunk 16
  let w5 := ReadLE32 chunk 20
  let w6 := ReadLE32 chunk 24
  let w7 := ReadLE32 chunk 28
  let w8 := ReadLE32 chunk 32
  let w9 := ReadLE32 chunk 36
  let w10 := ReadLE32 chunk 40
  let w11 := ReadLE32 chunk 44
  let w12 := ReadLE32 chunk 48
  let w13 := ReadLE32 chunk 52
  let w14 := ReadLE32 chunk 56
  let w15 := ReadLE32 chunk 60

  let (a1, c1) := R11 a1 b1 c1 d1 e1 w0 11
  let (a2, c2) := R12 a2 b2 c2 d2 e2 w5 8
  let (e1, b1) := R11 e1 a1 b1 c1 d1 w1 14
  let (e2, b2) := R12 e2 a2 b2 c2 d2 w14 9
  let (d1, a1) := R11 d1 e1 a1 b1 c1 w2 15
  let (d2, a2) := R12 d2 e2 a2 b2 c2 w7 9
  let (c1, e1) := R11 c1 d1 e1 a1 b1 w3 12
  let (c2, e2) := R12 c2 d2 e2 a2 b2 w0 11
  let (b1, d1) := R11 b1 c1 d1 e1 a1 w4 5
  let (b2, d2) := R12 b2 c2 d2 e2 a2 w9 13
  let (a1, c1) := R11 a1 b1 c1 d1 e1 w5 8
  let (a2, c2) := R12 a2 b2 c2 d2 e2 w2 15
  let (e1, b1) := R11 e1 a1 b1 c1 d1 w6 7
  let (e2, b2) := R12 e2 a2 b2 c2 d2 w11 15
  let (d1, a1) := R11 d1 e1 a1 b1 c1 w7 9
  let (d2, a2) := R12 d2 e2 a2 b2 c2 w4 5
  let (c1, e1) := R11 c1 d1 e1 a1 b1 w8 11
  let (c2, e2) := R12 c2 d2 e2 a2 b2 w13 7
  let (b1, d1) := R11 b1 c1 d1 e1 a1 w9 13
  let (b2, d2) := R12 b2 c2 d2 e2 a2 w6 7
  let (a1, c1) := R11 a1 b1 c1 d1 e1 w10 14
  let (a2, c2) := R12 a2 b2 c2 d2 e2 w15 8
  let (e1, b1) := R11 e1 a1 b1 c1 d1 w11 15
  let (e2, b2) := R12 e2 a2 b2 c2 d2 w8 11
  let (d1, a1) := R11 d1 e1 a1 b1 c1 w12 6
  let (d2, a2) := R12 d2 e2 a2 b2 c2 w1 14
  let (c1, e1) := R11 c1 d1 e1 a1 b1 w13 7
  let (c2, e2) := R12 c2 d2 e2 a2 b2 w10 14
  let (b1, d1) := R11 b1 c1 d1 e1 a1 w14 9
  let (b2, d2) := R12 b2 c2 d2 e2 a2 w3 12
  let (a1, c1) := R11 a1 b1 c1 d1 e1 w15 8
  let (a2, c2) := R12 a2 b2 c2 d2 e2 w12 6

  let (e1, b1) := R21 e1 a1 b1 c1 d1 w7 7
  let (e2, b2) := R22 e2 a2 b2 c2 d2 w6 9
  let (d1, a1) := R21 d1 e1 a1 b1 c1 w4 6
  let (d2, a2) := R22 d2 e2 a2 b2 c2 w11 13
  let (c1, e1) := R21 c1 d1 e1 a1 b1 w13 8
  let (c2, e2) := R22 c2 d2 e2 a2 b2 w3 15
  let (b1, d1) := R21 b1 c1 d1 e1 a1 w1 13
  let (b2, d2) := R22 b2 c2 d2 e2 a2 w7 7
  let (a1, c1) := R21 a1 b1 c1 d1 e1 w10 11
  let (a2, c2) := R22 a2 b2 c2 d2 e2 w0 12
  let (e1, b1) := R21 e1 a1 b1 c1 d1 w6 9
  let (e2, b2) := R22 e2 a2 b2 c2 d2 w13 8
  let (d1, a1) := R21 d1 e1 a1 b1 c1 w15 7
  let (d2, a2) := R22 d2 e2 a2 b2 c2 w5 9
  let (c1, e1) := R21 c1 d1 e1 a1 b1 w3 15
  let (c2, e2) := R22 c2 d2 e2 a2 b2 w10 11
  let (b1, d1) := R21 b1 c1 d1 e1 a1 w12 7
  let (b2, d2) := R22 b2 c2 d2 e2 a2 w14 7
  let (a1, c1) := R21 a1 b1 c1 d1 e1 w0 12
  let (a2, c2) := R22 a2 b2 c2 d2 e2 w15 7
  let (e1, b1) := R21 e1 a1 b1 c1 d1 w9 15
  let (e2, b2) := R22 e2 a2 b2 c2 d2 w8 12
  let (d1, a1) := R21 d1 e1 a1 b1 c1 w5 9
  let (d2, a2) := R22 d2 e2 a2 b2 c2 w12 7
  let (c1, e1) := R21 c1 d1 e1 a1 b1 w2 11
  let (c2, e2) := R22 c2 d2 e2 a2 b2 w4 6
  let (b1, d1) := R21 b1 c1 d1 e1 a1 w14 7
  let (b2, d2) := R22 b2 c2 d2 e2 a2 w9 15
  let (a1, c1) := R21 a1 b1 c1 d1 e1 w11 13
  let (a2, c2) := R22 a2 b2 c2 d2 e2 w1 13
  let (e1, b1) := R21 e1 a1 b1 c1 d1 w8 12
  let (e2, b2) := R22 e2 a2 b2 c2 d2 w2 11

  let (d1, a1) := R31 d1 e1 a1 b1 c1 w3 11
  let (d2, a2) := R32 d2 e2 a2 b2 c2 w15 9
  let (c1, e1) := R31 c1 d1 e1 a1 b1 w10 13
  let (c2, e2) := R32 c2 d2 e2 a2 b2 w5 7
  let (b1, d1) := R31 b1 c1 d1 e1 a1 w14 6
  let (b2, d2) := R32 b2 c2 d2 e2 a2 w1 15
  let (a1, c1) := R31 a1 b1 c1 d1 e1 w4 7
  let (a2, c2) := R32 a2 b2 c2 d2 e2 w3 11
  let (e1, b1) := R31 e1 a1 b1 c1 d1 w9 14
  let (e2, b2) := R32 e2 a2 b2 c2 d2 w7 8
  let (d1, a1) := R31 d1 e1 a1 b1 c1 w15 9
  let (d2, a2) := R32 d2 e2 a2 b2 c2 w14 6
  let (c1, e1) := R31 c1 d1 e1 a1 b1 w8 13
  let (c2, e2) := R32 c2 d2 e2 a2 b2 w6 6
  let (b1, d1) := R31 b1 c1 d1 e1 a1 w1 15
  let (b2, d2) := R32 b2 c2 d2 e2 a2 w9 14
  let (a1, c1) := R31 a1 b1 c1 d1 e1 w2 14
  let (a2, c2) := R32 a2 b2 c2 d2 e2 w11 12
  let (e1, b1) := R31 e1 a1 b1 c1 d1 w7 8
  let (e2, b2) := R32 e2 a2 b2 c2 d2 w8 13
  let (d1, a1) := R31 d1 e1 a1 b1 c1 w0 13
  let (d2, a2) := R32 d2 e2 a2 b2 c2 w12 5
  let (c1, e1) := R31 c1 d1 e1 a1 b1 w6 6
  let (c2, e2) := R32 c2 d2 e2 a2 b2 w2 14
  let (b1, d1) := R31 b1 c1 d1 e1 a1 w13 5
  let (b2, d2) := R32 b2 c2 d2 e2 a2 w10 13
  let (a1, c1) := R31 a1 b1 c1 d1 e1 w11 12
  let (a2, c2) := R32 a2 b2 c2 d2 e2 w0 13
  let (e1, b1) := R31 e1 a1 b1 c1 d1 w5 7
  let (e2, b2) := R32 e2 a2 b2 c2 d2 w4 7
  let (d1, a1) := R31 d1 e1 a1 b1 c1 w12 5
  let (d2, a2) := R32 d2 e2 a2 b2 c2 w13 5

  let (c1, e1) := R41 c1 d1 e1 a1 b1 w1 11
  let (c2, e2) := R42 c2 d2 e2 a2 b2 w8 15
  let (b1, d1) := R41 b1 c1 d1 e1 a1 w9 12
  let (b2, d2) := R42 b2 c2 d2 e2 a2 w6 5
  let (a1, c1) := R41 a1 b1 c1 d1 e1 w11 14
  let (a2, c2) := R42 a2 b2 c2 d2 e2 w4 8
  let (e1, b1) := R41 e1 a1 b1 c1 d1 w10 15
  let (e2, b2) := R42 e2 a2 b2 c2 d2 w1 11
  let (d1, a1) := R41 d1 e1 a1 b1 c1 w0 14
  let (d2, a2) := R42 d2 e2 a2 b2 c2 w3 14
  let (c1, e1) := R41 c1 d1 e1 a1 b1 w8 15
  let (c2, e2) := R42 c2 d2 e2 a2 b2 w11 14
  let (b1, d1) := R41 b1 c1 d1 e1 a1 w12 9
  let (b2, d2) := R42 b2 c2 d2 e2 a2 w15 6
  let (a1, c1) := R41 a1 b1 c1 d1 e1 w4 8
  let (a2, c2) := R42 a2 b2 c2 d2 e2 w0 14
  let (e1, b1) := R41 e1 a1 b1 c1 d1 w13 9
  let (e2, b2) := R42 e2 a2 b2 c2 d2 w5 6
  let (d1, a1) := R41 d1 e1 a1 b1 c1 w3 14
  let (d2, a2) := R42 d2 e2 a2 b2 c2 w12 9
  let (c1, e1) := R41 c1 d1 e1 a1 b1 w7 5
  let (c2, e2) := R42 c2 d2 e2 a2 b2 w2 12
  let (b1, d1) := R41 b1 c1 d1 e1 a1 w15 6
  let (b2, d2) := R42 b2 c2 d2 e2 a2 w13 9
  let (a1, c1) := R41 a1 b1 c1 d1 e1 w14 8
  let (a2, c2) := R42 a2 b2 c2 d2 e2 w9 12
  let (e1, b1) := R41 e1 a1 b1 c1 d1 w5 6
  let (e2, b2) := R42 e2 a2 b2 c2 d2 w7 5
  let (d1, a1) := R41 d1 e1 a1 b1 c1 w6 5
  let (d2, a2) := R42 d2 e2 a2 b2 c2 w10 15
  let (c1, e1) := R41 c1 d1 e1 a1 b1 w2 12
  let (c2, e2) := R42 c2 d2 e2 a2 b2 w14 8

  let (b1, d1) := R51 b1 c1 d1 e1 a1 w4 9
  let (b2, d2) := R52 b2 c2 d2 e2 a2 w12 8
  let (a1, c1) := R51 a1 b1 c1 d1 e1 w0 15
  let (a2, c2) := R52 a2 b2 c2 d2 e2 w15 5
  let (e1, b1) := R51 e1 a1 b1 c1 d1 w5 5
  let (e2, b2) := R52 e2 a2 b2 c2 d2 w10 12
  let (d1, a1) := R51 d1 e1 a1 b1 c1 w9 11
  let (d2, a2) := R52 d2 e2 a2 b2 c2 w4 9
  let (c1, e1) := R51 c1 d1 e1 a1 b1 w7 6
  let (c2, e2) := R52 c2 d2 e2 a2 b2 w1 12
  let (b1, d1) := R51 b1 c1 d1 e1 a1 w12 8
  let (b2, d2) := R52 b2 c2 d2 e2 a2 w5 5
  let (a1, c1) := R51 a1 b1 c1 d1 e1 w2 13
  let (a2, c2) := R52 a2 b2 c2 d2 e2 w8 14
  let (e1, b1) := R51 e1 a1 b1 c1 d1 w10 12
  let (e2, b2) := R52 e2 a2 b2 c2 d2 w7 6
  let (d1, a1) := R51 d1 e1 a1 b1 c1 w14 5
  let (d2, a2) := R52 d2 e2 a2 b2 c2 w6 8
  let (c1, e1) := R51 c1 d1 e1 a1 b1 w1 12
  let (c2, e2) := R52 c2 d2 e2 a2 b2 w2 13
  let (b1, d1) := R51 b1 c1 d1 e1 a1 w3 13
  let (b2, d2) := R52 b2 c2 d2 e2 a2 w13 6
  let (a1, c1) := R51 a1 b1 c1 d1 e1 w8 14
  let (a2, c2) := R52 a2 b2 c2 d2 e2 w14 5
  let (e1, b1) := R51 e1 a1 b1 c1 d1 w11 11
  let (e2, b2) := R52 e2 a2 b2 c2 d2 w0 15
  let (d1, a1) := R51 d1 e1 a1 b1 c1 w6 8
  let (d2, a2) := R52 d2 e2 a2 b2 c2 w3 13
  let (c1, e1) := R51 c1 d1 e1 a1 b1 w15 5
  let (c2, e2) := R52 c2 d2 e2 a2 b2 w9 11
  let (b1, d1) := R51 b1 c1 d1 e1 a1 w13 6
  let (b2, d2) := R52 b2 c2 d2 e2 a2 w11 11


  let t := s0
  let s0 := (s1 + c1 + d2) % 2 ^ 32
  let s1 := (s2 + d1 + e2) % 2 ^ 32
  let s2 := (s3 + e1 + a2) % 2 ^ 32
  let s3 := (s4 + a1 + b2) % 2 ^ 32
  let s4 := (t + b1 + c2) % 2 ^ 32
  (s0, s1, s2, s3, s4)

/-- Modelled from the spec: `ripemd160_ctx_t` of `ripemd.h` (absent from the
sources): the chaining words `s[5]`, the 64-byte block buffer `buf` and the
`uint64_t` count `bytes` of bytes absorbed, the fields the functions use. -/
structure ripemd160_ctx where
  s : State5
  buf : List Nat
  bytes : Nat
deriving DecidableEq, Repr

/-- The C library's `memcpy(dst + off, src, n)` on a buffer held as a list. -/
def memcpy (dst : List Nat) (off : Nat) (src : List Nat) (n : Nat) : List Nat :=
  dst.take off ++ src.take n ++ dst.drop (off + n)

/-- The function `ripemd160_init`: the context `ripemd` is zeroed by `memset`, whatever it
held, and the state words are set by `Initialize`. -/
def ripemd160_init (_ripemd : ripemd160_ctx) : ripemd160_ctx :=
  { s := Initialize, buf := List.replicate 64 0, bytes := 0 }

/-- The loop `while (end >= data + 64)` of `ripemd160_update`: process full
chunks directly from the source.  The fuel bounds the iterations; the
length of `data` is always enough. -/
def process_chunks : Nat → State5 → Nat → List Nat → State5 × Nat × List Nat
  | 0, s, bytes, data => (s, bytes, data)
  | fuel + 1, s, bytes, data =>
    if 64 ≤ data.length then
      process_chunks fuel (Transform s data) ((bytes + 64) % 2 ^ 64) (data.drop 64)
    else (s, bytes, data)

/-- The second half of `ripemd160_update`, entered with the current `data`
pointer and `bufsize`: the loop over full chunks, then the copy of what
remains into the buffer. -/
def update_tail (ripemd : ripemd160_ctx) (data : List Nat) (bufsize : Nat) : ripemd160_ctx :=
  let r := process_chunks data.length ripemd.s ripemd.bytes data
  let s := r.1
  let bytes := r.2.1
  let data := r.2.2
  if 0 < data.length then
    -- Fill the buffer with what remains.
    { s := s, buf := memcpy ripemd.buf bufsize data data.length,
      bytes := (bytes + data.length) % 2 ^ 64 }
  else { s := s, buf := ripemd.buf, bytes := bytes }

def ripemd160_update (ripemd : ripemd160_ctx) (data : List Nat) : ripemd160_ctx :=
  let len := data.length
  let bufsize := ripemd.bytes % 64
  if bufsize ≠ 0 ∧ 64 ≤ bufsize + len then
    -- Fill the buffer, and process it.
    let buf := memcpy ripemd.buf bufsize data (64 - bufsize)
    update_tail
      { s := Transform ripemd.s buf, buf := buf,
        bytes := (ripemd.bytes + (64 - bufsize)) % 2 ^ 64 }
      (data.drop (64 - bufsize)) 0
  else update_tail ripemd data bufsize

/-- The constant `static const unsigned char pad[64] = {0x80}`. -/
def pad : List Nat := 0x80 :: List.replicate 63 0

/-- The context after `ripemd160_final` and the 20 bytes written to `hash`. -/
def ripemd160_final (ripemd : ripemd160_ctx) : ripemd160_ctx × List Nat :=
  let sizedesc := WriteLE64 ((ripemd.bytes <<< 3) % 2 ^ 64)
  let ripemd := ripemd160_update ripemd (pad.take (1 + ((119 - (ripemd.bytes % 64)) % 64)))
  let ripemd := ripemd160_update ripemd sizedesc
  let s := ripemd.s
  (ripemd, WriteLE32 s.1 ++ WriteLE32 s.2.1 ++ WriteLE32 s.2.2.1 ++ WriteLE32 s.2.2.2.1
    ++ WriteLE32 s.2.2.2.2)

/-- The 20 bytes written to `hash` by `ripemd160_init(ripemd)`,
`ripemd160_update(ripemd, m, len)`, `ripemd160_final(ripemd, hash)`. -/
def ripemd160 (ripemd : ripemd160_ctx) (m : List Nat) : List Nat :=
  (ripemd160_final (ripemd160_update (ripemd160_init ripemd) m)).2

/-- The state reached from `s` by applying `Transform` to the first `k`
consecutive 64-byte blocks of `m`. -/
def absorb : Nat → State5 → List Nat → State5
  | 0, s, _ => s
  | k + 1, s, m => absorb k (Transform s m) (m.drop 64)

/-- The bytes waiting in the block buffer: `buf[0 .. bytes % 64)`. -/
def pending (ctx : ripemd160_ctx) : List Nat := ctx.buf.take (ctx.bytes % 64)

/-- Shape of a context: a 64-byte buffer and a count that fits `uint64_t`. -/
def ctx_ok (ctx : ripemd160_ctx) : Prop := ctx.buf.length = 64 ∧ ctx.bytes < 2 ^ 64

/-- The context has absorbed exactly the message `m`: every full block of `m`
is compressed into `s`, `bytes` counts `m`, and the bytes of `m` after its
last full block are the ones pending in the buffer. -/
def absorbed (ctx : ripemd160_ctx) (m : List Nat) : Prop :=
  ctx.s = absorb (m.length / 64) Initialize m
    ∧ ctx.bytes = m.length % 2 ^ 64
    ∧ pending ctx = m.drop (64 * (m.length / 64))
    ∧ ctx_ok ctx

/-- The message followed by the padding and the length field that
`ripemd160_final` feeds to `ripemd160_update`. -/
def padded (m : List Nat) : List Nat :=
  m ++ pad.take (1 + ((119 - (m.length % 2 ^ 64 % 64)) % 64))
    ++ WriteLE64 (((m.length % 2 ^ 64) <<< 3) % 2 ^ 64)

/-- The 20 digest bytes of a state: the five words written little-endian. -/
def state_bytes (s : State5) : List Nat :=
  WriteLE32 s.1 ++ WriteLE32 s.2.1 ++ WriteLE32 s.2.2.1 ++ WriteLE32 s.2.2.2.1
    ++ WriteLE32 s.2.2.2.2

end Ripemd160

namespace Ripemd160

/-! The RIPEMD-160 standard (Dobbertin, Bosselaers, Preneel, 1996), written
from its published description: 80 steps per line driven by tables, in
contrast with the unrolled code of `Transform`. -/

namespace Standard

/-- The nonlinear function of step `j`. -/
def f (j x y z : Nat) : Nat :=
  if j < 16 then x ^^^ y ^^^ z
  else if j < 32 then (x &&& y) ||| (not32 x &&& z)
  else if j < 48 then (x ||| not32 y) ^^^ z
  else if j < 64 then (x &&& z) ||| (y &&& not32 z)
  else x ^^^ (y ||| not32 z)

/-- The added constant of step `j`, left line. -/
def K (j : Nat) : Nat :=
  if j < 16 then 0x00000000
  else if j < 32 then 0x5A827999
  else if j < 48 then 0x6ED9EBA1
  else if j < 64 then 0x8F1BBCDC
  else 0xA953FD4E

/-- The added constant of step `j`, right line. -/
def K' (j : Nat) : Nat :=
  if j < 16 then 0x50A28BE6
  else if j < 32 then 0x5C4DD124
  else if j < 48 then 0x6D703EF3
  else if j < 64 then 0x7A6D76E9
  else 0x00000000

/-- The message word selected at step `j`, left line. -/
def r : List Nat :=
  [0, 1, 2, 3, 4, 5, 6, 7, 8, 9, 10, 11, 12, 13, 14, 15,
   7, 4, 13, 1, 10, 6, 15, 3, 12, 0, 9, 5, 2, 14, 11, 8,
   3, 10, 14, 4, 9, 15, 8, 1, 2, 7, 0, 6, 13, 11, 5, 12,
   1, 9, 11, 10, 0, 8, 12, 4, 13, 3, 7, 15, 14, 5, 6, 2,
   4, 0, 5, 9, 7, 12, 2, 10, 14, 1, 3, 8, 11, 6, 15, 13]

/-- The message word selected at step `j`, right line. -/
def r' : List Nat :=
  [5, 14, 7, 0, 9, 2, 11, 4, 13, 6, 15, 8, 1, 10, 3, 12,
   6, 11, 3, 7, 0, 13, 5, 10, 14, 15, 8, 12, 4, 9, 1, 2,
   15, 5, 1, 3, 7, 14, 6, 9, 11, 8, 12, 2, 10, 0, 4, 13,
   8, 6, 4, 1, 3, 11, 15, 0, 5, 12, 2, 13, 9, 7, 10, 14,
   12, 15, 10, 4, 1, 5, 8, 7, 6, 2, 13, 14, 0, 3, 9, 11]

/-- The rotation amount of step `j`, left line. -/
def s : List Nat :=
  [11, 14, 15, 12, 5, 8, 7, 9, 11, 13, 14, 15, 6, 7, 9, 8,
   7, 6, 8, 13, 11, 9, 7, 15, 7, 12, 15, 9, 11, 7, 13, 12,
   11, 13, 6, 7, 14, 9, 13, 15, 14, 8, 13, 6, 5, 12, 7, 5,
   11, 12, 14, 15, 14, 15, 9, 8, 9, 14, 5, 6, 8, 6, 5, 12,
   9, 15, 5, 11, 6, 8, 13, 12, 5, 12, 13, 14, 11, 8, 5, 6]

/-- The rotation amount of step `j`, right line. -/
def s' : List Nat :=
  [8, 9, 9, 11, 13, 15, 15, 5, 7, 7, 8, 11, 14, 14, 12, 6,
   9, 13, 15, 7, 12, 8, 9, 11, 7, 7, 12, 7, 6, 15, 13, 11,
   9, 7, 15, 11, 8, 6, 6, 14, 12, 13, 5, 14, 13, 13, 7, 5,
   15, 5, 8, 11, 14, 14, 6, 14, 6, 9, 12, 9, 12, 5, 15, 8,
   8, 5, 12, 9, 12, 5, 14, 6, 8, 13, 6, 5, 15, 13, 11, 11]

/-- Rotation of a 32-bit word to the left over `n` positions. -/
def rol_left (x n : Nat) : Nat := ((x <<< n) % 2 ^ 32) ||| (x >>> (32 - n))

/-- One step on the registers `(A, B, C, D, E)`:
`T := rol_s(A + f(B, C, D) + X + K) + E; A := E; E := D; D := rol_10(C);
C := B; B := T`. -/
def step (fj : Nat → Nat → Nat → Nat) (k x sh : Nat) (v : State5) : State5 :=
  let T := (rol_left ((v.1 + fj v.2.1 v.2.2.1 v.2.2.2.1 + x + k) % 2 ^ 32) sh + v.2.2.2.2) % 2 ^ 32
  (v.2.2.2.2, T, v.2.1, rol_left v.2.2.1 10, v.2.2.2.1)

/-- The left line after `j` steps (steps `0 .. j - 1`) from the chaining value
`h` on the words `X`. -/
def left_after : Nat → State5 → List Nat → State5
  | 0, h, _ => h
  | j + 1, h, X => step (f j) (K j) (X.getD (r.getD j 0) 0) (s.getD j 0) (left_after j h X)

/-- The right line after `j` steps, with the functions taken in reverse order. -/
def right_after : Nat → State5 → List Nat → State5
  | 0, h, _ => h
  | j + 1, h, X =>
    step (f (79 - j)) (K' j) (X.getD (r'.getD j 0) 0) (s'.getD j 0) (right_after j h X)

/-- The compression function: both lines on the 16 words `X`, then the
combination with the chaining value `h`. -/
def compress (h : State5) (X : List Nat) : State5 :=
  let l := left_after 80 h X
  let r := right_after 80 h X
  ((h.2.1 + l.2.2.1 + r.2.2.2.1) % 2 ^ 32,
   (h.2.2.1 + l.2.2.2.1 + r.2.2.2.2) % 2 ^ 32,
   (h.2.2.2.1 + l.2.2.2.2 + r.1) % 2 ^ 32,
   (h.2.2.2.2 + l.1 + r.2.1) % 2 ^ 32,
   (h.1 + l.2.1 + r.2.2.1) % 2 ^ 32)

/-- The 32-bit word made of four bytes, least significant byte first. -/
def word_of_bytes (b0 b1 b2 b3 : Nat) : Nat := b0 + 2 ^ 8 * b1 + 2 ^ 16 * b2 + 2 ^ 24 * b3

/-- The 16 little-endian words of the 64-byte block that starts at byte
`off` of the message. -/
def block_words (m : List Nat) (off : Nat) : List Nat :=
  (List.range 16).map (fun i =>
    word_of_bytes (m.getD (off + 4 * i) 0) (m.getD (off + 4 * i + 1) 0)
      (m.getD (off + 4 * i + 2) 0) (m.getD (off + 4 * i + 3) 0))

/-- The bytes of `x`, least significant first, `n` of them. -/
def bytes_le : Nat → Nat → List Nat
  | 0, _ => []
  | n + 1, x => x % 256 :: bytes_le n (x / 256)

/-- The padded message: a byte `0x80`, zero bytes up to 56 modulo 64, and
the length in bits modulo `2 ^ 64` as a 64-bit little-endian number. -/
def pad_message (m : List Nat) : List Nat :=
  m ++ [0x80] ++ List.replicate ((64 - (m.length + 9) % 64) % 64) 0
    ++ bytes_le 8 ((8 * m.length) % 2 ^ 64)

/-- The initial chaining value. -/
def h_init : State5 := (0x67452301, 0xEFCDAB89, 0x98BADCFE, 0x10325476, 0xC3D2E1F0)

/-- The digest of the message `m` of bytes: the chaining value after the
blocks of the padded message, written as 20 bytes, each word least
significant byte first. -/
def RIPEMD160_standard (m : List Nat) : List Nat :=
  let p := pad_message m
  let h := (List.range (p.length / 64)).foldl
    (fun h i => compress h (block_words p (64 * i))) h_init
  bytes_le 4 h.1 ++ bytes_le 4 h.2.1 ++ bytes_le 4 h.2.2.1 ++ bytes_le 4 h.2.2.2.1
    ++ bytes_le 4 h.2.2.2.2

end Standard

end Ripemd160

namespace DbEngine

/-- The range of the C type `long` (64-bit): `LONG_MAX`. -/
def LONG_MAX : Int := 2 ^ 63 - 1

/-- A value reduced to the two's-complement range of `long`. -/
def wrap_long (x : Int) : Int := (x + 2 ^ 63) % 2 ^ 64 - 2 ^ 63

/-- A value converted to `u_int32_t`, as on assignment to a `DBT` size. -/
def to_u32 (x : Int) : Nat := (x % 2 ^ 32).toNat

/-- The part of `db_engine_private_t` that the engine functions read and
write: the table of open databases (`max_size`, `count`) and the
reference count.  `calloc` zeroes all of it. -/
structure db_engine_private where
  home_dir : String
  max_size : Int
  count : Int
  refs_count : Int
deriving DecidableEq, Repr

/-- The global `db_engine_t`: `priv` is `none` when the pointer is `NULL`. -/
structure db_engine where
  priv : Option db_engine_private
  user_data : Nat
deriving DecidableEq, Repr

def DB_ENGINE_ALLOC_SIZE : Int := 64

/-- The size `db_engine_resize` settles on for a request of `new_size`. -/
def db_engine_resize (priv : db_engine_private) (new_size : Int) : db_engine_private :=
  let new_size :=
    if new_size ≤ 0 then DB_ENGINE_ALLOC_SIZE
    else (new_size + DB_ENGINE_ALLOC_SIZE - 1) / DB_ENGINE_ALLOC_SIZE * DB_ENGINE_ALLOC_SIZE
  if new_size < priv.max_size then priv
  else { priv with max_size := new_size }

/-- The private state `db_engine_private_new` allocates: zeroed by `calloc`,
then the table of databases sized by `db_engine_resize(engine, 0)`. -/
def db_engine_private_new : db_engine_private :=
  db_engine_resize { home_dir := "", max_size := 0, count := 0, refs_count := 0 } 0

/-- The home directory `engine_set_home` records (`"./data"` for `NULL`). -/
def engine_set_home (priv : db_engine_private) (home_dir : Option String) : db_engine_private :=
  { priv with home_dir := home_dir.getD "./data" }

/-- The function `db_engine_add_ref`: the engine afterwards, and whether the call returned
the engine (`true`) or `NULL` (`false`). -/
def db_engine_add_ref (engine : db_engine) : db_engine × Bool :=
  match engine.priv with
  | none => (engine, false) -- the engine has already been destroyed
  | some priv =>
    ({ engine with priv := some { priv with refs_count := wrap_long (priv.refs_count + 1) } },
      true)

/-- The function `db_engine_init` on the global engine `g`. -/
def db_engine_init (g : db_engine) (home_dir : Option String) (user_data : Nat) : db_engine :=
  let engine := { g with user_data := user_data }
  let priv := db_engine_private_new
  let engine := { engine with priv := some (engine_set_home priv home_dir) }
  (db_engine_add_ref engine).1

/-- The function `db_engine_cleanup` (also `db_engine_unref`) on a non-`NULL` engine
pointer.  `db_engine_private_free` releases the private state, after which
`engine->priv` is `NULL`. -/
def db_engine_cleanup (engine : db_engine) : db_engine :=
  match engine.priv with
  | none => engine
  | some priv =>
    if priv.refs_count = 0 then engine
    else
      let priv := { priv with refs_count := wrap_long (priv.refs_count - 1) }
      if priv.refs_count = 0 then { engine with priv := none }
      else { engine with priv := some priv }

/-- The database access methods of `<db.h>` that `db_open` names. -/
inductive DBTYPE where
  | DB_BTREE
  | DB_HASH
  | DB_UNKNOWN
deriving DecidableEq, Repr

/-- The arguments of one call of the underlying `DB->open`. -/
structure dbp_open_args where
  txn : Option Nat
  name : String
  database : Option String
  type : DBTYPE
  flags : Int
  mode : Nat
deriving DecidableEq, Repr

/-- The part of `db_private_t` that `db_open` writes. -/
structure db_private where
  db_type : Option DBTYPE
  name : String
deriving DecidableEq, Repr

/-- The function `db_txn_get_handle`: the `DB_TXN` of a transaction, `NULL` for `NULL`. -/
def db_txn_get_handle (txn : Option (Option Nat)) : Option Nat :=
  match txn with
  | none => none
  | some t => t

/-- The function `db_open`.  `dbp_open` stands for the underlying `DB->open` and
`DB_CREATE`, `DB_AUTO_COMMIT` for the flag constants of `<db.h>`.  The result
is the private state afterwards, the arguments the underlying open was
called with, and the return code. -/
def db_open (dbp_open : dbp_open_args → Int) (DB_CREATE DB_AUTO_COMMIT : Nat)
    (priv : db_private) (txn : Option (Option Nat)) (name : String) (db_type : Int)
    (flags : Int) : db_private × dbp_open_args × Int :=
  let t :=
    if db_type = 0 then DBTYPE.DB_BTREE
    else if db_type = 1 then DBTYPE.DB_HASH
    else DBTYPE.DB_UNKNOWN
  let priv := { priv with db_type := some t }
  let flags := if flags ≤ 0 then ((DB_CREATE ||| DB_AUTO_COMMIT : Nat) : Int) else flags
  let args : dbp_open_args :=
    { txn := db_txn_get_handle txn, name := name, database := none, type := t,
      flags := flags, mode := 0o660 }
  (priv, args, dbp_open args)

/-- The record type `db_record_data_t`: a pointer, an `ssize_t` size, flags. -/
structure db_record_data where
  data : Nat
  size : Int
  flags : Int
deriving DecidableEq, Repr

/-- The fields of Berkeley DB's `DBT` used here: the `data` pointer and the
`u_int32_t` fields `size` and `flags`. -/
structure DBT where
  data : Nat
  size : Nat
  flags : Nat
deriving DecidableEq, Repr

/-- What a `db_associate_callback` hands back: its return value and the
array it stored through `p_skeys` (`none` when it left the pointer `NULL`). -/
structure associate_result where
  num_keys : Int
  skeys : Option (List db_record_data)
deriving DecidableEq, Repr

/-- The entries `multiple_keys[0 .. n)` after the loop of
`secondary_db_get_key` over a zeroed array; `none` when `skeys` has fewer
than `n` elements. -/
def fill_multiple_keys : Nat → List db_record_data → Option (List DBT)
  | 0, _ => some []
  | _ + 1, [] => none
  | n + 1, k :: ks =>
    match fill_multiple_keys n ks with
    | none => none
    | some rest => some ({ data := k.data, size := to_u32 k.size, flags := 0 } :: rest)

/-- The function `secondary_db_get_key` for the handle whose callback is `associate_func`
(`none` from the callback: it did not return).  `DB_DBT_MULTIPLE` and
`DB_DBT_APPMALLOC` are the `u_int32_t` flag constants of `<db.h>`, `multiple_keys` the
address `calloc` returns.  The outcome is the return code, the `DBT`
`result` afterwards and the contents of the array allocated for multiple
keys (empty when none is allocated); `none` stands for a read past the end
of the callback's array. -/
def secondary_db_get_key (DB_DBT_MULTIPLE DB_DBT_APPMALLOC : Nat)
    (associate_func : db_record_data → db_record_data → Option associate_result)
    (multiple_keys : Nat) (key value result : DBT) : Option (Int × DBT × List DBT) :=
  match associate_func
      { data := key.data, size := key.size, flags := 0 }
      { data := value.data, size := value.size, flags := 0 } with
  | none => none
  | some r =>
    let num_keys := r.num_keys
    match r.skeys with
    | none => some (-1, result, [])
    | some skeys =>
      if num_keys < 1 then some (-1, result, [])
      else if num_keys = 1 then
        match skeys with
        | [] => none
        | k :: _ => some (0, { result with data := k.data, size := to_u32 k.size }, [])
      else
        match fill_multiple_keys num_keys.toNat skeys with
        | none => none
        | some keys =>
          some (0, { data := multiple_keys, size := to_u32 num_keys,
                     flags := DB_DBT_MULTIPLE ||| DB_DBT_APPMALLOC }, keys)

/-- The test callback `associate_blocks_height`, called with a non-`NULL`
`p_result` that points at a `NULL` array: one key, the `height` field of the
block record.  `hdr_size` is the size of `struct satoshi_block_header`
(declared in `satoshi-types.h`, absent from the sources), so `height` sits at
offset `hdr_size + 4` of the packed `struct db_record_block_data`, whose size
is `hdr_size + 32`; `none` stands for the failed size assertion. -/
def associate_blocks_height (hdr_size : Nat) (_key value : db_record_data) :
    Option associate_result :=
  if value.size = hdr_size + 32 then
    some { num_keys := 1,
           skeys := some [{ data := value.data + (hdr_size + 4), size := 4, flags := 0 }] }
  else none

/-- The function `db_find`: the return value and `*p_values` afterwards. -/
def db_find (_db : db_private) (_txn : Option (Option Nat)) (_key : db_record_data)
    (p_values : Option (List db_record_data)) : Int × Option (List db_record_data) :=
  (0, p_values)

/-- The function `db_find_secondary`: the return value, `*p_keys` and `*p_values` afterwards. -/
def db_find_secondary (_secondary_db : db_private) (_txn : Option (Option Nat))
    (_skey : db_record_data) (p_keys p_values : Option (List db_record_data)) :
    Int × Option (List db_record_data) × Option (List db_record_data) :=
  (0, p_keys, p_values)

/-- The arguments of one call of the underlying `DB->put`. -/
structure dbp_put_args where
  txn : Option Nat
  key : DBT
  value : DBT
  flags : Nat
deriving DecidableEq, Repr

/-- The function `db_insert`.  `dbp_put` stands for the underlying `DB->put`;
`DB_NODUPDATA`, `DB_NOOVERWRITE` are the flag constants of `<db.h>` and
`db_record_flags_no_dup`, `db_record_flags_no_overwrite` the record flags
(their declaration is absent from the sources); `db_flags` is `db->flags`. -/
def db_insert (dbp_put : dbp_put_args → Int)
    (DB_NODUPDATA DB_NOOVERWRITE db_record_flags_no_dup db_record_flags_no_overwrite : Nat)
    (db_flags : Nat) (txn : Option (Option Nat)) (key value : db_record_data) : Int :=
  let k : DBT := { data := key.data, size := to_u32 key.size, flags := 0 }
  let v : DBT := { data := value.data, size := to_u32 value.size, flags := 0 }
  let flags := 0
  let flags := if db_flags &&& db_record_flags_no_dup ≠ 0 then flags ||| DB_NODUPDATA else flags
  let flags :=
    if db_flags &&& db_record_flags_no_overwrite ≠ 0 then flags ||| DB_NOOVERWRITE else flags
  dbp_put { txn := db_txn_get_handle txn, key := k, value := v, flags := flags }

end DbEngine

namespace Sha256

/-- Trial division: `n` is a prime number. -/
def is_prime (n : Nat) : Bool :=
  decide (2 ≤ n) && (List.range n).all (fun d => decide (d < 2) || decide (n % d ≠ 0))

/-- The first 64 prime numbers, 2 to 311. -/
def primes64 : List Nat := (List.range 312).filter is_prime

/-- The bits of the integer `k`-th root of `n`, found from bit `b - 1` down:
the largest `x` below `2 ^ b` with `x ^ k ≤ n`, on top of `acc`. -/
def root_bits (k n : Nat) : Nat → Nat → Nat
  | 0, acc => acc
  | b + 1, acc =>
    if (acc + 2 ^ b) ^ k ≤ n then root_bits k n b (acc + 2 ^ b) else root_bits k n b acc

/-- The integer `k`-th root of a number below `2 ^ (40 * k)`. -/
def iroot (k n : Nat) : Nat := root_bits k n 40 0

/-- Modelled from the spec: the round constants of the SHA-256 primitive behind
`sha.h` (absent from the sources), as FIPS 180-4 defines them: the first 32
bits of the fractional parts of the cube roots of the first 64 primes. -/
def K : List Nat := primes64.map (fun p => iroot 3 (p * 2 ^ 96) % 2 ^ 32)

/-- Modelled from the spec: the initial hash value of SHA-256 (FIPS 180-4):
the first 32 bits of the fractional parts of the square roots of the first 8
primes. -/
def H0 : List Nat := (primes64.take 8).map (fun p => iroot 2 (p * 2 ^ 64) % 2 ^ 32)

def rotr (x n : Nat) : Nat := (x >>> n) ||| ((x <<< (32 - n)) % 2 ^ 32)
def Ch (x y z : Nat) : Nat := (x &&& y) ^^^ ((x ^^^ 0xFFFFFFFF) &&& z)
def Maj (x y z : Nat) : Nat := (x &&& y) ^^^ (x &&& z) ^^^ (y &&& z)
def bsig0 (x : Nat) : Nat := rotr x 2 ^^^ rotr x 13 ^^^ rotr x 22
def bsig1 (x : Nat) : Nat := rotr x 6 ^^^ rotr x 11 ^^^ rotr x 25
def ssig0 (x : Nat) : Nat := rotr x 7 ^^^ rotr x 18 ^^^ (x >>> 3)
def ssig1 (x : Nat) : Nat := rotr x 17 ^^^ rotr x 19 ^^^ (x >>> 10)

/-- The big-endian 32-bit word at offset `off` of a byte string. -/
def be32 (p : List Nat) (off : Nat) : Nat :=
  p.getD off 0 % 256 * 2 ^ 24 + p.getD (off + 1) 0 % 256 * 2 ^ 16
    + p.getD (off + 2) 0 % 256 * 2 ^ 8 + p.getD (off + 3) 0 % 256

/-- The bytes of a word of `w` bytes, most significant first. -/
def be_bytes : Nat → Nat → List Nat
  | 0, _ => []
  | w + 1, x => x / 256 ^ w % 256 :: be_bytes w x

/-- The message schedule, grown one word at a time from the 16 block words. -/
def schedule : Nat → List Nat → List Nat
  | 0, w => w
  | fuel + 1, w =>
    let t := w.length
    schedule fuel (w ++ [(ssig1 (w.getD (t - 2) 0) + w.getD (t - 7) 0
      + ssig0 (w.getD (t - 15) 0) + w.getD (t - 16) 0) % 2 ^ 32])

/-- The eight working variables `a .. h`. -/
structure Vars where
  a : Nat
  b : Nat
  c : Nat
  d : Nat
  e : Nat
  f : Nat
  g : Nat
  h : Nat

def step (v : Vars) (kw : Nat × Nat) : Vars :=
  let t1 := (v.h + bsig1 v.e + Ch v.e v.f v.g + kw.1 + kw.2) % 2 ^ 32
  let t2 := (bsig0 v.a + Maj v.a v.b v.c) % 2 ^ 32
  { a := (t1 + t2) % 2 ^ 32, b := v.a, c := v.b, d := v.c,
    e := (v.d + t1) % 2 ^ 32, f := v.e, g := v.f, h := v.g }

/-- The compression of one 64-byte block into the hash value `hs`. -/
def compress (hs : List Nat) (block : List Nat) : List Nat :=
  let w := schedule 48 ((List.range 16).map (fun i => be32 block (4 * i)))
  let v0 : Vars :=
    { a := hs.getD 0 0, b := hs.getD 1 0, c := hs.getD 2 0, d := hs.getD 3 0,
      e := hs.getD 4 0, f := hs.getD 5 0, g := hs.getD 6 0, h := hs.getD 7 0 }
  let v := (K.zip w).foldl step v0
  [(v0.a + v.a) % 2 ^ 32, (v0.b + v.b) % 2 ^ 32, (v0.c + v.c) % 2 ^ 32, (v0.d + v.d) % 2 ^ 32,
   (v0.e + v.e) % 2 ^ 32, (v0.f + v.f) % 2 ^ 32, (v0.g + v.g) % 2 ^ 32, (v0.h + v.h) % 2 ^ 32]

def compress_blocks : Nat → List Nat → List Nat → List Nat
  | 0, hs, _ => hs
  | n + 1, hs, m => compress_blocks n (compress hs m) (m.drop 64)

/-- The padded message: a `0x80` byte, zero bytes up to 56 modulo 64, and the
bit length as a 64-bit big-endian number. -/
def pad (m : List Nat) : List Nat :=
  m ++ 0x80 :: List.replicate ((119 - m.length % 64) % 64) 0
    ++ be_bytes 8 ((8 * m.length) % 2 ^ 64)

/-- Modelled from the spec: the SHA-256 primitive behind `sha.h` (absent from
the sources), the digest of a byte string as FIPS 180-4 defines it. -/
def sha256 (m : List Nat) : List Nat :=
  ((compress_blocks ((pad m).length / 64) H0 (pad m)).map (be_bytes 4)).flatten

end Sha256

namespace SatoshiTx

/-! The sighash types of `satoshi-tx.h`. -/

def satoshi_tx_sighash_all : Nat := 1
def satoshi_tx_sighash_none : Nat := 2
def satoshi_tx_sighash_single : Nat := 3
def satoshi_tx_sighash_anyone_can_pay : Nat := 0x80

/-- Modelled from the spec: the ANYONE_CAN_PAY flag of a one-byte sighash
type, its bit `0x80`. -/
def sighash_flag (hash_type : Nat) : Nat := hash_type &&& satoshi_tx_sighash_anyone_can_pay

/-- Modelled from the spec: the base type of a one-byte sighash type, the
value with bit `0x80` cleared. -/
def sighash_base (hash_type : Nat) : Nat :=
  hash_type &&& (0xFF ^^^ satoshi_tx_sighash_anyone_can_pay)

/-- Modelled from the spec: the error kinds of the digest engine. -/
inductive sighash_error where
  | INVALID_INDEX
  | MISSING_SPENT_OUTPUT
  | DETACHED_ENGINE
deriving DecidableEq, Repr

/-- Modelled from the spec: the reference to a previous output held by an
input (`satoshi-types.h` is absent from the sources): transaction id and
output index. -/
structure satoshi_outpoint where
  prev_hash : List Nat
  index : Nat
deriving DecidableEq, Repr

/-- Modelled from the spec: a transaction input: previous output, signature
script, sequence number. -/
structure satoshi_txin where
  outpoint : satoshi_outpoint
  scripts : List Nat
  sequence : Nat
deriving DecidableEq, Repr

/-- Modelled from the spec: a transaction output: amount and script. -/
structure satoshi_txout where
  value : Nat
  scripts : List Nat
deriving DecidableEq, Repr

/-- Modelled from the spec: a transaction: version, witness-presence flag,
ordered inputs, ordered outputs, lock time. -/
structure satoshi_tx where
  version : Nat
  has_flag : Bool
  txins : List satoshi_txin
  txouts : List satoshi_txout
  lock_time : Nat
deriving DecidableEq, Repr

/-- Modelled from the spec: a fixed-width little-endian integer of the
serialization library (absent from the sources). -/
def le_bytes : Nat → Nat → List Nat
  | 0, _ => []
  | w + 1, x => x % 256 :: le_bytes w (x / 256)

/-- Modelled from the spec: the variable-length integer of the serialization
library (absent from the sources), Bitcoin's compact size. -/
def varint (n : Nat) : List Nat :=
  if n < 0xfd then [n]
  else if n ≤ 0xffff then 0xfd :: le_bytes 2 n
  else if n ≤ 0xffffffff then 0xfe :: le_bytes 4 n
  else 0xff :: le_bytes 8 n

/-- Modelled from the spec: a length-prefixed byte string. -/
def varstr (s : List Nat) : List Nat := varint s.length ++ s

/-- Modelled from the spec: previous-tx-id followed by previous-output-index. -/
def serialize_outpoint (o : satoshi_outpoint) : List Nat := o.prev_hash ++ le_bytes 4 o.index

/-- Modelled from the spec: an input serialized with the given script in
place of its signature script and the given sequence number. -/
def serialize_txin (txin : satoshi_txin) (script : List Nat) (sequence : Nat) : List Nat :=
  serialize_outpoint txin.outpoint ++ varstr script ++ le_bytes 4 sequence

/-- Modelled from the spec: an output serialized unmodified: the 8-byte
little-endian amount and the length-prefixed script. -/
def serialize_txout (o : satoshi_txout) : List Nat := le_bytes 8 o.value ++ varstr o.scripts

/-- Modelled from the spec: an input other than the current one in the legacy
algorithm: its script is serialized as empty and, when `zero_sequence` holds
(base type NONE or SINGLE), its sequence number is forced to 0. -/
def blank_txin (zero_sequence : Bool) (txin : satoshi_txin) : List Nat :=
  serialize_txin txin [] (if zero_sequence then 0 else txin.sequence)

/-- Modelled from the spec: the fixed 32-byte value the legacy algorithm
returns for SIGHASH_SINGLE without a corresponding output, written
`0000000000000000000000000000000000000000000000000000000000000001`. -/
def uint256_one : List Nat := List.replicate 31 0 ++ [1]

/-- Modelled from the spec: 32 zero bytes. -/
def uint256_zero : List Nat := List.replicate 32 0

/-- Modelled from the spec: the incremental hash session of the digest engine
(§4.1).  The state reached by appending bytes is determined by the bytes
appended since `start`, and is held as that byte string. -/
structure hash_session where
  data : List Nat
deriving DecidableEq, Repr

namespace hash_session

/-- Modelled from the spec: `start()`, the empty session. -/
def start : hash_session := { data := [] }

/-- Modelled from the spec: `append(bytes)`. -/
def append (s : hash_session) (bytes : List Nat) : hash_session := { data := s.data ++ bytes }

/-- Modelled from the spec: `snapshot()`, a copy of the current state that
leaves the live session undisturbed. -/
def snapshot (s : hash_session) : hash_session := s

/-- Modelled from the spec: `resume_from(snapshot)`. -/
def resume_from (snap : hash_session) : hash_session := snap

/-- Modelled from the spec: `finalize_double()`: the first SHA-256 is
completed and its 32-byte result hashed with a second, fresh SHA-256. -/
def finalize_double (sha256 : List Nat → List Nat) (s : hash_session) : List Nat :=
  sha256 (sha256 s.data)

end hash_session

/-- Modelled from the spec: the blanked inputs `txins`, appended one by one. -/
def append_blank_txins (s : hash_session) (zero_sequence : Bool) (txins : List satoshi_txin) :
    hash_session :=
  txins.foldl (fun s txin => s.append (blank_txin zero_sequence txin)) s

/-- The session state `struct satoshi_rawtx` of `satoshi-tx.h`: the attached
transaction, the pre-hash `sha` of the common data, the pre-hashed index
`last_hashed_txin_index` and the cached `txouts_hash` (`none`: absent).
`prehash_zero_sequence` is the sequence-number policy the pre-hash was made
under, which the spec's restart rule for a differing base type needs. -/
structure satoshi_rawtx where
  tx : Option satoshi_tx
  sha : hash_session
  last_hashed_txin_index : Int
  prehash_zero_sequence : Bool
  txouts_hash : Option (List Nat)
deriving DecidableEq, Repr

/-- Modelled from the spec: `attach(transaction)`: binds the engine to a
transaction and resets the session state; fails only for a null reference. -/
def satoshi_rawtx_attach (tx : Option satoshi_tx) : Option satoshi_rawtx :=
  match tx with
  | none => none
  | some tx =>
    some { tx := some tx, sha := hash_session.start, last_hashed_txin_index := -1,
           prehash_zero_sequence := false, txouts_hash := none }

/-- Modelled from the spec: `detach()`: releases the session state. -/
def satoshi_rawtx_detach (_rawtx : satoshi_rawtx) : satoshi_rawtx :=
  { tx := none, sha := hash_session.start, last_hashed_txin_index := -1,
    prehash_zero_sequence := false, txouts_hash := none }

/-- Modelled from the spec: step 3 of the legacy algorithm, the output count
and outputs for base type `base` and an `input_index` inside the output
range when the base type is SINGLE. -/
def legacy_outputs (tx : satoshi_tx) (base i : Nat) : List Nat :=
  if base = satoshi_tx_sighash_none then varint 0
  else if base = satoshi_tx_sighash_single then
    varint 1 ++ ((tx.txouts[i]?).map serialize_txout).getD []
  else varint tx.txouts.length ++ (tx.txouts.map serialize_txout).flatten

/-- Modelled from the spec: steps 3 to 5 of the legacy algorithm: outputs,
lock time, sighash type. -/
def legacy_tail (tx : satoshi_tx) (hash_type i : Nat) : List Nat :=
  legacy_outputs tx (sighash_base hash_type) i ++ le_bytes 4 tx.lock_time
    ++ le_bytes 4 hash_type

/-- Modelled from the spec: the byte stream the legacy algorithm (§4.2.1)
double-hashes for input `i` (a valid index, with an output at `i` when the
base type is SINGLE), built from scratch. -/
def legacy_preimage (tx : satoshi_tx) (i hash_type : Nat) (cur : satoshi_txin)
    (script_code : List Nat) : List Nat :=
  let base := sighash_base hash_type
  let zero_sequence : Bool :=
    base = satoshi_tx_sighash_none ∨ base = satoshi_tx_sighash_single
  let inputs :=
    if sighash_flag hash_type ≠ 0 then
      varint 1 ++ serialize_txin cur script_code cur.sequence
    else
      varint tx.txins.length
        ++ ((tx.txins.take i).map (blank_txin zero_sequence)).flatten
        ++ serialize_txin cur script_code cur.sequence
        ++ ((tx.txins.drop (i + 1)).map (blank_txin zero_sequence)).flatten
  le_bytes 4 tx.version ++ inputs ++ legacy_tail tx hash_type i

/-- Modelled from the spec: the pre-hash of the legacy algorithm for a call
with `cur_index`: the session that has absorbed the version, the input
count and the blanked inputs before `cur_index`.  It resumes from the
session's pre-hash when that covers only inputs below `cur_index` and was
made under the same sequence policy, and restarts from scratch otherwise. -/
def legacy_prehash (rawtx : satoshi_rawtx) (tx : satoshi_tx) (cur_index : Int)
    (zero_sequence : Bool) : hash_session :=
  let resume : Bool :=
    0 ≤ rawtx.last_hashed_txin_index ∧ rawtx.last_hashed_txin_index < cur_index
      ∧ rawtx.prehash_zero_sequence = zero_sequence
  let sha0 :=
    if resume then hash_session.resume_from rawtx.sha
    else (hash_session.start.append (le_bytes 4 tx.version)).append (varint tx.txins.length)
  let first := if resume then (rawtx.last_hashed_txin_index + 1).toNat else 0
  append_blank_txins sha0 zero_sequence ((tx.txins.take cur_index.toNat).drop first)

/-- Modelled from the spec: the legacy algorithm of `get_digest` (§4.2.1) with
its incremental optimization.  `redeem_scripts` is the external resolver of
the script code (`satoshi_txin_get_redeem_scripts`).  The result is the
32-byte digest and the session afterwards. -/
def legacy_tx_get_digest (sha256 : List Nat → List Nat)
    (redeem_scripts : Bool → Option satoshi_txout → List Nat)
    (rawtx : satoshi_rawtx) (cur_index : Int) (hash_type : Nat)
    (utxo : Option satoshi_txout) : Except sighash_error (List Nat × satoshi_rawtx) :=
  match rawtx.tx with
  | none => .error .DETACHED_ENGINE
  | some tx =>
    match tx.txins[cur_index.toNat]? with
    | none => .error .INVALID_INDEX
    | some cur =>
      if cur_index < 0 then .error .INVALID_INDEX
      else
        let i := cur_index.toNat
        let base := sighash_base hash_type
        if base = satoshi_tx_sighash_single ∧ tx.txouts.length ≤ i then
          -- SINGLE with no corresponding output: no transaction is serialized
          .ok (uint256_one, rawtx)
        else
          let script_code := redeem_scripts false utxo
          let tail := legacy_tail tx hash_type i
          if sighash_flag hash_type ≠ 0 then
            -- ANYONE_CAN_PAY: only the current input is serialized
            let s := (((hash_session.start.append (le_bytes 4 tx.version)).append
              (varint 1)).append (serialize_txin cur script_code cur.sequence)).append tail
            .ok (s.finalize_double sha256,
                 { rawtx with sha := hash_session.start, last_hashed_txin_index := -1 })
          else
            let zero_sequence : Bool :=
              base = satoshi_tx_sighash_none ∨ base = satoshi_tx_sighash_single
            let pre := legacy_prehash rawtx tx cur_index zero_sequence
            let s := (append_blank_txins
              (pre.snapshot.append (serialize_txin cur script_code cur.sequence))
              zero_sequence (tx.txins.drop (i + 1))).append tail
            .ok (s.finalize_double sha256,
                 { rawtx with
                   sha := pre.append (blank_txin zero_sequence cur)
                   last_hashed_txin_index := cur_index
                   prehash_zero_sequence := zero_sequence })

/-- Modelled from the spec: the double hash of all outpoints (`hashPrevouts`). -/
def hash_prevouts (sha256 : List Nat → List Nat) (tx : satoshi_tx) : List Nat :=
  sha256 (sha256 (tx.txins.map (fun txin => serialize_outpoint txin.outpoint)).flatten)

/-- Modelled from the spec: the double hash of all sequence numbers
(`hashSequence`). -/
def hash_sequence (sha256 : List Nat → List Nat) (tx : satoshi_tx) : List Nat :=
  sha256 (sha256 (tx.txins.map (fun txin => le_bytes 4 txin.sequence)).flatten)

/-- Modelled from the spec: the double hash of all serialized outputs, the
value cached in `txouts_hash`. -/
def hash_outputs (sha256 : List Nat → List Nat) (tx : satoshi_tx) : List Nat :=
  sha256 (sha256 (tx.txouts.map serialize_txout).flatten)

/-- Modelled from the spec: the BIP143 preimage (§4.2.2) given its
`hashOutputs` field. -/
def segwit_preimage (sha256 : List Nat → List Nat) (tx : satoshi_tx) (hash_type : Nat)
    (cur : satoshi_txin) (script_code : List Nat) (amount : Nat) (hash_outputs : List Nat) :
    List Nat :=
  let base := sighash_base hash_type
  let anyone_can_pay := sighash_flag hash_type ≠ 0
  le_bytes 4 tx.version
    ++ (if anyone_can_pay then uint256_zero else hash_prevouts sha256 tx)
    ++ (if anyone_can_pay ∨ base = satoshi_tx_sighash_none ∨ base = satoshi_tx_sighash_single
        then uint256_zero else hash_sequence sha256 tx)
    ++ serialize_outpoint cur.outpoint
    ++ varstr script_code
    ++ le_bytes 8 amount
    ++ le_bytes 4 cur.sequence
    ++ hash_outputs
    ++ le_bytes 4 tx.lock_time
    ++ le_bytes 4 hash_type

/-- Modelled from the spec: the segwit v0 algorithm of `get_digest` (§4.2.2)
with its cache of the outputs digest. -/
def segwit_v0_get_digest (sha256 : List Nat → List Nat)
    (redeem_scripts : Bool → Option satoshi_txout → List Nat)
    (rawtx : satoshi_rawtx) (cur_index : Int) (hash_type : Nat)
    (utxo : Option satoshi_txout) : Except sighash_error (List Nat × satoshi_rawtx) :=
  match rawtx.tx with
  | none => .error .DETACHED_ENGINE
  | some tx =>
    match tx.txins[cur_index.toNat]? with
    | none => .error .INVALID_INDEX
    | some cur =>
      if cur_index < 0 then .error .INVALID_INDEX
      else
        match utxo with
        | none => .error .MISSING_SPENT_OUTPUT
        | some spent =>
          let i := cur_index.toNat
          let base := sighash_base hash_type
          let script_code := redeem_scripts true utxo
          if base = satoshi_tx_sighash_none then
            .ok (sha256 (sha256 (segwit_preimage sha256 tx hash_type cur script_code
              spent.value uint256_zero)), rawtx)
          else if base = satoshi_tx_sighash_single then
            let h :=
              match tx.txouts[i]? with
              | some txout => sha256 (sha256 (serialize_txout txout))
              | none => uint256_zero
            .ok (sha256 (sha256 (segwit_preimage sha256 tx hash_type cur script_code
              spent.value h)), rawtx)
          else
            let h :=
              match rawtx.txouts_hash with
              | some h => h
              | none => hash_outputs sha256 tx
            .ok (sha256 (sha256 (segwit_preimage sha256 tx hash_type cur script_code
              spent.value h)), { rawtx with txouts_hash := some h })

/-- Modelled from the spec: `get_digest(input_index, sighash_type,
spent_output, is_segwit)`, the central operation of the digest engine. -/
def get_digest (sha256 : List Nat → List Nat)
    (redeem_scripts : Bool → Option satoshi_txout → List Nat)
    (rawtx : satoshi_rawtx) (cur_index : Int) (hash_type : Nat)
    (utxo : Option satoshi_txout) (is_segwit : Bool) :
    Except sighash_error (List Nat × satoshi_rawtx) :=
  if is_segwit then segwit_v0_get_digest sha256 redeem_scripts rawtx cur_index hash_type utxo
  else legacy_tx_get_digest sha256 redeem_scripts rawtx cur_index hash_type utxo

/-- Modelled from the spec: the digest §4.2.1 and §4.2.2 define for one call,
computed from the transaction alone, without any session state. -/
def digest_from_scratch (sha256 : List Nat → List Nat)
    (redeem_scripts : Bool → Option satoshi_txout → List Nat)
    (tx : satoshi_tx) (cur_index : Int) (hash_type : Nat)
    (utxo : Option satoshi_txout) (is_segwit : Bool) : Except sighash_error (List Nat) :=
  match tx.txins[cur_index.toNat]? with
  | none => .error .INVALID_INDEX
  | some cur =>
    if cur_index < 0 then .error .INVALID_INDEX
    else
      let i := cur_index.toNat
      let base := sighash_base hash_type
      if is_segwit then
        match utxo with
        | none => .error .MISSING_SPENT_OUTPUT
        | some spent =>
          let h :=
            if base = satoshi_tx_sighash_none then uint256_zero
            else if base = satoshi_tx_sighash_single then
              match tx.txouts[i]? with
              | some txout => sha256 (sha256 (serialize_txout txout))
              | none => uint256_zero
            else hash_outputs sha256 tx
          .ok (sha256 (sha256 (segwit_preimage sha256 tx hash_type cur
            (redeem_scripts true utxo) spent.value h)))
      else if base = satoshi_tx_sighash_single ∧ tx.txouts.length ≤ i then .ok uint256_one
      else
        .ok (sha256 (sha256 (legacy_preimage tx i hash_type cur (redeem_scripts false utxo))))

/-- The digests returned by `get_digest` called for the indices of `order`,
one after the other, on one session: each index paired with what its call
returned.  A failed call leaves the session as it was. -/
def digests_in_order (sha256 : List Nat → List Nat)
    (redeem_scripts : Bool → Option satoshi_txout → List Nat)
    (hash_type : Nat) (utxos : Nat → Option satoshi_txout) (is_segwit : Bool) :
    List Nat → satoshi_rawtx → List (Nat × Except sighash_error (List Nat))
  | [], _ => []
  | i :: order, rawtx =>
    match get_digest sha256 redeem_scripts rawtx i hash_type (utxos i) is_segwit with
    | .ok (digest, rawtx2) =>
      (i, .ok digest) :: digests_in_order sha256 redeem_scripts hash_type utxos is_segwit
        order rawtx2
    | .error e =>
      (i, .error e) :: digests_in_order sha256 redeem_scripts hash_type utxos is_segwit
        order rawtx

/-- Modelled from the spec: the script-code resolver for a plain spend: the
referenced output's own script. -/
def plain_spend_scripts (_is_segwit : Bool) (utxo : Option satoshi_txout) : List Nat :=
  match utxo with
  | none => []
  | some o => o.scripts

/-- The digest of a one-shot call on a freshly attached transaction. -/
def attached_digest (sha256 : List Nat → List Nat)
    (redeem_scripts : Bool → Option satoshi_txout → List Nat)
    (tx : satoshi_tx) (cur_index : Int) (hash_type : Nat) (utxo : Option satoshi_txout)
    (is_segwit : Bool) : Option (List Nat) :=
  match satoshi_rawtx_attach (some tx) with
  | none => none
  | some rawtx =>
    match get_digest sha256 redeem_scripts rawtx cur_index hash_type utxo is_segwit with
    | .ok (digest, _) => some digest
    | .error _ => none

/-- The session invariant of the digest engine for the attached transaction
`tx`: a pre-hash that covers inputs `0 .. last_hashed_txin_index` holds the
version, the input count and those inputs blanked under the recorded
sequence policy, and a cached `txouts_hash` is the digest of the outputs. -/
def rawtx_inv (sha256 : List Nat → List Nat) (rawtx : satoshi_rawtx) (tx : satoshi_tx) : Prop :=
  rawtx.tx = some tx
    ∧ (0 ≤ rawtx.last_hashed_txin_index →
        rawtx.sha.data
          = le_bytes 4 tx.version ++ varint tx.txins.length
            ++ ((tx.txins.take (rawtx.last_hashed_txin_index + 1).toNat).map
                  (blank_txin rawtx.prehash_zero_sequence)).flatten)
    ∧ (∀ h, rawtx.txouts_hash = some h → h = hash_outputs sha256 tx)

/-- A sample input spending output `n` of the transaction whose id is 32
bytes `b`. -/
def sample_txin (b n : Nat) : satoshi_txin :=
  { outpoint := { prev_hash := List.replicate 32 b, index := n },
    scripts := [0x51], sequence := 0xffffffff }

/-- A sample output of `v` satoshi paying to the one-byte script `s`. -/
def sample_txout (v s : Nat) : satoshi_txout := { value := v, scripts := [s] }

/-- A sample transaction: three inputs, one output. -/
def sample_tx_3_1 : satoshi_tx :=
  { version := 1, has_flag := false,
    txins := [sample_txin 0xaa 0, sample_txin 0xbb 1, sample_txin 0xcc 2],
    txouts := [sample_txout 5000 0x51], lock_time := 0 }

/-- A sample transaction: the input `sample_txin 0xaa 0` alone, two outputs. -/
def sample_tx_1_2 : satoshi_tx :=
  { version := 1, has_flag := false,
    txins := [sample_txin 0xaa 0],
    txouts := [sample_txout 5000 0x51, sample_txout 7000 0x52], lock_time := 0 }

/-- The sample transaction `sample_tx_1_2` with another input placed before
its input. -/
def sample_tx_2_2 : satoshi_tx :=
  { sample_tx_1_2 with txins := [sample_txin 0xbb 1, sample_txin 0xaa 0] }

end SatoshiTx

namespace Ripemd160

theorem ReadLE32_congr (l l2 : List Nat) (off : Nat)
    (h : ∀ i, i < off + 4 → l.getD i 0 = l2.getD i 0) : ReadLE32 l off = ReadLE32 l2 off := by
  unfold ReadLE32
  rw [h off (by omega), h (off + 1) (by omega), h (off + 2) (by omega), h (off + 3) (by omega)]

/-- The function `Transform` reads only the first 64 bytes of the chunk it is given. -/
theorem Transform_congr (s : State5) (l l2 : List Nat)
    (h : ∀ i, i < 64 → l.getD i 0 = l2.getD i 0) : Transform s l = Transform s l2 := by
  have hw : ∀ off, off + 4 ≤ 64 → ReadLE32 l off = ReadLE32 l2 off :=
    fun off ho => ReadLE32_congr l l2 off (fun i hi => h i (by omega))
  unfold Transform
  rw [hw 0 (by omega), hw 4 (by omega), hw 8 (by omega), hw 12 (by omega), hw 16 (by omega),
    hw 20 (by omega), hw 24 (by omega), hw 28 (by omega), hw 32 (by omega), hw 36 (by omega),
    hw 40 (by omega), hw 44 (by omega), hw 48 (by omega), hw 52 (by omega), hw 56 (by omega),
    hw 60 (by omega)]

theorem getD_drop_nat (l : List Nat) (n i : Nat) : (l.drop n).getD i 0 = l.getD (n + i) 0 := by
  simp [List.getD_eq_getElem?_getD, List.getElem?_drop]

theorem getD_append_left_nat (l r : List Nat) (i : Nat) (h : i < l.length) :
    (l ++ r).getD i 0 = l.getD i 0 := by
  simp [List.getD_eq_getElem?_getD, List.getElem?_append_left h]

theorem absorb_one (s : State5) (l : List Nat) : absorb 1 s l = Transform s l := by
  rw [absorb, absorb]

theorem absorb_add (k j : Nat) (s : State5) (l : List Nat) :
    absorb (k + j) s l = absorb j (absorb k s l) (l.drop (64 * k)) := by
  induction k generalizing s l with
  | zero => simp [absorb]
  | succ k ih =>
    have : k + 1 + j = (k + j) + 1 := by omega
    rw [this, absorb, ih, absorb, List.drop_drop]
    congr 2
    omega

theorem absorb_congr (k : Nat) (s : State5) (l l2 : List Nat)
    (h : ∀ i, i < 64 * k → l.getD i 0 = l2.getD i 0) : absorb k s l = absorb k s l2 := by
  induction k generalizing s l l2 with
  | zero => simp [absorb]
  | succ k ih =>
    rw [absorb, absorb, Transform_congr s l l2 (fun i hi => h i (by omega))]
    apply ih
    intro i hi
    rw [getD_drop_nat, getD_drop_nat]
    exact h _ (by omega)

theorem absorb_append_left (k : Nat) (s : State5) (l r : List Nat) (h : 64 * k ≤ l.length) :
    absorb k s (l ++ r) = absorb k s l :=
  absorb_congr k s _ _ (fun i hi => getD_append_left_nat l r i (by omega))

theorem process_chunks_eq (fuel : Nat) (s : State5) (bytes : Nat) (d : List Nat)
    (hf : d.length / 64 ≤ fuel) (hb : bytes < 2 ^ 64) :
    process_chunks fuel s bytes d
      = (absorb (d.length / 64) s d, (bytes + 64 * (d.length / 64)) % 2 ^ 64,
          d.drop (64 * (d.length / 64))) := by
  induction fuel generalizing s bytes d with
  | zero =>
    have h0 : d.length / 64 = 0 := by omega
    simp only [process_chunks, h0, absorb, Nat.mul_zero, Nat.add_zero, List.drop_zero]
    rw [Nat.mod_eq_of_lt hb]
  | succ fuel ih =>
    unfold process_chunks
    split
    · rename_i h64
      have hlen : (d.drop 64).length = d.length - 64 := by simp
      have hq : d.length / 64 = (d.length - 64) / 64 + 1 := by omega
      rw [ih _ _ _ (by rw [hlen]; omega) (Nat.mod_lt _ (by norm_num)), hlen, hq, absorb,
        List.drop_drop]
      refine Prod.ext rfl (Prod.ext ?_ ?_)
      · simp only
        omega
      · simp only
        congr 1
        omega
    · rename_i h64
      have h0 : d.length / 64 = 0 := by omega
      simp only [h0, absorb, Nat.mul_zero, Nat.add_zero, List.drop_zero]
      rw [Nat.mod_eq_of_lt hb]

end Ripemd160

namespace Ripemd160

theorem update_tail_spec (ctx : ripemd160_ctx) (d : List Nat) (bufsize : Nat)
    (h : ctx_ok ctx) :
    (update_tail ctx d bufsize).s = absorb (d.length / 64) ctx.s d
      ∧ (update_tail ctx d bufsize).bytes = (ctx.bytes + d.length) % 2 ^ 64
      ∧ (update_tail ctx d bufsize).buf
          = (if 0 < d.length % 64 then
              memcpy ctx.buf bufsize (d.drop (64 * (d.length / 64))) (d.length % 64)
             else ctx.buf) := by
  obtain ⟨hbuf, hbytes⟩ := h
  have hlen : (d.drop (64 * (d.length / 64))).length = d.length % 64 := by
    rw [List.length_drop]
    omega
  unfold update_tail
  simp only [process_chunks_eq d.length ctx.s ctx.bytes d (by omega) hbytes, hlen]
  split
  · refine ⟨rfl, ?_, rfl⟩
    simp only
    omega
  · refine ⟨rfl, ?_, rfl⟩
    simp only
    omega

theorem pending_length (ctx : ripemd160_ctx) (h : ctx_ok ctx) :
    (pending ctx).length = ctx.bytes % 64 := by
  unfold pending
  rw [List.length_take, h.1]
  omega

theorem take_memcpy (buf x : List Nat) (off : Nat) (hoff : off ≤ buf.length) :
    (memcpy buf off x x.length).take (off + x.length) = buf.take off ++ x := by
  unfold memcpy
  have h1 : (buf.take off ++ x.take x.length).length = off + x.length := by
    simp only [List.length_append, List.length_take]
    omega
  rw [List.take_append_of_le_length (by omega), List.take_of_length_le (by omega),
    List.take_length]

theorem length_memcpy (buf x : List Nat) (off n : Nat) (hn : n ≤ x.length)
    (hoff : off + n ≤ buf.length) : (memcpy buf off x n).length = buf.length := by
  unfold memcpy
  simp only [List.length_append, List.length_take, List.length_drop]
  omega

theorem update_tail_pending (ctx : ripemd160_ctx) (d : List Nat) (h : ctx_ok ctx)
    (hb : ctx.bytes % 64 = 0 ∨ ctx.bytes % 64 + d.length < 64) :
    (update_tail ctx d (ctx.bytes % 64)).s
        = absorb ((pending ctx ++ d).length / 64) ctx.s (pending ctx ++ d)
      ∧ (update_tail ctx d (ctx.bytes % 64)).bytes = (ctx.bytes + d.length) % 2 ^ 64
      ∧ pending (update_tail ctx d (ctx.bytes % 64))
        = (pending ctx ++ d).drop (64 * ((pending ctx ++ d).length / 64))
      ∧ ctx_ok (update_tail ctx d (ctx.bytes % 64)) := by
  have hP : (pending ctx).length = ctx.bytes % 64 := pending_length ctx h
  obtain ⟨hs, hby, hbuf⟩ := update_tail_spec ctx d (ctx.bytes % 64) h
  obtain ⟨hlen, hlt⟩ := h
  have hxl : (d.drop (64 * (d.length / 64))).length = d.length % 64 := by
    rw [List.length_drop]
    omega
  have hmod : (ctx.bytes + d.length) % 2 ^ 64 % 64 = (ctx.bytes % 64 + d.length % 64) % 64 := by
    omega
  rcases hb with hb | hb
  · -- nothing pending: the data is processed from its first byte
    have hnil : pending ctx = [] := List.eq_nil_of_length_eq_zero (by omega)
    refine ⟨by rw [hs, hnil, List.nil_append], hby, ?_, ?_⟩
    · rw [hnil, List.nil_append]
      unfold pending
      rw [hby, hbuf, hmod, hb, Nat.zero_add, Nat.mod_mod]
      split
      · have := take_memcpy ctx.buf (d.drop (64 * (d.length / 64))) 0 (by omega)
        rw [hxl, Nat.zero_add, List.take_zero, List.nil_append] at this
        exact this
      · have h0 : d.length % 64 = 0 := by omega
        rw [h0, List.take_zero]
        exact (List.eq_nil_of_length_eq_zero (by omega)).symm
    · refine ⟨?_, by rw [hby]; exact Nat.mod_lt _ (by norm_num)⟩
      rw [hbuf]
      split
      · rw [length_memcpy _ _ _ _ (by omega) (by omega), hlen]
      · exact hlen
  · -- the data fits in the buffer after the pending bytes
    have hq : (pending ctx ++ d).length / 64 = 0 := by
      rw [List.length_append, hP]
      omega
    have hq2 : d.length / 64 = 0 := by omega
    have hdm : d.length % 64 = d.length := by omega
    refine ⟨by rw [hs, hq, hq2]; rfl, hby, ?_, ?_⟩
    · rw [hq, Nat.mul_zero, List.drop_zero]
      unfold pending
      rw [hby, hbuf, hmod, hdm, hq2, Nat.mul_zero, List.drop_zero,
        Nat.mod_eq_of_lt (by omega : ctx.bytes % 64 + d.length < 64)]
      split
      · exact take_memcpy ctx.buf d (ctx.bytes % 64) (by omega)
      · have hd : d = [] := List.eq_nil_of_length_eq_zero (by omega)
        subst hd
        simp
    · refine ⟨?_, by rw [hby]; exact Nat.mod_lt _ (by norm_num)⟩
      rw [hbuf]
      split
      · rw [length_memcpy _ _ _ _ (by rw [hxl]) (by omega), hlen]
      · exact hlen

/-- What one `ripemd160_update` does, in terms of the bytes pending in the
buffer followed by the new data: the full blocks of `pending ++ data` are
compressed in order, the count grows by the length of the data, and what is
left over is pending afterwards. -/
theorem update_spec (ctx : ripemd160_ctx) (d : List Nat) (h : ctx_ok ctx) :
    (ripemd160_update ctx d).s
        = absorb ((pending ctx ++ d).length / 64) ctx.s (pending ctx ++ d)
      ∧ (ripemd160_update ctx d).bytes = (ctx.bytes + d.length) % 2 ^ 64
      ∧ pending (ripemd160_update ctx d)
        = (pending ctx ++ d).drop (64 * ((pending ctx ++ d).length / 64))
      ∧ ctx_ok (ripemd160_update ctx d) := by
  obtain ⟨hbuf, hbytes⟩ := h
  have hP : (pending ctx).length = ctx.bytes % 64 := pending_length ctx ⟨hbuf, hbytes⟩
  by_cases hc : ctx.bytes % 64 ≠ 0 ∧ 64 ≤ ctx.bytes % 64 + d.length
  · -- the buffer is filled and processed first
    have hupd : ripemd160_update ctx d
        = update_tail
            { s := Transform ctx.s (memcpy ctx.buf (ctx.bytes % 64) d (64 - ctx.bytes % 64)),
              buf := memcpy ctx.buf (ctx.bytes % 64) d (64 - ctx.bytes % 64),
              bytes := (ctx.bytes + (64 - ctx.bytes % 64)) % 2 ^ 64 }
            (d.drop (64 - ctx.bytes % 64)) 0 := by
      unfold ripemd160_update
      exact if_pos hc
    have hbuf1 : memcpy ctx.buf (ctx.bytes % 64) d (64 - ctx.bytes % 64)
        = pending ctx ++ d.take (64 - ctx.bytes % 64) := by
      unfold memcpy pending
      rw [List.drop_of_length_le (by omega), List.append_nil]
    have hlen1 : (memcpy ctx.buf (ctx.bytes % 64) d (64 - ctx.bytes % 64)).length = 64 := by
      rw [length_memcpy _ _ _ _ (by omega) (by omega), hbuf]
    have hall : pending ctx ++ d
        = memcpy ctx.buf (ctx.bytes % 64) d (64 - ctx.bytes % 64)
            ++ d.drop (64 - ctx.bytes % 64) := by
      rw [hbuf1, List.append_assoc, List.take_append_drop]
    generalize hb1 : memcpy ctx.buf (ctx.bytes % 64) d (64 - ctx.bytes % 64) = buf1 at *
    generalize hd1 : d.drop (64 - ctx.bytes % 64) = d1 at *
    have hd1len : d.length = (64 - ctx.bytes % 64) + d1.length := by
      rw [← hd1, List.length_drop]
      omega
    have hok1 : ctx_ok
        { s := Transform ctx.s buf1
          buf := buf1
          bytes := (ctx.bytes + (64 - ctx.bytes % 64)) % 2 ^ 64 } :=
      ⟨hlen1, Nat.mod_lt _ (by norm_num)⟩
    have h0 : (ctx.bytes + (64 - ctx.bytes % 64)) % 2 ^ 64 % 64 = 0 := by omega
    have hnil : pending
        { s := Transform ctx.s buf1
          buf := buf1
          bytes := (ctx.bytes + (64 - ctx.bytes % 64)) % 2 ^ 64 } = [] := by
      unfold pending
      simp only [h0, List.take_zero]
    have key := update_tail_pending _ d1 hok1 (Or.inl h0)
    simp only [h0, hnil, List.nil_append] at key
    obtain ⟨ks, kb, kp, kok⟩ := key
    have hq : (buf1 ++ d1).length / 64 = 1 + d1.length / 64 := by
      rw [List.length_append, hlen1]
      omega
    have hdrop : (buf1 ++ d1).drop 64 = d1 := by
      rw [← hlen1, List.drop_left]
    rw [hupd, hall, hq]
    refine ⟨?_, ?_, ?_, kok⟩
    · have hT : absorb 1 ctx.s (buf1 ++ d1) = Transform ctx.s buf1 := by
        rw [absorb_one]
        exact (Transform_congr ctx.s _ _
          (fun i hi => getD_append_left_nat buf1 d1 i (by omega)))
      rw [ks, absorb_add 1, Nat.mul_one, hdrop, hT]
    · rw [kb]
      omega
    · rw [kp, Nat.mul_add, Nat.mul_one, ← List.drop_drop, hdrop]
  · have hupd : ripemd160_update ctx d = update_tail ctx d (ctx.bytes % 64) := by
      unfold ripemd160_update
      exact if_neg hc
    rw [hupd]
    exact update_tail_pending ctx d ⟨hbuf, hbytes⟩ (by omega)

end Ripemd160

namespace Ripemd160

theorem absorbed_init (ctx : ripemd160_ctx) : absorbed (ripemd160_init ctx) [] := by
  refine ⟨rfl, rfl, rfl, rfl, ?_⟩
  show (0 : Nat) < 2 ^ 64
  norm_num

/-- The invariant of `ripemd160_update`: absorbing `d` after `m` gives the
context that has absorbed `m ++ d`. -/
theorem absorbed_update (ctx : ripemd160_ctx) (m d : List Nat) (h : absorbed ctx m) :
    absorbed (ripemd160_update ctx d) (m ++ d) := by
  obtain ⟨hs, hb, hp, hok⟩ := h
  obtain ⟨us, ub, up, uok⟩ := update_spec ctx d hok
  have hpl : (m.drop (64 * (m.length / 64))).length = m.length % 64 := by
    rw [List.length_drop]
    omega
  have hq : (m ++ d).length / 64
      = m.length / 64 + (m.drop (64 * (m.length / 64)) ++ d).length / 64 := by
    rw [List.length_append, List.length_append, hpl]
    omega
  have hdrop : (m ++ d).drop (64 * (m.length / 64)) = m.drop (64 * (m.length / 64)) ++ d :=
    List.drop_append_of_le_length (by omega)
  refine ⟨?_, ?_, ?_, uok⟩
  · rw [us, hp, hs, hq, absorb_add, hdrop,
      absorb_append_left (m.length / 64) Initialize m d (by omega)]
  · rw [ub, hb, List.length_append]
    omega
  · rw [up, hp, hq, Nat.mul_add, ← List.drop_drop, hdrop]

theorem absorbed_final (ctx : ripemd160_ctx) (m : List Nat) (h : absorbed ctx m) :
    (ripemd160_final ctx).2
      = state_bytes (absorb ((padded m).length / 64) Initialize (padded m)) := by
  have h2 := absorbed_update _ _ (WriteLE64 ((ctx.bytes <<< 3) % 2 ^ 64))
    (absorbed_update ctx m (pad.take (1 + ((119 - (ctx.bytes % 64)) % 64))) h)
  have hs := h2.1
  rw [h.2.1] at hs
  unfold ripemd160_final
  show state_bytes (ripemd160_update (ripemd160_update ctx _) _).s = _
  rw [h.2.1, hs]
  rfl

end Ripemd160

namespace Ripemd160

/-- C6: RIPEMD-160 is incremental.  On a context initialised by
`ripemd160_init`, feeding `a` and then `b` gives the same digest as feeding
`a ++ b` in one call, and so does any other way of cutting `a ++ b` into a
sequence of `ripemd160_update` calls. -/
theorem ripemd160_update_split (ctx : ripemd160_ctx) (a b : List Nat)
    (_h : a.length + b.length < 2 ^ 61) :
    (ripemd160_final (ripemd160_update (ripemd160_update (ripemd160_init ctx) a) b)).2
        = (ripemd160_final (ripemd160_update (ripemd160_init ctx) (a ++ b))).2
      ∧ ∀ chunks : List (List Nat), chunks.flatten = a ++ b →
          (ripemd160_final (chunks.foldl ripemd160_update (ripemd160_init ctx))).2
            = (ripemd160_final (ripemd160_update (ripemd160_init ctx) (a ++ b))).2 := by
  have hone : ∀ m, absorbed (ripemd160_update (ripemd160_init ctx) m) m := fun m =>
    absorbed_update (ripemd160_init ctx) [] m (absorbed_init ctx)
  have hfold : ∀ (chunks : List (List Nat)) (c : ripemd160_ctx) (m : List Nat),
      absorbed c m → absorbed (chunks.foldl ripemd160_update c) (m ++ chunks.flatten) := by
    intro chunks
    induction chunks with
    | nil => intro c m hm; simpa using hm
    | cons x xs ih =>
      intro c m hm
      have := ih _ _ (absorbed_update c m x hm)
      simpa [List.append_assoc] using this
  constructor
  · rw [absorbed_final _ _ (absorbed_update _ _ b (hone a)), absorbed_final _ _ (hone (a ++ b))]
  · intro chunks hc
    have := hfold chunks (ripemd160_init ctx) [] (absorbed_init ctx)
    rw [List.nil_append, hc] at this
    rw [absorbed_final _ _ this, absorbed_final _ _ (hone (a ++ b))]

/-- C6 at concrete data: 61 bytes, then 70 bytes, against all 131 bytes in one
call (the first call leaves a partial block in the buffer). -/
theorem ripemd160_update_split_witness :
    (List.replicate 61 7).length + (List.replicate 70 9).length < 2 ^ 61
      ∧ (ripemd160_final (ripemd160_update
            (ripemd160_update (ripemd160_init ⟨(0, 0, 0, 0, 0), [], 0⟩) (List.replicate 61 7))
            (List.replicate 70 9))).2
          = (ripemd160_final (ripemd160_update (ripemd160_init ⟨(0, 0, 0, 0, 0), [], 0⟩)
              (List.replicate 61 7 ++ List.replicate 70 9))).2 :=
  ⟨by decide,
   (ripemd160_update_split ⟨(0, 0, 0, 0, 0), [], 0⟩ (List.replicate 61 7) (List.replicate 70 9)
      (by decide)).1⟩

end Ripemd160

namespace Ripemd160

set_option maxHeartbeats 4000000 in
/-- The 160 unrolled steps of `Transform` are the 80 steps of the two lines of
the standard, taken alternately.  `L j` and `R j` name the registers of the
left and right line after `j` steps; every line of the code is matched with
the step of the standard it performs. -/
theorem Transform_lines (s0 s1 s2 s3 s4 : Nat) (chunk : List Nat)
    (W : Nat → Nat) (L R : Nat → State5)
    (hW : ∀ k, W k = ReadLE32 chunk k)
    (hL : ∀ j, L j = Standard.left_after j (s0, s1, s2, s3, s4)
          [W 0, W 4, W 8, W 12, W 16, W 20, W 24, W 28, W 32, W 36, W 40, W 44, W 48, W 52, W 56,
           W 60])
    (hR : ∀ j, R j = Standard.right_after j (s0, s1, s2, s3, s4)
          [W 0, W 4, W 8, W 12, W 16, W 20, W 24, W 28, W 32, W 36, W 40, W 44, W 48, W 52, W 56,
           W 60]) :
    Transform (s0, s1, s2, s3, s4) chunk
      = Standard.compress (s0, s1, s2, s3, s4)
          [W 0, W 4, W 8, W 12, W 16, W 20, W 24, W 28, W 32, W 36, W 40, W 44, W 48, W 52, W 56,
           W 60] := by
  unfold Transform
  simp only [← hW]
  simp only [show R11 s0 s1 s2 s3 s4 (W 0) 11
      = ((L 1).2.1, (L 1).2.2.2.1) from (by simp only [hL, hR]; rfl)]
  simp only [show R12 s0 s1 s2 s3 s4 (W 20) 8
      = ((R 1).2.1, (R 1).2.2.2.1) from (by simp only [hL, hR]; rfl)]
  simp only [show R11 s4 (L 1).2.1 s1 (L 1).2.2.2.1 s3 (W 4) 14
      = ((L 2).2.1, (L 2).2.2.2.1) from (by simp only [hL, hR]; rfl)]
  simp only [show R12 s4 (R 1).2.1 s1 (R 1).2.2.2.1 s3 (W 56) 9
      = ((R 2).2.1, (R 2).2.2.2.1) from (by simp only [hL, hR]; rfl)]
  simp only [show R11 s3 (L 2).2.1 (L 1).2.1 (L 2).2.2.2.1 (L 1).2.2.2.1 (W 8) 15
      = ((L 3).2.1, (L 3).2.2.2.1) from (by simp only [hL, hR]; rfl)]
  simp only [show R12 s3 (R 2).2.1 (R 1).2.1 (R 2).2.2.2.1 (R 1).2.2.2.1 (W 28) 9
      = ((R 3).2.1, (R 3).2.2.2.1) from (by simp only [hL, hR]; rfl)]
  simp only [show R11 (L 1).2.2.2.1 (L 3).2.1 (L 2).2.1 (L 3).2.2.2.1 (L 2).2.2.2.1 (W 12) 12
      = ((L 4).2.1, (L 4).2.2.2.1) from (by simp only [hL, hR]; rfl)]
  simp only [show R12 (R 1).2.2.2.1 (R 3).2.1 (R 2).2.1 (R 3).2.2.2.1 (R 2).2.2.2.1 (W 0) 11
      = ((R 4).2.1, (R 4).2.2.2.1) from (by simp only [hL, hR]; rfl)]
  simp only [show R11 (L 2).2.2.2.1 (L 4).2.1 (L 3).2.1 (L 4).2.2.2.1 (L 3).2.2.2.1 (W 16) 5
      = ((L 5).2.1, (L 5).2.2.2.1) from (by simp only [hL, hR]; rfl)]
  simp only [show R12 (R 2).2.2.2.1 (R 4).2.1 (R 3).2.1 (R 4).2.2.2.1 (R 3).2.2.2.1 (W 36) 13
      = ((R 5).2.1, (R 5).2.2.2.1) from (by simp only [hL, hR]; rfl)]
  simp only [show R11 (L 3).2.2.2.1 (L 5).2.1 (L 4).2.1 (L 5).2.2.2.1 (L 4).2.2.2.1 (W 20) 8
      = ((L 6).2.1, (L 6).2.2.2.1) from (by simp only [hL, hR]; rfl)]
  simp only [show R12 (R 3).2.2.2.1 (R 5).2.1 (R 4).2.1 (R 5).2.2.2.1 (R 4).2.2.2.1 (W 8) 15
      = ((R 6).2.1, (R 6).2.2.2.1) from (by simp only [hL, hR]; rfl)]
  simp only [show R11 (L 4).2.2.2.1 (L 6).2.1 (L 5).2.1 (L 6).2.2.2.1 (L 5).2.2.2.1 (W 24) 7
      = ((L 7).2.1, (L 7).2.2.2.1) from (by simp only [hL, hR]; rfl)]
  simp only [show R12 (R 4).2.2.2.1 (R 6).2.1 (R 5).2.1 (R 6).2.2.2.1 (R 5).2.2.2.1 (W 44) 15
      = ((R 7).2.1, (R 7).2.2.2.1) from (by simp only [hL, hR]; rfl)]
  simp only [show R11 (L 5).2.2.2.1 (L 7).2.1 (L 6).2.1 (L 7).2.2.2.1 (L 6).2.2.2.1 (W 28) 9
      = ((L 8).2.1, (L 8).2.2.2.1) from (by simp only [hL, hR]; rfl)]
  simp only [show R12 (R 5).2.2.2.1 (R 7).2.1 (R 6).2.1 (R 7).2.2.2.1 (R 6).2.2.2.1 (W 16) 5
      = ((R 8).2.1, (R 8).2.2.2.1) from (by simp only [hL, hR]; rfl)]
  simp only [show R11 (L 6).2.2.2.1 (L 8).2.1 (L 7).2.1 (L 8).2.2.2.1 (L 7).2.2.2.1 (W 32) 11
      = ((L 9).2.1, (L 9).2.2.2.1) from (by simp only [hL, hR]; rfl)]
  simp only [show R12 (R 6).2.2.2.1 (R 8).2.1 (R 7).2.1 (R 8).2.2.2.1 (R 7).2.2.2.1 (W 52) 7
      = ((R 9).2.1, (R 9).2.2.2.1) from (by simp only [hL, hR]; rfl)]
  simp only [show R11 (L 7).2.2.2.1 (L 9).2.1 (L 8).2.1 (L 9).2.2.2.1 (L 8).2.2.2.1 (W 36) 13
      = ((L 10).2.1, (L 10).2.2.2.1) from (by simp only [hL, hR]; rfl)]
  simp only [show R12 (R 7).2.2.2.1 (R 9).2.1 (R 8).2.1 (R 9).2.2.2.1 (R 8).2.2.2.1 (W 24) 7
      = ((R 10).2.1, (R 10).2.2.2.1) from (by simp only [hL, hR]; rfl)]
  simp only [show R11 (L 8).2.2.2.1 (L 10).2.1 (L 9).2.1 (L 10).2.2.2.1 (L 9).2.2.2.1 (W 40) 14
      = ((L 11).2.1, (L 11).2.2.2.1) from (by simp only [hL, hR]; rfl)]
  simp only [show R12 (R 8).2.2.2.1 (R 10).2.1 (R 9).2.1 (R 10).2.2.2.1 (R 9).2.2.2.1 (W 60) 8
      = ((R 11).2.1, (R 11).2.2.2.1) from (by simp only [hL, hR]; rfl)]
  simp only [show R11 (L 9).2.2.2.1 (L 11).2.1 (L 10).2.1 (L 11).2.2.2.1 (L 10).2.2.2.1 (W 44) 15
      = ((L 12).2.1, (L 12).2.2.2.1) from (by simp only [hL, hR]; rfl)]
  simp only [show R12 (R 9).2.2.2.1 (R 11).2.1 (R 10).2.1 (R 11).2.2.2.1 (R 10).2.2.2.1 (W 32) 11
      = ((R 12).2.1, (R 12).2.2.2.1) from (by simp only [hL, hR]; rfl)]
  simp only [show R11 (L 10).2.2.2.1 (L 12).2.1 (L 11).2.1 (L 12).2.2.2.1 (L 11).2.2.2.1 (W 48) 6
      = ((L 13).2.1, (L 13).2.2.2.1) from (by simp only [hL, hR]; rfl)]
  simp only [show R12 (R 10).2.2.2.1 (R 12).2.1 (R 11).2.1 (R 12).2.2.2.1 (R 11).2.2.2.1 (W 4) 14
      = ((R 13).2.1, (R 13).2.2.2.1) from (by simp only [hL, hR]; rfl)]
  simp only [show R11 (L 11).2.2.2.1 (L 13).2.1 (L 12).2.1 (L 13).2.2.2.1 (L 12).2.2.2.1 (W 52) 7
      = ((L 14).2.1, (L 14).2.2.2.1) from (by simp only [hL, hR]; rfl)]
  simp only [show R12 (R 11).2.2.2.1 (R 13).2.1 (R 12).2.1 (R 13).2.2.2.1 (R 12).2.2.2.1 (W 40) 14
      = ((R 14).2.1, (R 14).2.2.2.1) from (by simp only [hL, hR]; rfl)]
  simp only [show R11 (L 12).2.2.2.1 (L 14).2.1 (L 13).2.1 (L 14).2.2.2.1 (L 13).2.2.2.1 (W 56) 9
      = ((L 15).2.1, (L 15).2.2.2.1) from (by simp only [hL, hR]; rfl)]
  simp only [show R12 (R 12).2.2.2.1 (R 14).2.1 (R 13).2.1 (R 14).2.2.2.1 (R 13).2.2.2.1 (W 12) 12
      = ((R 15).2.1, (R 15).2.2.2.1) from (by simp only [hL, hR]; rfl)]
  simp only [show R11 (L 13).2.2.2.1 (L 15).2.1 (L 14).2.1 (L 15).2.2.2.1 (L 14).2.2.2.1 (W 60) 8
      = ((L 16).2.1, (L 16).2.2.2.1) from (by simp only [hL, hR]; rfl)]
  simp only [show R12 (R 13).2.2.2.1 (R 15).2.1 (R 14).2.1 (R 15).2.2.2.1 (R 14).2.2.2.1 (W 48) 6
      = ((R 16).2.1, (R 16).2.2.2.1) from (by simp only [hL, hR]; rfl)]
  simp only [show R21 (L 14).2.2.2.1 (L 16).2.1 (L 15).2.1 (L 16).2.2.2.1 (L 15).2.2.2.1 (W 28) 7
      = ((L 17).2.1, (L 17).2.2.2.1) from (by simp only [hL, hR]; rfl)]
  simp only [show R22 (R 14).2.2.2.1 (R 16).2.1 (R 15).2.1 (R 16).2.2.2.1 (R 15).2.2.2.1 (W 24) 9
      = ((R 17).2.1, (R 17).2.2.2.1) from (by simp only [hL, hR]; rfl)]
  simp only [show R21 (L 15).2.2.2.1 (L 17).2.1 (L 16).2.1 (L 17).2.2.2.1 (L 16).2.2.2.1 (W 16) 6
      = ((L 18).2.1, (L 18).2.2.2.1) from (by simp only [hL, hR]; rfl)]
  simp only [show R22 (R 15).2.2.2.1 (R 17).2.1 (R 16).2.1 (R 17).2.2.2.1 (R 16).2.2.2.1 (W 44) 13
      = ((R 18).2.1, (R 18).2.2.2.1) from (by simp only [hL, hR]; rfl)]
  simp only [show R21 (L 16).2.2.2.1 (L 18).2.1 (L 17).2.1 (L 18).2.2.2.1 (L 17).2.2.2.1 (W 52) 8
      = ((L 19).2.1, (L 19).2.2.2.1) from (by simp only [hL, hR]; rfl)]
  simp only [show R22 (R 16).2.2.2.1 (R 18).2.1 (R 17).2.1 (R 18).2.2.2.1 (R 17).2.2.2.1 (W 12) 15
      = ((R 19).2.1, (R 19).2.2.2.1) from (by simp only [hL, hR]; rfl)]
  simp only [show R21 (L 17).2.2.2.1 (L 19).2.1 (L 18).2.1 (L 19).2.2.2.1 (L 18).2.2.2.1 (W 4) 13
      = ((L 20).2.1, (L 20).2.2.2.1) from (by simp only [hL, hR]; rfl)]
  simp only [show R22 (R 17).2.2.2.1 (R 19).2.1 (R 18).2.1 (R 19).2.2.2.1 (R 18).2.2.2.1 (W 28) 7
      = ((R 20).2.1, (R 20).2.2.2.1) from (by simp only [hL, hR]; rfl)]
  simp only [show R21 (L 18).2.2.2.1 (L 20).2.1 (L 19).2.1 (L 20).2.2.2.1 (L 19).2.2.2.1 (W 40) 11
      = ((L 21).2.1, (L 21).2.2.2.1) from (by simp only [hL, hR]; rfl)]
  simp only [show R22 (R 18).2.2.2.1 (R 20).2.1 (R 19).2.1 (R 20).2.2.2.1 (R 19).2.2.2.1 (W 0) 12
      = ((R 21).2.1, (R 21).2.2.2.1) from (by simp only [hL, hR]; rfl)]
  simp only [show R21 (L 19).2.2.2.1 (L 21).2.1 (L 20).2.1 (L 21).2.2.2.1 (L 20).2.2.2.1 (W 24) 9
      = ((L 22).2.1, (L 22).2.2.2.1) from (by simp only [hL, hR]; rfl)]
  simp only [show R22 (R 19).2.2.2.1 (R 21).2.1 (R 20).2.1 (R 21).2.2.2.1 (R 20).2.2.2.1 (W 52) 8
      = ((R 22).2.1, (R 22).2.2.2.1) from (by simp only [hL, hR]; rfl)]
  simp only [show R21 (L 20).2.2.2.1 (L 22).2.1 (L 21).2.1 (L 22).2.2.2.1 (L 21).2.2.2.1 (W 60) 7
      = ((L 23).2.1, (L 23).2.2.2.1) from (by simp only [hL, hR]; rfl)]
  simp only [show R22 (R 20).2.2.2.1 (R 22).2.1 (R 21).2.1 (R 22).2.2.2.1 (R 21).2.2.2.1 (W 20) 9
      = ((R 23).2.1, (R 23).2.2.2.1) from (by simp only [hL, hR]; rfl)]
  simp only [show R21 (L 21).2.2.2.1 (L 23).2.1 (L 22).2.1 (L 23).2.2.2.1 (L 22).2.2.2.1 (W 12) 15
      = ((L 24).2.1, (L 24).2.2.2.1) from (by simp only [hL, hR]; rfl)]
  simp only [show R22 (R 21).2.2.2.1 (R 23).2.1 (R 22).2.1 (R 23).2.2.2.1 (R 22).2.2.2.1 (W 40) 11
      = ((R 24).2.1, (R 24).2.2.2.1) from (by simp only [hL, hR]; rfl)]
  simp only [show R21 (L 22).2.2.2.1 (L 24).2.1 (L 23).2.1 (L 24).2.2.2.1 (L 23).2.2.2.1 (W 48) 7
      = ((L 25).2.1, (L 25).2.2.2.1) from (by simp only [hL, hR]; rfl)]
  simp only [show R22 (R 22).2.2.2.1 (R 24).2.1 (R 23).2.1 (R 24).2.2.2.1 (R 23).2.2.2.1 (W 56) 7
      = ((R 25).2.1, (R 25).2.2.2.1) from (by simp only [hL, hR]; rfl)]
  simp only [show R21 (L 23).2.2.2.1 (L 25).2.1 (L 24).2.1 (L 25).2.2.2.1 (L 24).2.2.2.1 (W 0) 12
      = ((L 26).2.1, (L 26).2.2.2.1) from (by simp only [hL, hR]; rfl)]
  simp only [show R22 (R 23).2.2.2.1 (R 25).2.1 (R 24).2.1 (R 25).2.2.2.1 (R 24).2.2.2.1 (W 60) 7
      = ((R 26).2.1, (R 26).2.2.2.1) from (by simp only [hL, hR]; rfl)]
  simp only [show R21 (L 24).2.2.2.1 (L 26).2.1 (L 25).2.1 (L 26).2.2.2.1 (L 25).2.2.2.1 (W 36) 15
      = ((L 27).2.1, (L 27).2.2.2.1) from (by simp only [hL, hR]; rfl)]
  simp only [show R22 (R 24).2.2.2.1 (R 26).2.1 (R 25).2.1 (R 26).2.2.2.1 (R 25).2.2.2.1 (W 32) 12
      = ((R 27).2.1, (R 27).2.2.2.1) from (by simp only [hL, hR]; rfl)]
  simp only [show R21 (L 25).2.2.2.1 (L 27).2.1 (L 26).2.1 (L 27).2.2.2.1 (L 26).2.2.2.1 (W 20) 9
      = ((L 28).2.1, (L 28).2.2.2.1) from (by simp only [hL, hR]; rfl)]
  simp only [show R22 (R 25).2.2.2.1 (R 27).2.1 (R 26).2.1 (R 27).2.2.2.1 (R 26).2.2.2.1 (W 48) 7
      = ((R 28).2.1, (R 28).2.2.2.1) from (by simp only [hL, hR]; rfl)]
  simp only [show R21 (L 26).2.2.2.1 (L 28).2.1 (L 27).2.1 (L 28).2.2.2.1 (L 27).2.2.2.1 (W 8) 11
      = ((L 29).2.1, (L 29).2.2.2.1) from (by simp only [hL, hR]; rfl)]
  simp only [show R22 (R 26).2.2.2.1 (R 28).2.1 (R 27).2.1 (R 28).2.2.2.1 (R 27).2.2.2.1 (W 16) 6
      = ((R 29).2.1, (R 29).2.2.2.1) from (by simp only [hL, hR]; rfl)]
  simp only [show R21 (L 27).2.2.2.1 (L 29).2.1 (L 28).2.1 (L 29).2.2.2.1 (L 28).2.2.2.1 (W 56) 7
      = ((L 30).2.1, (L 30).2.2.2.1) from (by simp only [hL, hR]; rfl)]
  simp only [show R22 (R 27).2.2.2.1 (R 29).2.1 (R 28).2.1 (R 29).2.2.2.1 (R 28).2.2.2.1 (W 36) 15
      = ((R 30).2.1, (R 30).2.2.2.1) from (by simp only [hL, hR]; rfl)]
  simp only [show R21 (L 28).2.2.2.1 (L 30).2.1 (L 29).2.1 (L 30).2.2.2.1 (L 29).2.2.2.1 (W 44) 13
      = ((L 31).2.1, (L 31).2.2.2.1) from (by simp only [hL, hR]; rfl)]
  simp only [show R22 (R 28).2.2.2.1 (R 30).2.1 (R 29).2.1 (R 30).2.2.2.1 (R 29).2.2.2.1 (W 4) 13
      = ((R 31).2.1, (R 31).2.2.2.1) from (by simp only [hL, hR]; rfl)]
  simp only [show R21 (L 29).2.2.2.1 (L 31).2.1 (L 30).2.1 (L 31).2.2.2.1 (L 30).2.2.2.1 (W 32) 12
      = ((L 32).2.1, (L 32).2.2.2.1) from (by simp only [hL, hR]; rfl)]
  simp only [show R22 (R 29).2.2.2.1 (R 31).2.1 (R 30).2.1 (R 31).2.2.2.1 (R 30).2.2.2.1 (W 8) 11
      = ((R 32).2.1, (R 32).2.2.2.1) from (by simp only [hL, hR]; rfl)]
  simp only [show R31 (L 30).2.2.2.1 (L 32).2.1 (L 31).2.1 (L 32).2.2.2.1 (L 31).2.2.2.1 (W 12) 11
      = ((L 33).2.1, (L 33).2.2.2.1) from (by simp only [hL, hR]; rfl)]
  simp only [show R32 (R 30).2.2.2.1 (R 32).2.1 (R 31).2.1 (R 32).2.2.2.1 (R 31).2.2.2.1 (W 60) 9
      = ((R 33).2.1, (R 33).2.2.2.1) from (by simp only [hL, hR]; rfl)]
  simp only [show R31 (L 31).2.2.2.1 (L 33).2.1 (L 32).2.1 (L 33).2.2.2.1 (L 32).2.2.2.1 (W 40) 13
      = ((L 34).2.1, (L 34).2.2.2.1) from (by simp only [hL, hR]; rfl)]
  simp only [show R32 (R 31).2.2.2.1 (R 33).2.1 (R 32).2.1 (R 33).2.2.2.1 (R 32).2.2.2.1 (W 20) 7
      = ((R 34).2.1, (R 34).2.2.2.1) from (by simp only [hL, hR]; rfl)]
  simp only [show R31 (L 32).2.2.2.1 (L 34).2.1 (L 33).2.1 (L 34).2.2.2.1 (L 33).2.2.2.1 (W 56) 6
      = ((L 35).2.1, (L 35).2.2.2.1) from (by simp only [hL, hR]; rfl)]
  simp only [show R32 (R 32).2.2.2.1 (R 34).2.1 (R 33).2.1 (R 34).2.2.2.1 (R 33).2.2.2.1 (W 4) 15
      = ((R 35).2.1, (R 35).2.2.2.1) from (by simp only [hL, hR]; rfl)]
  simp only [show R31 (L 33).2.2.2.1 (L 35).2.1 (L 34).2.1 (L 35).2.2.2.1 (L 34).2.2.2.1 (W 16) 7
      = ((L 36).2.1, (L 36).2.2.2.1) from (by simp only [hL, hR]; rfl)]
  simp only [show R32 (R 33).2.2.2.1 (R 35).2.1 (R 34).2.1 (R 35).2.2.2.1 (R 34).2.2.2.1 (W 12) 11
      = ((R 36).2.1, (R 36).2.2.2.1) from (by simp only [hL, hR]; rfl)]
  simp only [show R31 (L 34).2.2.2.1 (L 36).2.1 (L 35).2.1 (L 36).2.2.2.1 (L 35).2.2.2.1 (W 36) 14
      = ((L 37).2.1, (L 37).2.2.2.1) from (by simp only [hL, hR]; rfl)]
  simp only [show R32 (R 34).2.2.2.1 (R 36).2.1 (R 35).2.1 (R 36).2.2.2.1 (R 35).2.2.2.1 (W 28) 8
      = ((R 37).2.1, (R 37).2.2.2.1) from (by simp only [hL, hR]; rfl)]
  simp only [show R31 (L 35).2.2.2.1 (L 37).2.1 (L 36).2.1 (L 37).2.2.2.1 (L 36).2.2.2.1 (W 60) 9
      = ((L 38).2.1, (L 38).2.2.2.1) from (by simp only [hL, hR]; rfl)]
  simp only [show R32 (R 35).2.2.2.1 (R 37).2.1 (R 36).2.1 (R 37).2.2.2.1 (R 36).2.2.2.1 (W 56) 6
      = ((R 38).2.1, (R 38).2.2.2.1) from (by simp only [hL, hR]; rfl)]
  simp only [show R31 (L 36).2.2.2.1 (L 38).2.1 (L 37).2.1 (L 38).2.2.2.1 (L 37).2.2.2.1 (W 32) 13
      = ((L 39).2.1, (L 39).2.2.2.1) from (by simp only [hL, hR]; rfl)]
  simp only [show R32 (R 36).2.2.2.1 (R 38).2.1 (R 37).2.1 (R 38).2.2.2.1 (R 37).2.2.2.1 (W 24) 6
      = ((R 39).2.1, (R 39).2.2.2.1) from (by simp only [hL, hR]; rfl)]
  simp only [show R31 (L 37).2.2.2.1 (L 39).2.1 (L 38).2.1 (L 39).2.2.2.1 (L 38).2.2.2.1 (W 4) 15
      = ((L 40).2.1, (L 40).2.2.2.1) from (by simp only [hL, hR]; rfl)]
  simp only [show R32 (R 37).2.2.2.1 (R 39).2.1 (R 38).2.1 (R 39).2.2.2.1 (R 38).2.2.2.1 (W 36) 14
      = ((R 40).2.1, (R 40).2.2.2.1) from (by simp only [hL, hR]; rfl)]
  simp only [show R31 (L 38).2.2.2.1 (L 40).2.1 (L 39).2.1 (L 40).2.2.2.1 (L 39).2.2.2.1 (W 8) 14
      = ((L 41).2.1, (L 41).2.2.2.1) from (by simp only [hL, hR]; rfl)]
  simp only [show R32 (R 38).2.2.2.1 (R 40).2.1 (R 39).2.1 (R 40).2.2.2.1 (R 39).2.2.2.1 (W 44) 12
      = ((R 41).2.1, (R 41).2.2.2.1) from (by simp only [hL, hR]; rfl)]
  simp only [show R31 (L 39).2.2.2.1 (L 41).2.1 (L 40).2.1 (L 41).2.2.2.1 (L 40).2.2.2.1 (W 28) 8
      = ((L 42).2.1, (L 42).2.2.2.1) from (by simp only [hL, hR]; rfl)]
  simp only [show R32 (R 39).2.2.2.1 (R 41).2.1 (R 40).2.1 (R 41).2.2.2.1 (R 40).2.2.2.1 (W 32) 13
      = ((R 42).2.1, (R 42).2.2.2.1) from (by simp only [hL, hR]; rfl)]
  simp only [show R31 (L 40).2.2.2.1 (L 42).2.1 (L 41).2.1 (L 42).2.2.2.1 (L 41).2.2.2.1 (W 0) 13
      = ((L 43).2.1, (L 43).2.2.2.1) from (by simp only [hL, hR]; rfl)]
  simp only [show R32 (R 40).2.2.2.1 (R 42).2.1 (R 41).2.1 (R 42).2.2.2.1 (R 41).2.2.2.1 (W 48) 5
      = ((R 43).2.1, (R 43).2.2.2.1) from (by simp only [hL, hR]; rfl)]
  simp only [show R31 (L 41).2.2.2.1 (L 43).2.1 (L 42).2.1 (L 43).2.2.2.1 (L 42).2.2.2.1 (W 24) 6
      = ((L 44).2.1, (L 44).2.2.2.1) from (by simp only [hL, hR]; rfl)]
  simp only [show R32 (R 41).2.2.2.1 (R 43).2.1 (R 42).2.1 (R 43).2.2.2.1 (R 42).2.2.2.1 (W 8) 14
      = ((R 44).2.1, (R 44).2.2.2.1) from (by simp only [hL, hR]; rfl)]
  simp only [show R31 (L 42).2.2.2.1 (L 44).2.1 (L 43).2.1 (L 44).2.2.2.1 (L 43).2.2.2.1 (W 52) 5
      = ((L 45).2.1, (L 45).2.2.2.1) from (by simp only [hL, hR]; rfl)]
  simp only [show R32 (R 42).2.2.2.1 (R 44).2.1 (R 43).2.1 (R 44).2.2.2.1 (R 43).2.2.2.1 (W 40) 13
      = ((R 45).2.1, (R 45).2.2.2.1) from (by simp only [hL, hR]; rfl)]
  simp only [show R31 (L 43).2.2.2.1 (L 45).2.1 (L 44).2.1 (L 45).2.2.2.1 (L 44).2.2.2.1 (W 44) 12
      = ((L 46).2.1, (L 46).2.2.2.1) from (by simp only [hL, hR]; rfl)]
  simp only [show R32 (R 43).2.2.2.1 (R 45).2.1 (R 44).2.1 (R 45).2.2.2.1 (R 44).2.2.2.1 (W 0) 13
      = ((R 46).2.1, (R 46).2.2.2.1) from (by simp only [hL, hR]; rfl)]
  simp only [show R31 (L 44).2.2.2.1 (L 46).2.1 (L 45).2.1 (L 46).2.2.2.1 (L 45).2.2.2.1 (W 20) 7
      = ((L 47).2.1, (L 47).2.2.2.1) from (by simp only [hL, hR]; rfl)]
  simp only [show R32 (R 44).2.2.2.1 (R 46).2.1 (R 45).2.1 (R 46).2.2.2.1 (R 45).2.2.2.1 (W 16) 7
      = ((R 47).2.1, (R 47).2.2.2.1) from (by simp only [hL, hR]; rfl)]
  simp only [show R31 (L 45).2.2.2.1 (L 47).2.1 (L 46).2.1 (L 47).2.2.2.1 (L 46).2.2.2.1 (W 48) 5
      = ((L 48).2.1, (L 48).2.2.2.1) from (by simp only [hL, hR]; rfl)]
  simp only [show R32 (R 45).2.2.2.1 (R 47).2.1 (R 46).2.1 (R 47).2.2.2.1 (R 46).2.2.2.1 (W 52) 5
      = ((R 48).2.1, (R 48).2.2.2.1) from (by simp only [hL, hR]; rfl)]
  simp only [show R41 (L 46).2.2.2.1 (L 48).2.1 (L 47).2.1 (L 48).2.2.2.1 (L 47).2.2.2.1 (W 4) 11
      = ((L 49).2.1, (L 49).2.2.2.1) from (by simp only [hL, hR]; rfl)]
  simp only [show R42 (R 46).2.2.2.1 (R 48).2.1 (R 47).2.1 (R 48).2.2.2.1 (R 47).2.2.2.1 (W 32) 15
      = ((R 49).2.1, (R 49).2.2.2.1) from (by simp only [hL, hR]; rfl)]
  simp only [show R41 (L 47).2.2.2.1 (L 49).2.1 (L 48).2.1 (L 49).2.2.2.1 (L 48).2.2.2.1 (W 36) 12
      = ((L 50).2.1, (L 50).2.2.2.1) from (by simp only [hL, hR]; rfl)]
  simp only [show R42 (R 47).2.2.2.1 (R 49).2.1 (R 48).2.1 (R 49).2.2.2.1 (R 48).2.2.2.1 (W 24) 5
      = ((R 50).2.1, (R 50).2.2.2.1) from (by simp only [hL, hR]; rfl)]
  simp only [show R41 (L 48).2.2.2.1 (L 50).2.1 (L 49).2.1 (L 50).2.2.2.1 (L 49).2.2.2.1 (W 44) 14
      = ((L 51).2.1, (L 51).2.2.2.1) from (by simp only [hL, hR]; rfl)]
  simp only [show R42 (R 48).2.2.2.1 (R 50).2.1 (R 49).2.1 (R 50).2.2.2.1 (R 49).2.2.2.1 (W 16) 8
      = ((R 51).2.1, (R 51).2.2.2.1) from (by simp only [hL, hR]; rfl)]
  simp only [show R41 (L 49).2.2.2.1 (L 51).2.1 (L 50).2.1 (L 51).2.2.2.1 (L 50).2.2.2.1 (W 40) 15
      = ((L 52).2.1, (L 52).2.2.2.1) from (by simp only [hL, hR]; rfl)]
  simp only [show R42 (R 49).2.2.2.1 (R 51).2.1 (R 50).2.1 (R 51).2.2.2.1 (R 50).2.2.2.1 (W 4) 11
      = ((R 52).2.1, (R 52).2.2.2.1) from (by simp only [hL, hR]; rfl)]
  simp only [show R41 (L 50).2.2.2.1 (L 52).2.1 (L 51).2.1 (L 52).2.2.2.1 (L 51).2.2.2.1 (W 0) 14
      = ((L 53).2.1, (L 53).2.2.2.1) from (by simp only [hL, hR]; rfl)]
  simp only [show R42 (R 50).2.2.2.1 (R 52).2.1 (R 51).2.1 (R 52).2.2.2.1 (R 51).2.2.2.1 (W 12) 14
      = ((R 53).2.1, (R 53).2.2.2.1) from (by simp only [hL, hR]; rfl)]
  simp only [show R41 (L 51).2.2.2.1 (L 53).2.1 (L 52).2.1 (L 53).2.2.2.1 (L 52).2.2.2.1 (W 32) 15
      = ((L 54).2.1, (L 54).2.2.2.1) from (by simp only [hL, hR]; rfl)]
  simp only [show R42 (R 51).2.2.2.1 (R 53).2.1 (R 52).2.1 (R 53).2.2.2.1 (R 52).2.2.2.1 (W 44) 14
      = ((R 54).2.1, (R 54).2.2.2.1) from (by simp only [hL, hR]; rfl)]
  simp only [show R41 (L 52).2.2.2.1 (L 54).2.1 (L 53).2.1 (L 54).2.2.2.1 (L 53).2.2.2.1 (W 48) 9
      = ((L 55).2.1, (L 55).2.2.2.1) from (by simp only [hL, hR]; rfl)]
  simp only [show R42 (R 52).2.2.2.1 (R 54).2.1 (R 53).2.1 (R 54).2.2.2.1 (R 53).2.2.2.1 (W 60) 6
      = ((R 55).2.1, (R 55).2.2.2.1) from (by simp only [hL, hR]; rfl)]
  simp only [show R41 (L 53).2.2.2.1 (L 55).2.1 (L 54).2.1 (L 55).2.2.2.1 (L 54).2.2.2.1 (W 16) 8
      = ((L 56).2.1, (L 56).2.2.2.1) from (by simp only [hL, hR]; rfl)]
  simp only [show R42 (R 53).2.2.2.1 (R 55).2.1 (R 54).2.1 (R 55).2.2.2.1 (R 54).2.2.2.1 (W 0) 14
      = ((R 56).2.1, (R 56).2.2.2.1) from (by simp only [hL, hR]; rfl)]
  simp only [show R41 (L 54).2.2.2.1 (L 56).2.1 (L 55).2.1 (L 56).2.2.2.1 (L 55).2.2.2.1 (W 52) 9
      = ((L 57).2.1, (L 57).2.2.2.1) from (by simp only [hL, hR]; rfl)]
  simp only [show R42 (R 54).2.2.2.1 (R 56).2.1 (R 55).2.1 (R 56).2.2.2.1 (R 55).2.2.2.1 (W 20) 6
      = ((R 57).2.1, (R 57).2.2.2.1) from (by simp only [hL, hR]; rfl)]
  simp only [show R41 (L 55).2.2.2.1 (L 57).2.1 (L 56).2.1 (L 57).2.2.2.1 (L 56).2.2.2.1 (W 12) 14
      = ((L 58).2.1, (L 58).2.2.2.1) from (by simp only [hL, hR]; rfl)]
  simp only [show R42 (R 55).2.2.2.1 (R 57).2.1 (R 56).2.1 (R 57).2.2.2.1 (R 56).2.2.2.1 (W 48) 9
      = ((R 58).2.1, (R 58).2.2.2.1) from (by simp only [hL, hR]; rfl)]
  simp only [show R41 (L 56).2.2.2.1 (L 58).2.1 (L 57).2.1 (L 58).2.2.2.1 (L 57).2.2.2.1 (W 28) 5
      = ((L 59).2.1, (L 59).2.2.2.1) from (by simp only [hL, hR]; rfl)]
  simp only [show R42 (R 56).2.2.2.1 (R 58).2.1 (R 57).2.1 (R 58).2.2.2.1 (R 57).2.2.2.1 (W 8) 12
      = ((R 59).2.1, (R 59).2.2.2.1) from (by simp only [hL, hR]; rfl)]
  simp only [show R41 (L 57).2.2.2.1 (L 59).2.1 (L 58).2.1 (L 59).2.2.2.1 (L 58).2.2.2.1 (W 60) 6
      = ((L 60).2.1, (L 60).2.2.2.1) from (by simp only [hL, hR]; rfl)]
  simp only [show R42 (R 57).2.2.2.1 (R 59).2.1 (R 58).2.1 (R 59).2.2.2.1 (R 58).2.2.2.1 (W 52) 9
      = ((R 60).2.1, (R 60).2.2.2.1) from (by simp only [hL, hR]; rfl)]
  simp only [show R41 (L 58).2.2.2.1 (L 60).2.1 (L 59).2.1 (L 60).2.2.2.1 (L 59).2.2.2.1 (W 56) 8
      = ((L 61).2.1, (L 61).2.2.2.1) from (by simp only [hL, hR]; rfl)]
  simp only [show R42 (R 58).2.2.2.1 (R 60).2.1 (R 59).2.1 (R 60).2.2.2.1 (R 59).2.2.2.1 (W 36) 12
      = ((R 61).2.1, (R 61).2.2.2.1) from (by simp only [hL, hR]; rfl)]
  simp only [show R41 (L 59).2.2.2.1 (L 61).2.1 (L 60).2.1 (L 61).2.2.2.1 (L 60).2.2.2.1 (W 20) 6
      = ((L 62).2.1, (L 62).2.2.2.1) from (by simp only [hL, hR]; rfl)]
  simp only [show R42 (R 59).2.2.2.1 (R 61).2.1 (R 60).2.1 (R 61).2.2.2.1 (R 60).2.2.2.1 (W 28) 5
      = ((R 62).2.1, (R 62).2.2.2.1) from (by simp only [hL, hR]; rfl)]
  simp only [show R41 (L 60).2.2.2.1 (L 62).2.1 (L 61).2.1 (L 62).2.2.2.1 (L 61).2.2.2.1 (W 24) 5
      = ((L 63).2.1, (L 63).2.2.2.1) from (by simp only [hL, hR]; rfl)]
  simp only [show R42 (R 60).2.2.2.1 (R 62).2.1 (R 61).2.1 (R 62).2.2.2.1 (R 61).2.2.2.1 (W 40) 15
      = ((R 63).2.1, (R 63).2.2.2.1) from (by simp only [hL, hR]; rfl)]
  simp only [show R41 (L 61).2.2.2.1 (L 63).2.1 (L 62).2.1 (L 63).2.2.2.1 (L 62).2.2.2.1 (W 8) 12
      = ((L 64).2.1, (L 64).2.2.2.1) from (by simp only [hL, hR]; rfl)]
  simp only [show R42 (R 61).2.2.2.1 (R 63).2.1 (R 62).2.1 (R 63).2.2.2.1 (R 62).2.2.2.1 (W 56) 8
      = ((R 64).2.1, (R 64).2.2.2.1) from (by simp only [hL, hR]; rfl)]
  simp only [show R51 (L 62).2.2.2.1 (L 64).2.1 (L 63).2.1 (L 64).2.2.2.1 (L 63).2.2.2.1 (W 16) 9
      = ((L 65).2.1, (L 65).2.2.2.1) from (by simp only [hL, hR]; rfl)]
  simp only [show R52 (R 62).2.2.2.1 (R 64).2.1 (R 63).2.1 (R 64).2.2.2.1 (R 63).2.2.2.1 (W 48) 8
      = ((R 65).2.1, (R 65).2.2.2.1) from (by simp only [hL, hR]; rfl)]
  simp only [show R51 (L 63).2.2.2.1 (L 65).2.1 (L 64).2.1 (L 65).2.2.2.1 (L 64).2.2.2.1 (W 0) 15
      = ((L 66).2.1, (L 66).2.2.2.1) from (by simp only [hL, hR]; rfl)]
  simp only [show R52 (R 63).2.2.2.1 (R 65).2.1 (R 64).2.1 (R 65).2.2.2.1 (R 64).2.2.2.1 (W 60) 5
      = ((R 66).2.1, (R 66).2.2.2.1) from (by simp only [hL, hR]; rfl)]
  simp only [show R51 (L 64).2.2.2.1 (L 66).2.1 (L 65).2.1 (L 66).2.2.2.1 (L 65).2.2.2.1 (W 20) 5
      = ((L 67).2.1, (L 67).2.2.2.1) from (by simp only [hL, hR]; rfl)]
  simp only [show R52 (R 64).2.2.2.1 (R 66).2.1 (R 65).2.1 (R 66).2.2.2.1 (R 65).2.2.2.1 (W 40) 12
      = ((R 67).2.1, (R 67).2.2.2.1) from (by simp only [hL, hR]; rfl)]
  simp only [show R51 (L 65).2.2.2.1 (L 67).2.1 (L 66).2.1 (L 67).2.2.2.1 (L 66).2.2.2.1 (W 36) 11
      = ((L 68).2.1, (L 68).2.2.2.1) from (by simp only [hL, hR]; rfl)]
  simp only [show R52 (R 65).2.2.2.1 (R 67).2.1 (R 66).2.1 (R 67).2.2.2.1 (R 66).2.2.2.1 (W 16) 9
      = ((R 68).2.1, (R 68).2.2.2.1) from (by simp only [hL, hR]; rfl)]
  simp only [show R51 (L 66).2.2.2.1 (L 68).2.1 (L 67).2.1 (L 68).2.2.2.1 (L 67).2.2.2.1 (W 28) 6
      = ((L 69).2.1, (L 69).2.2.2.1) from (by simp only [hL, hR]; rfl)]
  simp only [show R52 (R 66).2.2.2.1 (R 68).2.1 (R 67).2.1 (R 68).2.2.2.1 (R 67).2.2.2.1 (W 4) 12
      = ((R 69).2.1, (R 69).2.2.2.1) from (by simp only [hL, hR]; rfl)]
  simp only [show R51 (L 67).2.2.2.1 (L 69).2.1 (L 68).2.1 (L 69).2.2.2.1 (L 68).2.2.2.1 (W 48) 8
      = ((L 70).2.1, (L 70).2.2.2.1) from (by simp only [hL, hR]; rfl)]
  simp only [show R52 (R 67).2.2.2.1 (R 69).2.1 (R 68).2.1 (R 69).2.2.2.1 (R 68).2.2.2.1 (W 20) 5
      = ((R 70).2.1, (R 70).2.2.2.1) from (by simp only [hL, hR]; rfl)]
  simp only [show R51 (L 68).2.2.2.1 (L 70).2.1 (L 69).2.1 (L 70).2.2.2.1 (L 69).2.2.2.1 (W 8) 13
      = ((L 71).2.1, (L 71).2.2.2.1) from (by simp only [hL, hR]; rfl)]
  simp only [show R52 (R 68).2.2.2.1 (R 70).2.1 (R 69).2.1 (R 70).2.2.2.1 (R 69).2.2.2.1 (W 32) 14
      = ((R 71).2.1, (R 71).2.2.2.1) from (by simp only [hL, hR]; rfl)]
  simp only [show R51 (L 69).2.2.2.1 (L 71).2.1 (L 70).2.1 (L 71).2.2.2.1 (L 70).2.2.2.1 (W 40) 12
      = ((L 72).2.1, (L 72).2.2.2.1) from (by simp only [hL, hR]; rfl)]
  simp only [show R52 (R 69).2.2.2.1 (R 71).2.1 (R 70).2.1 (R 71).2.2.2.1 (R 70).2.2.2.1 (W 28) 6
      = ((R 72).2.1, (R 72).2.2.2.1) from (by simp only [hL, hR]; rfl)]
  simp only [show R51 (L 70).2.2.2.1 (L 72).2.1 (L 71).2.1 (L 72).2.2.2.1 (L 71).2.2.2.1 (W 56) 5
      = ((L 73).2.1, (L 73).2.2.2.1) from (by simp only [hL, hR]; rfl)]
  simp only [show R52 (R 70).2.2.2.1 (R 72).2.1 (R 71).2.1 (R 72).2.2.2.1 (R 71).2.2.2.1 (W 24) 8
      = ((R 73).2.1, (R 73).2.2.2.1) from (by simp only [hL, hR]; rfl)]
  simp only [show R51 (L 71).2.2.2.1 (L 73).2.1 (L 72).2.1 (L 73).2.2.2.1 (L 72).2.2.2.1 (W 4) 12
      = ((L 74).2.1, (L 74).2.2.2.1) from (by simp only [hL, hR]; rfl)]
  simp only [show R52 (R 71).2.2.2.1 (R 73).2.1 (R 72).2.1 (R 73).2.2.2.1 (R 72).2.2.2.1 (W 8) 13
      = ((R 74).2.1, (R 74).2.2.2.1) from (by simp only [hL, hR]; rfl)]
  simp only [show R51 (L 72).2.2.2.1 (L 74).2.1 (L 73).2.1 (L 74).2.2.2.1 (L 73).2.2.2.1 (W 12) 13
      = ((L 75).2.1, (L 75).2.2.2.1) from (by simp only [hL, hR]; rfl)]
  simp only [show R52 (R 72).2.2.2.1 (R 74).2.1 (R 73).2.1 (R 74).2.2.2.1 (R 73).2.2.2.1 (W 52) 6
      = ((R 75).2.1, (R 75).2.2.2.1) from (by simp only [hL, hR]; rfl)]
  simp only [show R51 (L 73).2.2.2.1 (L 75).2.1 (L 74).2.1 (L 75).2.2.2.1 (L 74).2.2.2.1 (W 32) 14
      = ((L 76).2.1, (L 76).2.2.2.1) from (by simp only [hL, hR]; rfl)]
  simp only [show R52 (R 73).2.2.2.1 (R 75).2.1 (R 74).2.1 (R 75).2.2.2.1 (R 74).2.2.2.1 (W 56) 5
      = ((R 76).2.1, (R 76).2.2.2.1) from (by simp only [hL, hR]; rfl)]
  simp only [show R51 (L 74).2.2.2.1 (L 76).2.1 (L 75).2.1 (L 76).2.2.2.1 (L 75).2.2.2.1 (W 44) 11
      = ((L 77).2.1, (L 77).2.2.2.1) from (by simp only [hL, hR]; rfl)]
  simp only [show R52 (R 74).2.2.2.1 (R 76).2.1 (R 75).2.1 (R 76).2.2.2.1 (R 75).2.2.2.1 (W 0) 15
      = ((R 77).2.1, (R 77).2.2.2.1) from (by simp only [hL, hR]; rfl)]
  simp only [show R51 (L 75).2.2.2.1 (L 77).2.1 (L 76).2.1 (L 77).2.2.2.1 (L 76).2.2.2.1 (W 24) 8
      = ((L 78).2.1, (L 78).2.2.2.1) from (by simp only [hL, hR]; rfl)]
  simp only [show R52 (R 75).2.2.2.1 (R 77).2.1 (R 76).2.1 (R 77).2.2.2.1 (R 76).2.2.2.1 (W 12) 13
      = ((R 78).2.1, (R 78).2.2.2.1) from (by simp only [hL, hR]; rfl)]
  simp only [show R51 (L 76).2.2.2.1 (L 78).2.1 (L 77).2.1 (L 78).2.2.2.1 (L 77).2.2.2.1 (W 60) 5
      = ((L 79).2.1, (L 79).2.2.2.1) from (by simp only [hL, hR]; rfl)]
  simp only [show R52 (R 76).2.2.2.1 (R 78).2.1 (R 77).2.1 (R 78).2.2.2.1 (R 77).2.2.2.1 (W 36) 11
      = ((R 79).2.1, (R 79).2.2.2.1) from (by simp only [hL, hR]; rfl)]
  simp only [show R51 (L 77).2.2.2.1 (L 79).2.1 (L 78).2.1 (L 79).2.2.2.1 (L 78).2.2.2.1 (W 52) 6
      = ((L 80).2.1, (L 80).2.2.2.1) from (by simp only [hL, hR]; rfl)]
  simp only [show R52 (R 77).2.2.2.1 (R 79).2.1 (R 78).2.1 (R 79).2.2.2.1 (R 78).2.2.2.1 (W 44) 11
      = ((R 80).2.1, (R 80).2.2.2.1) from (by simp only [hL, hR]; rfl)]
  simp only [hL, hR]
  rfl

/-- The function `Transform` is the compression function of the standard on the 16
little-endian words of the chunk. -/
theorem Transform_eq_compress (s : State5) (chunk : List Nat) :
    Transform s chunk
      = Standard.compress s
          [ReadLE32 chunk 0, ReadLE32 chunk 4, ReadLE32 chunk 8, ReadLE32 chunk 12,
           ReadLE32 chunk 16, ReadLE32 chunk 20, ReadLE32 chunk 24, ReadLE32 chunk 28,
           ReadLE32 chunk 32, ReadLE32 chunk 36, ReadLE32 chunk 40, ReadLE32 chunk 44,
           ReadLE32 chunk 48, ReadLE32 chunk 52, ReadLE32 chunk 56, ReadLE32 chunk 60] := by
  obtain ⟨s0, s1, s2, s3, s4⟩ := s
  exact Transform_lines s0 s1 s2 s3 s4 chunk (fun k => ReadLE32 chunk k)
    (fun j => Standard.left_after j (s0, s1, s2, s3, s4)
          [ReadLE32 chunk 0, ReadLE32 chunk 4, ReadLE32 chunk 8, ReadLE32 chunk 12,
           ReadLE32 chunk 16, ReadLE32 chunk 20, ReadLE32 chunk 24, ReadLE32 chunk 28,
           ReadLE32 chunk 32, ReadLE32 chunk 36, ReadLE32 chunk 40, ReadLE32 chunk 44,
           ReadLE32 chunk 48, ReadLE32 chunk 52, ReadLE32 chunk 56, ReadLE32 chunk 60])
    (fun j => Standard.right_after j (s0, s1, s2, s3, s4)
          [ReadLE32 chunk 0, ReadLE32 chunk 4, ReadLE32 chunk 8, ReadLE32 chunk 12,
           ReadLE32 chunk 16, ReadLE32 chunk 20, ReadLE32 chunk 24, ReadLE32 chunk 28,
           ReadLE32 chunk 32, ReadLE32 chunk 36, ReadLE32 chunk 40, ReadLE32 chunk 44,
           ReadLE32 chunk 48, ReadLE32 chunk 52, ReadLE32 chunk 56, ReadLE32 chunk 60])
    (fun _ => rfl) (fun _ => rfl) (fun _ => rfl)

end Ripemd160

namespace Ripemd160

/-- A byte string: every element is below 256. -/
theorem getD_lt_of_bytes (p : List Nat) (hp : ∀ b ∈ p, b < 256) (i : Nat) :
    p.getD i 0 < 256 := by
  rw [List.getD_eq_getElem?_getD]
  cases h : p[i]? with
  | none => simp
  | some b => exact hp b (List.getElem?_mem h)

theorem word_of_bytes_eq (p : List Nat) (off k : Nat) (hp : ∀ i, p.getD i 0 < 256) :
    Standard.word_of_bytes (p.getD (off + k) 0) (p.getD (off + k + 1) 0)
        (p.getD (off + k + 2) 0) (p.getD (off + k + 3) 0)
      = ReadLE32 (p.drop off) k := by
  unfold Standard.word_of_bytes ReadLE32
  rw [getD_drop_nat, getD_drop_nat, getD_drop_nat, getD_drop_nat,
    Nat.mod_eq_of_lt (hp _), Nat.mod_eq_of_lt (hp _), Nat.mod_eq_of_lt (hp _),
    Nat.mod_eq_of_lt (hp _)]
  simp only [Nat.add_assoc, Nat.mul_comm]

theorem block_words_eq (p : List Nat) (off : Nat) (hp : ∀ i, p.getD i 0 < 256) :
    Standard.block_words p off
      = [ReadLE32 (p.drop off) 0, ReadLE32 (p.drop off) 4, ReadLE32 (p.drop off) 8,
           ReadLE32 (p.drop off) 12, ReadLE32 (p.drop off) 16, ReadLE32 (p.drop off) 20,
           ReadLE32 (p.drop off) 24, ReadLE32 (p.drop off) 28, ReadLE32 (p.drop off) 32,
           ReadLE32 (p.drop off) 36, ReadLE32 (p.drop off) 40, ReadLE32 (p.drop off) 44,
           ReadLE32 (p.drop off) 48, ReadLE32 (p.drop off) 52, ReadLE32 (p.drop off) 56,
           ReadLE32 (p.drop off) 60] := by
  have hr : List.range 16 = [0, 1, 2, 3, 4, 5, 6, 7, 8, 9, 10, 11, 12, 13, 14, 15] := by decide
  unfold Standard.block_words
  rw [hr]
  simp only [List.map_cons, List.map_nil, word_of_bytes_eq p off _ hp]

theorem bytes_le_4 (x : Nat) : Standard.bytes_le 4 x = WriteLE32 x := by
  simp only [Standard.bytes_le, WriteLE32, Nat.div_div_eq_div_mul]
  norm_num

theorem bytes_le_8 (x : Nat) : Standard.bytes_le 8 x = WriteLE64 x := by
  simp only [Standard.bytes_le, WriteLE64, Nat.div_div_eq_div_mul]
  norm_num

theorem bytes_le_lt (n x : Nat) : ∀ b ∈ Standard.bytes_le n x, b < 256 := by
  induction n generalizing x with
  | zero => simp [Standard.bytes_le]
  | succ n ih =>
    intro b hb
    simp only [Standard.bytes_le, List.mem_cons] at hb
    rcases hb with hb | hb
    · omega
    · exact ih _ b hb

/-- The bytes `ripemd160_final` feeds after the message are the padding of
the standard. -/
theorem padded_eq_pad_message (m : List Nat) : padded m = Standard.pad_message m := by
  unfold padded Standard.pad_message
  have hk : (119 - m.length % 2 ^ 64 % 64) % 64 = (64 - (m.length + 9) % 64) % 64 := by omega
  have hk63 : (64 - (m.length + 9) % 64) % 64 ≤ 63 := by omega
  have hpad : pad.take (1 + (119 - m.length % 2 ^ 64 % 64) % 64)
      = [0x80] ++ List.replicate ((64 - (m.length + 9) % 64) % 64) 0 := by
    rw [hk, Nat.add_comm 1]
    unfold pad
    rw [List.take_succ_cons, List.take_replicate, Nat.min_eq_left hk63]
    rfl
  have hlen : (m.length % 2 ^ 64) <<< 3 % 2 ^ 64 = 8 * m.length % 2 ^ 64 := by
    rw [Nat.shiftLeft_eq]
    omega
  rw [hpad, hlen, bytes_le_8]
  simp only [List.append_assoc]

theorem pad_message_bytes (m : List Nat) (hm : ∀ b ∈ m, b < 256) :
    ∀ b ∈ Standard.pad_message m, b < 256 := by
  intro b hb
  unfold Standard.pad_message at hb
  simp only [List.mem_append, List.mem_singleton, List.mem_replicate] at hb
  rcases hb with ((hb | hb) | hb) | hb
  · exact hm b hb
  · omega
  · omega
  · exact bytes_le_lt _ _ b hb

/-- Absorbing `k` blocks that start at byte `off` of a byte string is the
iteration of the standard's compression function over those blocks. -/
theorem absorb_eq_foldl (p : List Nat) (hp : ∀ i, p.getD i 0 < 256) (k off : Nat)
    (s : State5) :
    absorb k s (p.drop off)
      = (List.range k).foldl
          (fun h i => Standard.compress h (Standard.block_words p (off + 64 * i))) s := by
  induction k generalizing s off with
  | zero => rfl
  | succ k ih =>
    rw [absorb, List.drop_drop, ih, List.range_succ_eq_map,
      List.foldl_cons, List.foldl_map, Transform_eq_compress, ← block_words_eq p off hp]
    simp only [Nat.mul_zero, Nat.add_zero, Nat.mul_succ, Nat.add_assoc, Nat.add_comm 64]

/-- The sequence `ripemd160_init; ripemd160_update m; ripemd160_final` computes the
RIPEMD-160 of the standard for every byte string `m`, whatever the context
held before. -/
theorem ripemd160_eq_standard (ctx : ripemd160_ctx) (m : List Nat) (hm : ∀ b ∈ m, b < 256) :
    ripemd160 ctx m = Standard.RIPEMD160_standard m := by
  have habs : absorbed (ripemd160_update (ripemd160_init ctx) m) m :=
    absorbed_update (ripemd160_init ctx) [] m (absorbed_init ctx)
  unfold ripemd160
  rw [absorbed_final _ _ habs, padded_eq_pad_message]
  have hp := getD_lt_of_bytes _ (pad_message_bytes m hm)
  have hfold := absorb_eq_foldl (Standard.pad_message m) hp
    ((Standard.pad_message m).length / 64) 0 Initialize
  rw [List.drop_zero] at hfold
  rw [hfold]
  unfold Standard.RIPEMD160_standard state_bytes
  simp only [bytes_le_4, Nat.zero_add]
  rfl

theorem ripemd160_init_eq (ctx : ripemd160_ctx) :
    ripemd160_init ctx = { s := Initialize, buf := List.replicate 64 0, bytes := 0 } := rfl

/-- C5: `ripemd160_init`, `ripemd160_update` with the byte string `m`, then
`ripemd160_final` computes, on any context, the RIPEMD-160 digest of `m` as
the standard defines it: 20 bytes, the five state words written
little-endian.  It reproduces the published vectors for the empty string and
for "abc". -/
theorem ripemd160_standard_digest (ctx : ripemd160_ctx) (m : List Nat)
    (hm : ∀ b ∈ m, b < 256) :
    ripemd160 ctx m = Standard.RIPEMD160_standard m
      ∧ ripemd160 ctx m
        = state_bytes (ripemd160_final (ripemd160_update (ripemd160_init ctx) m)).1.s
      ∧ (ripemd160 ctx m).length = 20
      ∧ ripemd160 ctx []
        = [0x9c, 0x11, 0x85, 0xa5, 0xc5, 0xe9, 0xfc, 0x54, 0x61, 0x28,
           0x08, 0x97, 0x7e, 0xe8, 0xf5, 0x48, 0xb2, 0x25, 0x8d, 0x31]
      ∧ ripemd160 ctx [0x61, 0x62, 0x63]
        = [0x8e, 0xb2, 0x08, 0xf7, 0xe0, 0x5d, 0x98, 0x7a, 0x9b, 0x04,
           0x4a, 0x8e, 0x98, 0xc6, 0xb0, 0x87, 0xf1, 0x5a, 0x0b, 0xfc] := by
  refine ⟨ripemd160_eq_standard ctx m hm, rfl, rfl, ?_, ?_⟩
  · unfold ripemd160
    rw [ripemd160_init_eq]
    decide!
  · unfold ripemd160
    rw [ripemd160_init_eq]
    decide!

/-- C5 on the message "abc", on a context that held something else before:
the code and the standard agree on it. -/
theorem ripemd160_standard_digest_witness :
    (∀ b ∈ [0x61, 0x62, 0x63], b < 256)
      ∧ ripemd160 ⟨(1, 2, 3, 4, 5), [9, 9], 77⟩ [0x61, 0x62, 0x63]
        = Standard.RIPEMD160_standard [0x61, 0x62, 0x63] :=
  ⟨by decide,
   (ripemd160_standard_digest ⟨(1, 2, 3, 4, 5), [9, 9], 77⟩ [0x61, 0x62, 0x63] (by decide)).1⟩

end Ripemd160

namespace DbEngine

theorem wrap_long_id (x : Int) (h1 : -(2 ^ 63) ≤ x) (h2 : x ≤ LONG_MAX) : wrap_long x = x := by
  unfold wrap_long
  unfold LONG_MAX at h2
  omega

/-- The engine whose private state `p` carries the reference count `r`. -/
theorem add_ref_iterate (e : db_engine) (p : db_engine_private) (j : Nat)
    (hp : e.priv = some p) (h1 : 0 ≤ p.refs_count) (h2 : p.refs_count + j ≤ LONG_MAX) :
    ((fun x => (db_engine_add_ref x).1)^[j] e)
      = { e with priv := some { p with refs_count := p.refs_count + j } } := by
  induction j generalizing e p with
  | zero =>
    cases e
    cases p
    simp_all
  | succ j ih =>
    rw [Function.iterate_succ_apply]
    have hstep : (db_engine_add_ref e).1
        = { e with priv := some { p with refs_count := p.refs_count + 1 } } := by
      unfold db_engine_add_ref
      rw [hp]
      simp only
      rw [wrap_long_id _ (by omega) (by push_cast at h2; omega)]
    rw [hstep, ih _ { p with refs_count := p.refs_count + 1 } rfl (by simp only; omega)
      (by simp only; push_cast at h2 ⊢; omega)]
    simp only [db_engine.mk.injEq, Option.some.injEq, db_engine_private.mk.injEq, true_and,
      and_true]
    push_cast
    omega

theorem cleanup_iterate (e : db_engine) (p : db_engine_private) (j : Nat)
    (hp : e.priv = some p) (h1 : (j : Int) < p.refs_count) (h2 : p.refs_count ≤ LONG_MAX) :
    (db_engine_cleanup^[j] e)
      = { e with priv := some { p with refs_count := p.refs_count - j } } := by
  induction j generalizing e p with
  | zero =>
    cases e
    cases p
    simp_all
  | succ j ih =>
    rw [Function.iterate_succ_apply]
    have hstep : db_engine_cleanup e
        = { e with priv := some { p with refs_count := p.refs_count - 1 } } := by
      unfold db_engine_cleanup
      rw [hp]
      simp only
      rw [wrap_long_id _ (by omega) (by omega)]
      rw [if_neg (by push_cast at h1; omega), if_neg (by push_cast at h1; omega)]
    rw [hstep, ih _ { p with refs_count := p.refs_count - 1 } rfl
      (by simp only; push_cast at h1 ⊢; omega) (by simp only; omega)]
    simp only [db_engine.mk.injEq, Option.some.injEq, db_engine_private.mk.injEq, true_and,
      and_true]
    push_cast
    omega

theorem cleanup_last (e : db_engine) (p : db_engine_private)
    (hp : e.priv = some p) (h1 : p.refs_count = 1) :
    db_engine_cleanup e = { e with priv := none } := by
  unfold db_engine_cleanup
  rw [hp]
  simp only [h1]
  rfl

theorem cleanup_destroyed (e : db_engine) (hp : e.priv = none) (j : Nat) :
    db_engine_cleanup^[j] e = e := by
  induction j with
  | zero => rfl
  | succ j ih =>
    rw [Function.iterate_succ_apply', ih]
    unfold db_engine_cleanup
    rw [hp]

end DbEngine

namespace DbEngine

theorem init_priv (g : db_engine) (home_dir : Option String) (user_data : Nat) :
    ∃ p, (db_engine_init g home_dir user_data).priv = some p ∧ p.refs_count = 1 :=
  ⟨_, rfl, rfl⟩

/-- C7: engine reference counting.  After `db_engine_init` and `k` further
`db_engine_add_ref` calls (all of which return the engine), the private state
is still there after each of the first `k` calls of `db_engine_cleanup`, the
`(k+1)`-th call destroys it (`engine->priv` is `NULL`), every later
`db_engine_cleanup` changes nothing, and `db_engine_add_ref` on the destroyed
engine returns `NULL` and changes nothing. -/
theorem db_engine_refcount (g : db_engine) (home_dir : Option String) (user_data : Nat)
    (k : Nat) (hk : (k : Int) + 1 ≤ LONG_MAX) :
    (∀ j, j < k →
        (db_engine_add_ref
          ((fun x => (db_engine_add_ref x).1)^[j] (db_engine_init g home_dir user_data))).2
          = true)
      ∧ (∀ j, j ≤ k →
          (db_engine_cleanup^[j]
            ((fun x => (db_engine_add_ref x).1)^[k]
              (db_engine_init g home_dir user_data))).priv ≠ none)
      ∧ (db_engine_cleanup^[k + 1]
            ((fun x => (db_engine_add_ref x).1)^[k]
              (db_engine_init g home_dir user_data))).priv = none
      ∧ (∀ j, db_engine_cleanup^[k + 1 + j]
            ((fun x => (db_engine_add_ref x).1)^[k] (db_engine_init g home_dir user_data))
          = db_engine_cleanup^[k + 1]
            ((fun x => (db_engine_add_ref x).1)^[k] (db_engine_init g home_dir user_data)))
      ∧ db_engine_add_ref (db_engine_cleanup^[k + 1]
            ((fun x => (db_engine_add_ref x).1)^[k] (db_engine_init g home_dir user_data)))
          = (db_engine_cleanup^[k + 1]
              ((fun x => (db_engine_add_ref x).1)^[k] (db_engine_init g home_dir user_data)),
             false) := by
  obtain ⟨p, hp, hr⟩ := init_priv g home_dir user_data
  generalize db_engine_init g home_dir user_data = e0 at hp
  have hadd : ∀ j, j ≤ k → ((fun x => (db_engine_add_ref x).1)^[j] e0)
      = { e0 with priv := some { p with refs_count := p.refs_count + j } } := fun j hj =>
    add_ref_iterate e0 p j hp (by omega) (by omega)
  have hclean : ∀ j, j ≤ k →
      db_engine_cleanup^[j] ((fun x => (db_engine_add_ref x).1)^[k] e0)
        = { e0 with priv := some { p with refs_count := p.refs_count + k - j } } := by
    intro j hj
    rw [hadd k (le_refl k)]
    have := cleanup_iterate
      { e0 with priv := some { p with refs_count := p.refs_count + k } }
      { p with refs_count := p.refs_count + k } j rfl
      (by show (j : Int) < p.refs_count + k; omega)
      (by show p.refs_count + (k : Int) ≤ LONG_MAX; omega)
    exact this
  have hlast : db_engine_cleanup^[k + 1] ((fun x => (db_engine_add_ref x).1)^[k] e0)
      = { e0 with priv := none } := by
    rw [Function.iterate_succ_apply', hclean k (le_refl k)]
    exact cleanup_last _ _ rfl (by simp only; omega)
  refine ⟨?_, ?_, ?_, ?_, ?_⟩
  · intro j hj
    rw [hadd j (by omega)]
    rfl
  · intro j hj
    rw [hclean j hj]
    simp
  · rw [hlast]
  · intro j
    rw [Nat.add_comm (k + 1) j, Function.iterate_add_apply, hlast]
    exact cleanup_destroyed _ rfl j
  · rw [hlast]
    rfl

/-- C7 on the run of the stand-alone test: one `db_engine_add_ref`, then
three calls of `db_engine_cleanup`; the second destroys the engine. -/
theorem db_engine_refcount_witness :
    ((1 : Nat) : Int) + 1 ≤ LONG_MAX
      ∧ (db_engine_cleanup^[1] ((fun x => (db_engine_add_ref x).1)^[1]
            (db_engine_init ⟨none, 0⟩ (some "data") 0))).priv ≠ none
      ∧ (db_engine_cleanup^[1 + 1] ((fun x => (db_engine_add_ref x).1)^[1]
            (db_engine_init ⟨none, 0⟩ (some "data") 0))).priv = none
      ∧ db_engine_cleanup^[1 + 1 + 1] ((fun x => (db_engine_add_ref x).1)^[1]
            (db_engine_init ⟨none, 0⟩ (some "data") 0))
          = db_engine_cleanup^[1 + 1] ((fun x => (db_engine_add_ref x).1)^[1]
            (db_engine_init ⟨none, 0⟩ (some "data") 0)) :=
  have h := db_engine_refcount ⟨none, 0⟩ (some "data") 0 1 (by decide)
  ⟨by decide, h.2.1 1 (le_refl 1), h.2.2.1, h.2.2.2.1 1⟩

/-- C8: `db_open` maps `db_type` 0 to `DB_BTREE`, 1 to `DB_HASH` and every
other value to `DB_UNKNOWN`; that type is recorded in the private state and
is the one passed to the underlying open, whose return code is returned. -/
theorem db_open_type (dbp_open : dbp_open_args → Int) (DB_CREATE DB_AUTO_COMMIT : Nat)
    (priv : db_private) (txn : Option (Option Nat)) (name : String) (db_type flags : Int) :
    (db_open dbp_open DB_CREATE DB_AUTO_COMMIT priv txn name 0 flags).2.1.type = DBTYPE.DB_BTREE
      ∧ (db_open dbp_open DB_CREATE DB_AUTO_COMMIT priv txn name 1 flags).2.1.type
          = DBTYPE.DB_HASH
      ∧ (db_open dbp_open DB_CREATE DB_AUTO_COMMIT priv txn name db_type flags).2.1.type
          = (if db_type = 0 then DBTYPE.DB_BTREE
             else if db_type = 1 then DBTYPE.DB_HASH else DBTYPE.DB_UNKNOWN)
      ∧ (db_open dbp_open DB_CREATE DB_AUTO_COMMIT priv txn name db_type flags).1.db_type
          = some (db_open dbp_open DB_CREATE DB_AUTO_COMMIT priv txn name db_type flags).2.1.type
      ∧ (db_open dbp_open DB_CREATE DB_AUTO_COMMIT priv txn name db_type flags).2.2
          = dbp_open (db_open dbp_open DB_CREATE DB_AUTO_COMMIT priv txn name db_type flags).2.1 :=
  ⟨rfl, rfl, rfl, rfl, rfl⟩

/-- C9 (the code at the failing input): after an insert that succeeded,
`db_find` and `db_find_secondary` still return 0 records, because they return
0 whatever the handle, the key and the contents of the database are. -/
theorem db_find_returns_zero :
    db_insert (fun _ => 0) 2 4 1 2 2 none ⟨1000, 32, 0⟩ ⟨2000, 112, 0⟩ = 0
      ∧ (db_find ⟨some DBTYPE.DB_BTREE, "blocks.db"⟩ none ⟨1000, 32, 0⟩ none).1 = 0
      ∧ (db_find_secondary ⟨some DBTYPE.DB_BTREE, "blocks_height.db"⟩ none ⟨2084, 4, 0⟩
            none none).1 = 0
      ∧ (∀ db txn key p_values, (db_find db txn key p_values).1 = 0)
      ∧ (∀ db txn skey p_keys p_values,
            (db_find_secondary db txn skey p_keys p_values).1 = 0) :=
  ⟨rfl, rfl, rfl, fun _ _ _ _ => rfl, fun _ _ _ _ _ => rfl⟩

end DbEngine

namespace DbEngine

theorem to_u32_id (x : Int) (h0 : 0 ≤ x) (h1 : x < 2 ^ 32) : (to_u32 x : Int) = x := by
  unfold to_u32
  rw [Int.toNat_of_nonneg (Int.emod_nonneg _ (by norm_num))]
  exact Int.emod_eq_of_lt h0 h1

theorem fill_multiple_keys_spec (n : Nat) (ks : List db_record_data) (h : n ≤ ks.length) :
    fill_multiple_keys n ks
      = some ((ks.take n).map
          (fun k => ({ data := k.data, size := to_u32 k.size, flags := 0 } : DBT))) := by
  induction n generalizing ks with
  | zero => cases ks <;> rfl
  | succ n ih =>
    cases ks with
    | nil => simp at h
    | cons k ks =>
      simp only [List.length_cons, Nat.add_le_add_iff_right] at h
      simp only [fill_multiple_keys, ih ks h, List.take_succ_cons, List.map_cons]

/-- C10 as stated fails: a callback key whose size is `2 ^ 32` comes back with
`result.size = 0`, because the size is stored in the 32-bit `size` field of
the `DBT`. -/
theorem secondary_db_get_key_size_truncated :
    secondary_db_get_key 32 1
        (fun _ _ => some { num_keys := 1, skeys := some [{ data := 100, size := 2 ^ 32, flags := 0 }] })
        0 ⟨1000, 32, 0⟩ ⟨2000, 112, 0⟩ ⟨0, 0, 0⟩
      = some (0, ⟨100, 0, 0⟩, [])
    ∧ ((0 : Nat) : Int) ≠ 2 ^ 32 := by
  constructor
  · rfl
  · decide

/-- C10, amended: `secondary_db_get_key` returns -1 and leaves `result` alone
when the callback reports fewer than one key or leaves the array `NULL`.
Otherwise it returns 0; for one key `result` gets that key's `data` and its
size converted to `u_int32_t`, with `flags` untouched; for `n > 1` keys
`result.size` is `n` converted to `u_int32_t`, `result.flags` is
`DB_DBT_MULTIPLE | DB_DBT_APPMALLOC`, and the `i`-th element of the array
carries the `data` of the `i`-th callback key and its size converted to
`u_int32_t`, in the same order.  The conversion leaves every value in
`[0, 2 ^ 32)` unchanged. -/
theorem secondary_db_get_key_spec (DB_DBT_MULTIPLE DB_DBT_APPMALLOC : Nat)
    (associate_func : db_record_data → db_record_data → Option associate_result)
    (multiple_keys : Nat) (key value result : DBT) (r : associate_result)
    (hcall : associate_func { data := key.data, size := key.size, flags := 0 }
        { data := value.data, size := value.size, flags := 0 } = some r) :
    ((r.num_keys < 1 ∨ r.skeys = none) →
        secondary_db_get_key DB_DBT_MULTIPLE DB_DBT_APPMALLOC associate_func multiple_keys
          key value result = some (-1, result, []))
      ∧ (∀ k ks, r.num_keys = 1 → r.skeys = some (k :: ks) →
          secondary_db_get_key DB_DBT_MULTIPLE DB_DBT_APPMALLOC associate_func multiple_keys
            key value result
            = some (0, { data := k.data, size := to_u32 k.size, flags := result.flags }, []))
      ∧ (∀ ks, 1 < r.num_keys → r.skeys = some ks → r.num_keys ≤ ks.length →
          ∃ arr : List DBT,
            secondary_db_get_key DB_DBT_MULTIPLE DB_DBT_APPMALLOC associate_func multiple_keys
                key value result
              = some (0, { data := multiple_keys, size := to_u32 r.num_keys,
                           flags := DB_DBT_MULTIPLE ||| DB_DBT_APPMALLOC }, arr)
            ∧ arr.length = r.num_keys.toNat
            ∧ ∀ i, i < r.num_keys.toNat →
                (arr.get? i).map (fun e => (e.data, e.size))
                  = (ks.get? i).map (fun k => (k.data, to_u32 k.size)))
      ∧ (∀ x : Int, 0 ≤ x → x < 2 ^ 32 → (to_u32 x : Int) = x) := by
  refine ⟨?_, ?_, ?_, to_u32_id⟩
  · intro h
    unfold secondary_db_get_key
    rw [hcall]
    rcases h with h | h
    · cases hs : r.skeys with
      | none => simp only [hs]
      | some ks => simp only [hs, h, if_true]
    · simp only [h]
  · intro k ks hn hs
    unfold secondary_db_get_key
    rw [hcall]
    simp only [hs, hn]
    rfl
  · intro ks hn hs hlen
    have hlen2 : r.num_keys.toNat ≤ ks.length := by omega
    refine ⟨(ks.take r.num_keys.toNat).map
      (fun k => ({ data := k.data, size := to_u32 k.size, flags := 0 } : DBT)), ?_, ?_, ?_⟩
    · unfold secondary_db_get_key
      rw [hcall]
      simp only [hs, fill_multiple_keys_spec _ ks hlen2]
      rw [if_neg (by omega), if_neg (by omega)]
    · simp only [List.length_map, List.length_take]
      omega
    · intro i hi
      simp only [List.get?_eq_getElem?, List.getElem?_map, List.getElem?_take, hi, if_true,
        Option.map_map]
      rfl

/-- C10 on the stand-alone test's callback: `associate_blocks_height` yields
one key, the 4-byte `height` field at offset 84 of the 112-byte block record,
and `secondary_db_get_key` hands it back. -/
theorem secondary_db_get_key_spec_witness :
    associate_blocks_height 80 { data := 1000, size := ((32 : Nat) : Int), flags := 0 }
        { data := 2000, size := ((112 : Nat) : Int), flags := 0 }
      = some { num_keys := 1, skeys := some [{ data := 2084, size := 4, flags := 0 }] }
    ∧ secondary_db_get_key 32 1 (associate_blocks_height 80) 0
        ⟨1000, 32, 0⟩ ⟨2000, 112, 0⟩ ⟨0, 0, 0⟩
      = some (0, ⟨2084, 4, 0⟩, []) :=
  ⟨by decide,
   (secondary_db_get_key_spec 32 1 (associate_blocks_height 80) 0
      ⟨1000, 32, 0⟩ ⟨2000, 112, 0⟩ ⟨0, 0, 0⟩
      { num_keys := 1, skeys := some [{ data := 2084, size := 4, flags := 0 }] }
      (by decide)).2.1 _ _ rfl rfl⟩

end DbEngine

namespace SatoshiTx

theorem append_blank_txins_data (s : hash_session) (z : Bool) (l : List satoshi_txin) :
    (append_blank_txins s z l).data = s.data ++ (l.map (blank_txin z)).flatten := by
  unfold append_blank_txins
  induction l generalizing s with
  | nil => simp
  | cons t l ih =>
    rw [List.foldl_cons, ih]
    simp [hash_session.append, List.append_assoc]

theorem attach_inv (sha256 : List Nat → List Nat) (tx : satoshi_tx) (rawtx : satoshi_rawtx)
    (h : satoshi_rawtx_attach (some tx) = some rawtx) : rawtx_inv sha256 rawtx tx := by
  unfold satoshi_rawtx_attach at h
  simp only [Option.some.injEq] at h
  subst h
  refine ⟨rfl, ?_, ?_⟩
  · intro h
    simp at h
  · intro h hh
    simp at hh

theorem take_succ_of_getElem? (l : List satoshi_txin) (i : Nat) (cur : satoshi_txin)
    (h : l[i]? = some cur) : l.take (i + 1) = l.take i ++ [cur] := by
  rw [List.take_succ, h]
  rfl

theorem prehash_data (rawtx : satoshi_rawtx) (tx : satoshi_tx) (cur_index : Int) (z : Bool)
    (hsha : 0 ≤ rawtx.last_hashed_txin_index →
        rawtx.sha.data
          = le_bytes 4 tx.version ++ varint tx.txins.length
            ++ ((tx.txins.take (rawtx.last_hashed_txin_index + 1).toNat).map
                  (blank_txin rawtx.prehash_zero_sequence)).flatten) :
    (legacy_prehash rawtx tx cur_index z).data
      = le_bytes 4 tx.version ++ varint tx.txins.length
          ++ ((tx.txins.take cur_index.toNat).map (blank_txin z)).flatten := by
  unfold legacy_prehash
  simp only
  rw [append_blank_txins_data]
  by_cases hr : 0 ≤ rawtx.last_hashed_txin_index
      ∧ rawtx.last_hashed_txin_index < cur_index ∧ rawtx.prehash_zero_sequence = z
  · obtain ⟨h0, hlt, hz⟩ := hr
    have hd : decide (0 ≤ rawtx.last_hashed_txin_index
        ∧ rawtx.last_hashed_txin_index < cur_index ∧ rawtx.prehash_zero_sequence = z) = true :=
      decide_eq_true ⟨h0, hlt, hz⟩
    rw [if_pos hd, if_pos hd]
    have hle : (rawtx.last_hashed_txin_index + 1).toNat ≤ cur_index.toNat := by omega
    have htake : tx.txins.take (rawtx.last_hashed_txin_index + 1).toNat
        = (tx.txins.take cur_index.toNat).take (rawtx.last_hashed_txin_index + 1).toNat := by
      rw [List.take_take, Nat.min_eq_left hle]
    show rawtx.sha.data ++ _ = _
    rw [hsha h0, hz, htake, List.append_assoc, ← List.flatten_append, ← List.map_append,
      List.take_append_drop]
  · have hd : ¬ (decide (0 ≤ rawtx.last_hashed_txin_index
        ∧ rawtx.last_hashed_txin_index < cur_index ∧ rawtx.prehash_zero_sequence = z) = true) := by
      simpa using hr
    rw [if_neg hd, if_neg hd, List.drop_zero]
    simp [hash_session.append, hash_session.start]

theorem legacy_get_digest_spec (sha256 : List Nat → List Nat)
    (redeem_scripts : Bool → Option satoshi_txout → List Nat)
    (rawtx : satoshi_rawtx) (tx : satoshi_tx) (cur_index : Int) (hash_type : Nat)
    (utxo : Option satoshi_txout) (hinv : rawtx_inv sha256 rawtx tx) :
    (legacy_tx_get_digest sha256 redeem_scripts rawtx cur_index hash_type utxo).map Prod.fst
        = digest_from_scratch sha256 redeem_scripts tx cur_index hash_type utxo false
      ∧ (∀ d rawtx2, legacy_tx_get_digest sha256 redeem_scripts rawtx cur_index hash_type utxo
              = .ok (d, rawtx2) → rawtx_inv sha256 rawtx2 tx) := by
  obtain ⟨htx, hsha, hout⟩ := hinv
  unfold digest_from_scratch legacy_tx_get_digest
  rw [htx]
  simp only
  cases hcur : tx.txins[cur_index.toNat]? with
  | none =>
    simp only
    exact ⟨rfl, fun d r hd => by cases hd⟩
  | some cur =>
    simp only
    by_cases hneg : cur_index < 0
    · simp only [hneg, if_true]
      exact ⟨rfl, fun d r hd => by cases hd⟩
    · simp only [hneg, if_false, Bool.false_eq_true]
      by_cases hsingle : sighash_base hash_type = satoshi_tx_sighash_single
          ∧ tx.txouts.length ≤ cur_index.toNat
      · rw [if_pos hsingle, if_pos hsingle]
        refine ⟨rfl, fun d r hd => ?_⟩
        simp only [Except.ok.injEq, Prod.mk.injEq] at hd
        rw [← hd.2]
        exact ⟨htx, hsha, hout⟩
      · rw [if_neg hsingle, if_neg hsingle]
        by_cases hacp : sighash_flag hash_type ≠ 0
        · rw [if_pos hacp]
          refine ⟨?_, fun d r hd => ?_⟩
          · simp only [Except.map, hash_session.finalize_double, hash_session.append,
              hash_session.start, legacy_preimage, if_pos hacp, List.nil_append,
              List.append_assoc]
          · simp only [Except.ok.injEq, Prod.mk.injEq] at hd
            rw [← hd.2]
            refine ⟨rfl, fun h => ?_, hout⟩
            simp at h
        · rw [if_neg hacp]
          have hpre := prehash_data rawtx tx cur_index
            (decide (sighash_base hash_type = satoshi_tx_sighash_none
              ∨ sighash_base hash_type = satoshi_tx_sighash_single)) hsha
          refine ⟨?_, fun d r hd => ?_⟩
          · simp only [Except.map, hash_session.finalize_double, hash_session.append,
              hash_session.snapshot, append_blank_txins_data, hpre, legacy_preimage,
              if_neg hacp, List.append_assoc]
          · simp only [Except.ok.injEq, Prod.mk.injEq] at hd
            rw [← hd.2]
            refine ⟨rfl, fun _ => ?_, hout⟩
            have hi : (cur_index + 1).toNat = cur_index.toNat + 1 := by omega
            simp only [hash_session.append, hpre, hi, take_succ_of_getElem? _ _ _ hcur,
              List.map_append, List.flatten_append, List.map_cons, List.map_nil,
              List.flatten_cons, List.flatten_nil, List.append_nil, List.append_assoc]

theorem segwit_get_digest_spec (sha256 : List Nat → List Nat)
    (redeem_scripts : Bool → Option satoshi_txout → List Nat)
    (rawtx : satoshi_rawtx) (tx : satoshi_tx) (cur_index : Int) (hash_type : Nat)
    (utxo : Option satoshi_txout) (hinv : rawtx_inv sha256 rawtx tx) :
    (segwit_v0_get_digest sha256 redeem_scripts rawtx cur_index hash_type utxo).map Prod.fst
        = digest_from_scratch sha256 redeem_scripts tx cur_index hash_type utxo true
      ∧ (∀ d rawtx2, segwit_v0_get_digest sha256 redeem_scripts rawtx cur_index hash_type utxo
              = .ok (d, rawtx2) → rawtx_inv sha256 rawtx2 tx) := by
  obtain ⟨htx, hsha, hout⟩ := hinv
  unfold digest_from_scratch segwit_v0_get_digest
  rw [htx]
  simp only
  cases hcur : tx.txins[cur_index.toNat]? with
  | none =>
    simp only
    exact ⟨rfl, fun d r hd => by cases hd⟩
  | some cur =>
    simp only
    by_cases hneg : cur_index < 0
    · simp only [hneg, if_true]
      exact ⟨rfl, fun d r hd => by cases hd⟩
    · simp only [hneg, if_false, if_true]
      cases utxo with
      | none => exact ⟨rfl, fun d r hd => by cases hd⟩
      | some spent =>
        simp only
        by_cases hnone : sighash_base hash_type = satoshi_tx_sighash_none
        · rw [if_pos hnone, if_pos hnone]
          refine ⟨rfl, fun d r hd => ?_⟩
          simp only [Except.ok.injEq, Prod.mk.injEq] at hd
          rw [← hd.2]
          exact ⟨htx, hsha, hout⟩
        · rw [if_neg hnone, if_neg hnone]
          by_cases hsingle : sighash_base hash_type = satoshi_tx_sighash_single
          · rw [if_pos hsingle, if_pos hsingle]
            refine ⟨rfl, fun d r hd => ?_⟩
            simp only [Except.ok.injEq, Prod.mk.injEq] at hd
            rw [← hd.2]
            exact ⟨htx, hsha, hout⟩
          · rw [if_neg hsingle, if_neg hsingle]
            cases hc : rawtx.txouts_hash with
            | none =>
              refine ⟨rfl, fun d r hd => ?_⟩
              simp only [Except.ok.injEq, Prod.mk.injEq] at hd
              rw [← hd.2]
              refine ⟨rfl, hsha, fun h hh => ?_⟩
              simp only [Option.some.injEq] at hh
              exact hh.symm
            | some c =>
              have hcv := hout c hc
              refine ⟨by simp only [Except.map, hcv], fun d r hd => ?_⟩
              simp only [Except.ok.injEq, Prod.mk.injEq] at hd
              rw [← hd.2]
              refine ⟨rfl, hsha, fun h hh => ?_⟩
              simp only [Option.some.injEq] at hh
              rw [← hh]
              exact hcv

/-- On a session that satisfies the invariant, `get_digest` returns what the
algorithm computes from scratch, and the session afterwards satisfies the
invariant again. -/
theorem get_digest_spec (sha256 : List Nat → List Nat)
    (redeem_scripts : Bool → Option satoshi_txout → List Nat)
    (rawtx : satoshi_rawtx) (tx : satoshi_tx) (cur_index : Int) (hash_type : Nat)
    (utxo : Option satoshi_txout) (is_segwit : Bool) (hinv : rawtx_inv sha256 rawtx tx) :
    (get_digest sha256 redeem_scripts rawtx cur_index hash_type utxo is_segwit).map Prod.fst
        = digest_from_scratch sha256 redeem_scripts tx cur_index hash_type utxo is_segwit
      ∧ (∀ d rawtx2, get_digest sha256 redeem_scripts rawtx cur_index hash_type utxo is_segwit
              = .ok (d, rawtx2) → rawtx_inv sha256 rawtx2 tx) := by
  unfold get_digest
  cases is_segwit with
  | true =>
    simp only [if_true]
    exact segwit_get_digest_spec sha256 redeem_scripts rawtx tx cur_index hash_type utxo hinv
  | false =>
    simp only [Bool.false_eq_true, if_false]
    exact legacy_get_digest_spec sha256 redeem_scripts rawtx tx cur_index hash_type utxo hinv

theorem digests_in_order_spec (sha256 : List Nat → List Nat)
    (redeem_scripts : Bool → Option satoshi_txout → List Nat)
    (tx : satoshi_tx) (hash_type : Nat) (utxos : Nat → Option satoshi_txout) (is_segwit : Bool)
    (order : List Nat) (rawtx : satoshi_rawtx) (hinv : rawtx_inv sha256 rawtx tx) :
    digests_in_order sha256 redeem_scripts hash_type utxos is_segwit order rawtx
      = order.map (fun i =>
          (i, digest_from_scratch sha256 redeem_scripts tx (i : Nat) hash_type (utxos i)
            is_segwit)) := by
  induction order generalizing rawtx with
  | nil => rfl
  | cons i order ih =>
    obtain ⟨hd, hnext⟩ :=
      get_digest_spec sha256 redeem_scripts rawtx tx i hash_type (utxos i) is_segwit hinv
    unfold digests_in_order
    cases hg : get_digest sha256 redeem_scripts rawtx (↑i) hash_type (utxos i) is_segwit with
    | error e =>
      rw [hg] at hd
      simp only [List.map_cons]
      rw [ih rawtx hinv, ← hd]
      rfl
    | ok r =>
      obtain ⟨d, rawtx2⟩ := r
      rw [hg] at hd
      simp only [List.map_cons]
      rw [ih rawtx2 (hnext d rawtx2 hg), ← hd]
      rfl

theorem lookup_map_self {β : Type} (f : Nat → β) (l : List Nat) (i : Nat) (h : i ∈ l) :
    (l.map (fun j => (j, f j))).lookup i = some (f i) := by
  induction l with
  | nil => cases h
  | cons j l ih =>
    simp only [List.map_cons, List.lookup_cons]
    by_cases hij : i = j
    · subst hij
      simp
    · have hne : (i == j) = false := by simpa using hij
      rw [hne]
      simp only [List.mem_cons] at h
      rcases h with h | h
      · exact absurd h hij
      · exact ih h

end SatoshiTx

namespace SatoshiTx

/-- C4: the sighash constants are ALL = 1, NONE = 2, SINGLE = 3 and
ANYONE_CAN_PAY = 0x80, and the flag is independent of the base type: for
every base `b` and flag `f` the byte `b | f` has flag `f` and base `b`, the
six combinations are pairwise distinct, and each decomposes in one way only. -/
theorem sighash_type_decomposition :
    satoshi_tx_sighash_all = 1 ∧ satoshi_tx_sighash_none = 2 ∧ satoshi_tx_sighash_single = 3
      ∧ satoshi_tx_sighash_anyone_can_pay = 0x80
      ∧ (∀ b ∈ [satoshi_tx_sighash_all, satoshi_tx_sighash_none, satoshi_tx_sighash_single],
          ∀ f ∈ [0, satoshi_tx_sighash_anyone_can_pay],
            (b ||| f) < 256 ∧ (b ||| f) &&& 0x80 = f ∧ sighash_flag (b ||| f) = f
              ∧ sighash_base (b ||| f) = b)
      ∧ ([satoshi_tx_sighash_all, satoshi_tx_sighash_none, satoshi_tx_sighash_single].flatMap
            (fun b => [b ||| 0, b ||| satoshi_tx_sighash_anyone_can_pay])).Nodup
      ∧ (∀ b ∈ [satoshi_tx_sighash_all, satoshi_tx_sighash_none, satoshi_tx_sighash_single],
          ∀ f ∈ [0, satoshi_tx_sighash_anyone_can_pay],
          ∀ b2 ∈ [satoshi_tx_sighash_all, satoshi_tx_sighash_none, satoshi_tx_sighash_single],
          ∀ f2 ∈ [0, satoshi_tx_sighash_anyone_can_pay],
            b ||| f = b2 ||| f2 → b = b2 ∧ f = f2) := by
  decide

/-- C1: legacy `get_digest` with base type SINGLE, for a valid input index
that is at or past the number of outputs, returns the fixed 32-byte value
`00…01` whether or not ANYONE_CAN_PAY is set, whatever the hash function
is, and leaves the session as it was: no transaction byte is hashed. -/
theorem legacy_single_out_of_range (sha256 : List Nat → List Nat)
    (redeem_scripts : Bool → Option satoshi_txout → List Nat)
    (rawtx : satoshi_rawtx) (tx : satoshi_tx) (cur_index : Int) (hash_type : Nat)
    (utxo : Option satoshi_txout)
    (hattached : rawtx.tx = some tx)
    (h0 : 0 ≤ cur_index) (hin : cur_index < tx.txins.length)
    (hout : (tx.txouts.length : Int) ≤ cur_index)
    (hbase : hash_type = satoshi_tx_sighash_single
      ∨ hash_type = satoshi_tx_sighash_single ||| satoshi_tx_sighash_anyone_can_pay) :
    get_digest sha256 redeem_scripts rawtx cur_index hash_type utxo false
        = .ok (uint256_one, rawtx)
      ∧ uint256_one
        = [0, 0, 0, 0, 0, 0, 0, 0, 0, 0, 0, 0, 0, 0, 0, 0,
           0, 0, 0, 0, 0, 0, 0, 0, 0, 0, 0, 0, 0, 0, 0, 1]
      ∧ uint256_one.length = 32
      ∧ uint256_one.foldl (fun acc b => 256 * acc + b) 0 = 1 := by
  refine ⟨?_, rfl, rfl, rfl⟩
  have hb : sighash_base hash_type = satoshi_tx_sighash_single := by
    rcases hbase with h | h <;> subst h <;> decide
  have hlt : cur_index.toNat < tx.txins.length := by omega
  have hcur : tx.txins[cur_index.toNat]? = some (tx.txins[cur_index.toNat]) :=
    List.getElem?_eq_getElem hlt
  unfold get_digest legacy_tx_get_digest
  simp only [Bool.false_eq_true, if_false, hattached, hcur]
  rw [if_neg (by omega), if_pos ⟨hb, by omega⟩]

end SatoshiTx

namespace SatoshiTx

/-- C1 on a sample: input 1 of a transaction with three inputs and one output,
type SINGLE | ANYONE_CAN_PAY. -/
theorem legacy_single_out_of_range_witness :
    get_digest Sha256.sha256 plain_spend_scripts
        { tx := some sample_tx_3_1, sha := hash_session.start, last_hashed_txin_index := -1,
          prehash_zero_sequence := false, txouts_hash := none }
        1 0x83 (some (sample_txout 9000 0x51)) false
      = .ok (uint256_one,
          { tx := some sample_tx_3_1, sha := hash_session.start, last_hashed_txin_index := -1,
            prehash_zero_sequence := false, txouts_hash := none }) :=
  (legacy_single_out_of_range Sha256.sha256 plain_spend_scripts
    { tx := some sample_tx_3_1, sha := hash_session.start, last_hashed_txin_index := -1,
      prehash_zero_sequence := false, txouts_hash := none }
    sample_tx_3_1 1 0x83 (some (sample_txout 9000 0x51)) rfl (by decide) (by decide) (by decide)
    (Or.inr (by decide))).1

/-- C2: caching does not change results.  On one session of an attached
transaction, `get_digest` called for the indices in any permuted order
returns for each index the digest it returns when the indices are taken in
increasing order, namely the digest the algorithm computes from scratch;
for the legacy algorithm, and for segwit with the spent output supplied, that
is a 32-byte digest and not an error. -/
theorem get_digest_order_independent (sha256 : List Nat → List Nat)
    (redeem_scripts : Bool → Option satoshi_txout → List Nat)
    (tx : satoshi_tx) (rawtx : satoshi_rawtx) (hash_type : Nat)
    (utxos : Nat → Option satoshi_txout) (is_segwit : Bool) (order : List Nat)
    (hattach : satoshi_rawtx_attach (some tx) = some rawtx)
    (hperm : order.Perm (List.range tx.txins.length)) :
    ∀ i, i < tx.txins.length →
      (digests_in_order sha256 redeem_scripts hash_type utxos is_segwit order rawtx).lookup i
        = (digests_in_order sha256 redeem_scripts hash_type utxos is_segwit
            (List.range tx.txins.length) rawtx).lookup i
      ∧ (digests_in_order sha256 redeem_scripts hash_type utxos is_segwit order rawtx).lookup i
        = some (digest_from_scratch sha256 redeem_scripts tx i hash_type (utxos i) is_segwit)
      ∧ ((is_segwit = false ∨ (utxos i).isSome) →
          ∃ d, digest_from_scratch sha256 redeem_scripts tx i hash_type (utxos i) is_segwit
            = .ok d) := by
  intro i hi
  have hinv := attach_inv sha256 tx rawtx hattach
  have hmem_range : i ∈ List.range tx.txins.length := List.mem_range.mpr hi
  have hmem : i ∈ order := hperm.mem_iff.mpr hmem_range
  rw [digests_in_order_spec sha256 redeem_scripts tx hash_type utxos is_segwit order rawtx hinv,
    digests_in_order_spec sha256 redeem_scripts tx hash_type utxos is_segwit _ rawtx hinv,
    lookup_map_self _ _ _ hmem, lookup_map_self _ _ _ hmem_range]
  refine ⟨rfl, rfl, ?_⟩
  intro hseg
  have hcur : tx.txins[((i : Nat) : Int).toNat]? = some (tx.txins[i]) := by
    simp only [Int.toNat_ofNat]
    exact List.getElem?_eq_getElem hi
  unfold digest_from_scratch
  simp only [hcur]
  rw [if_neg (by omega)]
  cases is_segwit with
  | true =>
    simp only [if_true]
    cases hu : utxos i with
    | none => simp [hu] at hseg
    | some spent => exact ⟨_, rfl⟩
  | false =>
    simp only [Bool.false_eq_true, if_false]
    split
    · exact ⟨_, rfl⟩
    · exact ⟨_, rfl⟩

/-- C2 on a sample: the three inputs of a transaction taken in the order
2, 0, 1, with type ALL. -/
theorem get_digest_order_independent_witness :
    satoshi_rawtx_attach (some sample_tx_3_1)
        = some { tx := some sample_tx_3_1, sha := hash_session.start,
                 last_hashed_txin_index := -1, prehash_zero_sequence := false,
                 txouts_hash := none }
      ∧ [2, 0, 1].Perm (List.range sample_tx_3_1.txins.length)
      ∧ (digests_in_order Sha256.sha256 plain_spend_scripts 1
            (fun _ => some (sample_txout 9000 0x51)) false [2, 0, 1]
            { tx := some sample_tx_3_1, sha := hash_session.start,
              last_hashed_txin_index := -1, prehash_zero_sequence := false,
              txouts_hash := none }).lookup 0
        = (digests_in_order Sha256.sha256 plain_spend_scripts 1
            (fun _ => some (sample_txout 9000 0x51)) false
            (List.range sample_tx_3_1.txins.length)
            { tx := some sample_tx_3_1, sha := hash_session.start,
              last_hashed_txin_index := -1, prehash_zero_sequence := false,
              txouts_hash := none }).lookup 0 :=
  ⟨rfl, by decide,
   (get_digest_order_independent Sha256.sha256 plain_spend_scripts sample_tx_3_1 _ 1
      (fun _ => some (sample_txout 9000 0x51)) false [2, 0, 1] rfl (by decide) 0
      (by decide)).1⟩

end SatoshiTx

namespace SatoshiTx

/-- C3 as stated fails for base type SINGLE: `sample_tx_1_2` and
`sample_tx_2_2` agree on version, lock time, outputs and on the current
input, and differ only in an input placed before it; with
SINGLE | ANYONE_CAN_PAY the current input is signed with output 0 in the
first and with output 1 in the second, and the two digests differ. -/
theorem anyone_can_pay_single_depends_on_position :
    sighash_flag 0x83 ≠ 0
      ∧ sample_tx_1_2.version = sample_tx_2_2.version
      ∧ sample_tx_1_2.lock_time = sample_tx_2_2.lock_time
      ∧ sample_tx_1_2.txouts = sample_tx_2_2.txouts
      ∧ sample_tx_1_2.txins[0]? = some (sample_txin 0xaa 0)
      ∧ sample_tx_2_2.txins[1]? = some (sample_txin 0xaa 0)
      ∧ attached_digest Sha256.sha256 plain_spend_scripts sample_tx_1_2 0 0x83
            (some (sample_txout 9000 0x51)) false
          ≠ attached_digest Sha256.sha256 plain_spend_scripts sample_tx_2_2 1 0x83
            (some (sample_txout 9000 0x51)) false := by
  refine ⟨by decide, rfl, rfl, rfl, rfl, rfl, ?_⟩
  decide!

/-- C3, amended: with ANYONE_CAN_PAY set, the legacy digest of the current
input depends on no other input, provided the base type is not SINGLE or the
current input has the same index in both transactions.  Two transactions
that agree on version, lock time, outputs and on the current input
(outpoint, sequence, substituted script code), whatever their other inputs
and whatever the state of the two sessions, give the same result. -/
theorem anyone_can_pay_ignores_other_inputs (sha256 : List Nat → List Nat)
    (redeem_scripts : Bool → Option satoshi_txout → List Nat)
    (rawtx1 rawtx2 : satoshi_rawtx) (tx1 tx2 : satoshi_tx) (i1 i2 : Nat)
    (cur1 cur2 : satoshi_txin) (hash_type : Nat) (utxo1 utxo2 : Option satoshi_txout)
    (hacp : sighash_flag hash_type ≠ 0)
    (hattached1 : rawtx1.tx = some tx1) (hattached2 : rawtx2.tx = some tx2)
    (hversion : tx1.version = tx2.version) (hlock : tx1.lock_time = tx2.lock_time)
    (houts : tx1.txouts = tx2.txouts)
    (hcur1 : tx1.txins[i1]? = some cur1) (hcur2 : tx2.txins[i2]? = some cur2)
    (houtpoint : cur1.outpoint = cur2.outpoint) (hsequence : cur1.sequence = cur2.sequence)
    (hscript : redeem_scripts false utxo1 = redeem_scripts false utxo2)
    (hindex : sighash_base hash_type = satoshi_tx_sighash_single → i1 = i2) :
    (get_digest sha256 redeem_scripts rawtx1 i1 hash_type utxo1 false).map Prod.fst
      = (get_digest sha256 redeem_scripts rawtx2 i2 hash_type utxo2 false).map Prod.fst := by
  have hser : serialize_txin cur1 (redeem_scripts false utxo1) cur1.sequence
      = serialize_txin cur2 (redeem_scripts false utxo2) cur2.sequence := by
    unfold serialize_txin
    rw [houtpoint, hsequence, hscript]
  unfold get_digest legacy_tx_get_digest
  simp only [Bool.false_eq_true, if_false, hattached1, hattached2, Int.toNat_ofNat, hcur1, hcur2]
  rw [if_neg (by omega : ¬ ((i1 : Int) < 0)), if_neg (by omega : ¬ ((i2 : Int) < 0))]
  rw [houts]
  by_cases hsingle : sighash_base hash_type = satoshi_tx_sighash_single
  · have hi := hindex hsingle
    subst hi
    by_cases hrange : tx2.txouts.length ≤ i1
    · simp only [hsingle, hrange, and_self, if_true, Except.map]
    · simp only [hsingle, hrange, and_false, if_false, if_pos hacp, Except.map, hser, hversion,
        legacy_tail, legacy_outputs, houts, hlock]
  · simp only [hsingle, false_and, if_false, if_pos hacp, Except.map, hser, hversion,
      legacy_tail, legacy_outputs, houts, hlock]

/-- C3 (amended) on a sample: type ALL | ANYONE_CAN_PAY, the current input
alone in one transaction and after another input in the other. -/
theorem anyone_can_pay_ignores_other_inputs_witness :
    (get_digest Sha256.sha256 plain_spend_scripts
        { tx := some sample_tx_1_2, sha := hash_session.start, last_hashed_txin_index := -1,
          prehash_zero_sequence := false, txouts_hash := none }
        ((0 : Nat) : Int) 0x81 (some (sample_txout 9000 0x51)) false).map Prod.fst
      = (get_digest Sha256.sha256 plain_spend_scripts
        { tx := some sample_tx_2_2, sha := hash_session.start, last_hashed_txin_index := -1,
          prehash_zero_sequence := false, txouts_hash := none }
        ((1 : Nat) : Int) 0x81 (some (sample_txout 9000 0x51)) false).map Prod.fst :=
  anyone_can_pay_ignores_other_inputs Sha256.sha256 plain_spend_scripts _ _
    sample_tx_1_2 sample_tx_2_2 0 1 (sample_txin 0xaa 0) (sample_txin 0xaa 0) 0x81
    (some (sample_txout 9000 0x51)) (some (sample_txout 9000 0x51))
    (by decide) rfl rfl rfl rfl rfl rfl rfl rfl rfl rfl (by decide)

end SatoshiTx

namespace Ripemd160

theorem getD_take_nat (l : List Nat) (n i : Nat) (h : i < n) :
    (l.take n).getD i 0 = l.getD i 0 := by
  simp [List.getD_eq_getElem?_getD, List.getElem?_take, h]

/-- Absorbing `k` blocks that start at byte `off` of `m` is the fold of
`Transform` over those consecutive 64-byte blocks. -/
theorem absorb_eq_blocks (m : List Nat) (k off : Nat) (s : State5) :
    absorb k s (m.drop off)
      = (List.range k).foldl
          (fun st i => Transform st ((m.drop (off + 64 * i)).take 64)) s := by
  induction k generalizing s off with
  | zero => rfl
  | succ k ih =>
    rw [absorb, List.drop_drop, ih, List.range_succ_eq_map, List.foldl_cons, List.foldl_map,
      Transform_congr s ((m.drop (off + 64 * 0)).take 64) (m.drop off)
        (fun i hi => by rw [Nat.mul_zero, Nat.add_zero]; exact getD_take_nat _ 64 i hi)]
    simp only [Nat.mul_succ, Nat.add_assoc, Nat.add_comm 64]

/-- A sequence of `ripemd160_update` calls absorbs the concatenation of its
inputs. -/
theorem absorbed_foldl (chunks : List (List Nat)) (ctx : ripemd160_ctx) (m : List Nat)
    (h : absorbed ctx m) :
    absorbed (chunks.foldl ripemd160_update ctx) (m ++ chunks.flatten) := by
  induction chunks generalizing ctx m with
  | nil => simpa using h
  | cons x xs ih =>
    have := ih _ _ (absorbed_update ctx m x h)
    simpa [List.append_assoc] using this

/-- C11: the state invariant of `ripemd160_update`.  For the context reached
from `ripemd160_init` by any sequence of `ripemd160_update` calls whose inputs
concatenate to `m`, with `|m| < 2 ^ 64`: `bytes` is `|m|`, `s` is `Transform`
folded from the initial state over the first `|m| / 64` consecutive 64-byte
blocks of `m`, and `buf[0 .. |m| % 64)` holds the last `|m| % 64` bytes of
`m`, fewer than a block. -/
theorem ripemd160_update_invariant (ctx0 : ripemd160_ctx) (chunks : List (List Nat))
    (m : List Nat) (hm : chunks.flatten = m) (hlen : m.length < 2 ^ 64) :
    (chunks.foldl ripemd160_update (ripemd160_init ctx0)).bytes = m.length
      ∧ (chunks.foldl ripemd160_update (ripemd160_init ctx0)).s
        = (List.range (m.length / 64)).foldl
            (fun st i => Transform st ((m.drop (64 * i)).take 64)) Initialize
      ∧ (chunks.foldl ripemd160_update (ripemd160_init ctx0)).buf.take (m.length % 64)
        = m.drop (m.length - m.length % 64)
      ∧ ((chunks.foldl ripemd160_update (ripemd160_init ctx0)).buf.take (m.length % 64)).length
        = m.length % 64
      ∧ (chunks.foldl ripemd160_update (ripemd160_init ctx0)).bytes % 64 < 64
      ∧ (chunks.foldl ripemd160_update (ripemd160_init ctx0)).buf.length = 64 := by
  have h := absorbed_foldl chunks (ripemd160_init ctx0) [] (absorbed_init ctx0)
  rw [List.nil_append, hm] at h
  obtain ⟨hs, hb, hp, hok⟩ := h
  have hbytes : (chunks.foldl ripemd160_update (ripemd160_init ctx0)).bytes = m.length := by
    rw [hb, Nat.mod_eq_of_lt hlen]
  have hblocks := absorb_eq_blocks m (m.length / 64) 0 Initialize
  simp only [List.drop_zero, Nat.zero_add] at hblocks
  have hpend : (chunks.foldl ripemd160_update (ripemd160_init ctx0)).buf.take (m.length % 64)
      = m.drop (m.length - m.length % 64) := by
    have h64 : 64 * (m.length / 64) = m.length - m.length % 64 := by omega
    rw [← h64, ← hp]
    unfold pending
    rw [hbytes]
  refine ⟨hbytes, by rw [hs, hblocks], hpend, ?_, by omega, hok.1⟩
  rw [List.length_take, hok.1]
  omega

/-- C11 on a run of three calls: 61 bytes, 70 bytes, 3 bytes. -/
theorem ripemd160_update_invariant_witness :
    [List.replicate 61 7, List.replicate 70 9, [1, 2, 3]].flatten
        = List.replicate 61 7 ++ List.replicate 70 9 ++ [1, 2, 3]
      ∧ (List.replicate 61 7 ++ List.replicate 70 9 ++ [1, 2, 3]).length < 2 ^ 64
      ∧ ([List.replicate 61 7, List.replicate 70 9, [1, 2, 3]].foldl ripemd160_update
            (ripemd160_init ⟨(1, 2, 3, 4, 5), [9, 9], 77⟩)).bytes
          = (List.replicate 61 7 ++ List.replicate 70 9 ++ [1, 2, 3]).length :=
  ⟨by decide, by decide,
   (ripemd160_update_invariant ⟨(1, 2, 3, 4, 5), [9, 9], 77⟩
      [List.replicate 61 7, List.replicate 70 9, [1, 2, 3]]
      (List.replicate 61 7 ++ List.replicate 70 9 ++ [1, 2, 3]) (by decide) (by decide)).1⟩

end Ripemd160

namespace Ripemd160

/-- C12: `ripemd160_init` is a full reset.  Whatever two contexts held before,
also one that was already updated or finalized, after `ripemd160_init` they
are the same context, with `s` the five initial words, `bytes = 0` and 64
zero bytes in `buf`; so `init; update m; final` writes the same digest for the
same `m` on both. -/
theorem ripemd160_init_reset (ctx1 ctx2 : ripemd160_ctx) (m d : List Nat) :
    ripemd160_init ctx1 = ripemd160_init ctx2
      ∧ (ripemd160_init ctx1).s
        = (0x67452301, 0xEFCDAB89, 0x98BADCFE, 0x10325476, 0xC3D2E1F0)
      ∧ (ripemd160_init ctx1).bytes = 0
      ∧ (ripemd160_init ctx1).buf.length = 64
      ∧ (∀ b ∈ (ripemd160_init ctx1).buf, b = 0)
      ∧ ripemd160_init (ripemd160_update ctx1 d) = ripemd160_init ctx2
      ∧ ripemd160_init (ripemd160_final ctx1).1 = ripemd160_init ctx2
      ∧ ripemd160 ctx1 m = ripemd160 ctx2 m
      ∧ ripemd160 (ripemd160_update ctx1 d) m = ripemd160 ctx2 m
      ∧ ripemd160 (ripemd160_final ctx1).1 m = ripemd160 ctx2 m := by
  refine ⟨rfl, rfl, rfl, rfl, ?_, rfl, rfl, rfl, rfl, rfl⟩
  intro b hb
  exact List.eq_of_mem_replicate hb

theorem final_ctx (ctx : ripemd160_ctx) :
    (ripemd160_final ctx).1
      = ripemd160_update
          (ripemd160_update ctx (pad.take (1 + ((119 - (ctx.bytes % 64)) % 64))))
          (WriteLE64 ((ctx.bytes <<< 3) % 2 ^ 64)) := rfl

theorem final_hash (ctx : ripemd160_ctx) :
    (ripemd160_final ctx).2 = state_bytes (ripemd160_final ctx).1.s := rfl

/-- The bytes `ripemd160_final` feeds to `ripemd160_update` for a count
`n < 2 ^ 61`: `0x80`, zero bytes, the bit length `8 * n`. -/
theorem final_fed_bytes (n : Nat) (hn : n < 2 ^ 61) :
    pad.take (1 + ((119 - (n % 64)) % 64)) ++ WriteLE64 ((n <<< 3) % 2 ^ 64)
      = 0x80 :: List.replicate ((119 - n % 64) % 64) 0 ++ WriteLE64 (8 * n) := by
  have hk63 : (119 - n % 64) % 64 ≤ 63 := by omega
  have hlen : n <<< 3 % 2 ^ 64 = 8 * n := by
    rw [Nat.shiftLeft_eq]
    omega
  rw [hlen, Nat.add_comm 1]
  unfold pad
  rw [List.take_succ_cons, List.take_replicate, Nat.min_eq_left hk63]

/-- C13: padding in `ripemd160_final`.  For a context that has absorbed a
message `m` of `n < 2 ^ 61` bytes: the padding length
`1 + ((119 - n % 64) % 64)` lies in `[1, 64]`, within the 64-byte `pad`
array; the bytes fed during finalization are `0x80`, then zero bytes, then
the 8-byte little-endian bit length `8 * n` taken before padding; afterwards
`bytes` is the smallest multiple of 64 that is at least `n + 9`, nothing is
left pending, and the state returned has absorbed the message and every
byte of the padding. -/
theorem ripemd160_final_padding (ctx : ripemd160_ctx) (m : List Nat)
    (h : absorbed ctx m) (hn : m.length < 2 ^ 61) :
    ctx.bytes = m.length
      ∧ 1 ≤ 1 + ((119 - (ctx.bytes % 64)) % 64)
      ∧ 1 + ((119 - (ctx.bytes % 64)) % 64) ≤ pad.length
      ∧ pad.length = 64
      ∧ (pad.take (1 + ((119 - (ctx.bytes % 64)) % 64))).length
          = 1 + ((119 - (ctx.bytes % 64)) % 64)
      ∧ pad.take (1 + ((119 - (ctx.bytes % 64)) % 64)) ++ WriteLE64 ((ctx.bytes <<< 3) % 2 ^ 64)
          = 0x80 :: List.replicate ((119 - m.length % 64) % 64) 0 ++ WriteLE64 (8 * m.length)
      ∧ (ripemd160_final ctx).1.bytes = 64 * ((m.length + 9 + 63) / 64)
      ∧ (ripemd160_final ctx).1.bytes % 64 = 0
      ∧ m.length + 9 ≤ (ripemd160_final ctx).1.bytes
      ∧ (∀ k, k % 64 = 0 → m.length + 9 ≤ k → (ripemd160_final ctx).1.bytes ≤ k)
      ∧ absorbed (ripemd160_final ctx).1
          (m ++ (0x80 :: List.replicate ((119 - m.length % 64) % 64) 0
            ++ WriteLE64 (8 * m.length)))
      ∧ pending (ripemd160_final ctx).1 = []
      ∧ (ripemd160_final ctx).1.s
          = (List.range ((ripemd160_final ctx).1.bytes / 64)).foldl
              (fun st i => Transform st
                (((m ++ (0x80 :: List.replicate ((119 - m.length % 64) % 64) 0
                    ++ WriteLE64 (8 * m.length))).drop (64 * i)).take 64))
              Initialize
      ∧ (ripemd160_final ctx).2 = state_bytes (ripemd160_final ctx).1.s := by
  have hbytes : ctx.bytes = m.length := by
    rw [h.2.1, Nat.mod_eq_of_lt (by omega)]
  have hpadlen : pad.length = 64 := rfl
  have hfed := final_fed_bytes m.length hn
  have h2 := absorbed_update _ _ (WriteLE64 ((ctx.bytes <<< 3) % 2 ^ 64))
    (absorbed_update ctx m (pad.take (1 + ((119 - (ctx.bytes % 64)) % 64))) h)
  rw [← final_ctx, List.append_assoc, hbytes, hfed] at h2
  have hall : (m ++ (0x80 :: List.replicate ((119 - m.length % 64) % 64) 0
      ++ WriteLE64 (8 * m.length))).length = 64 * ((m.length + 9 + 63) / 64) := by
    simp only [List.length_append, List.length_cons, List.length_replicate, WriteLE64,
      List.length_nil]
    omega
  have hfb : (ripemd160_final ctx).1.bytes = 64 * ((m.length + 9 + 63) / 64) := by
    rw [h2.2.1, hall]
    omega
  have hq : 64 * ((m.length + 9 + 63) / 64) / 64 = (m.length + 9 + 63) / 64 := by omega
  have hblocks := absorb_eq_blocks
    (m ++ (0x80 :: List.replicate ((119 - m.length % 64) % 64) 0 ++ WriteLE64 (8 * m.length)))
    ((m.length + 9 + 63) / 64) 0 Initialize
  simp only [List.drop_zero, Nat.zero_add] at hblocks
  refine ⟨hbytes, by omega, by rw [hpadlen]; omega, hpadlen, ?_, ?_, hfb, by omega, by omega,
    ?_, h2, ?_, ?_, final_hash ctx⟩
  · rw [List.length_take, hpadlen]
    omega
  · rw [hbytes]
    exact hfed
  · intro k hk hle
    rw [hfb]
    omega
  · rw [h2.2.2.1, hall, hq, ← hall]
    exact List.drop_length _
  · rw [h2.1, hall, hq, hfb, hq, hblocks]

/-- C13 on a context that has absorbed "abc": one byte `0x80`, 52 zero bytes
and the length field bring `bytes` to 64. -/
theorem ripemd160_final_padding_witness :
    absorbed (ripemd160_update (ripemd160_init ⟨(1, 2, 3, 4, 5), [9, 9], 77⟩) [0x61, 0x62, 0x63])
        [0x61, 0x62, 0x63]
      ∧ [0x61, 0x62, 0x63].length < 2 ^ 61
      ∧ (ripemd160_final
          (ripemd160_update (ripemd160_init ⟨(1, 2, 3, 4, 5), [9, 9], 77⟩)
            [0x61, 0x62, 0x63])).1.bytes
        = 64 * (([0x61, 0x62, 0x63].length + 9 + 63) / 64) :=
  have habs : absorbed
      (ripemd160_update (ripemd160_init ⟨(1, 2, 3, 4, 5), [9, 9], 77⟩) [0x61, 0x62, 0x63])
      [0x61, 0x62, 0x63] :=
    absorbed_update (ripemd160_init ⟨(1, 2, 3, 4, 5), [9, 9], 77⟩) [] [0x61, 0x62, 0x63]
      (absorbed_init _)
  ⟨habs, by decide, (ripemd160_final_padding _ [0x61, 0x62, 0x63] habs (by decide)).2.2.2.2.2.2.1⟩

end Ripemd160
